import Mathlib

/-!
# bc_sps30: SPS30 particulate-matter sensor driver

A shallow embedding of `src/app/bc_sps30.c`.

Conventions of the embedding:

* `uint8_t` values are natural numbers below `256`; every assignment to a
  `uint8_t` variable is written with an explicit `% 256`.
* A C byte span `(pointer, length)` is a `List Nat`; the length argument is the
  length of the list.
* `float` fields are carried as their 32-bit patterns (natural numbers below
  `2 ^ 32`); no floating-point arithmetic is performed by the driver.
-/

namespace bc_sps30

/-! ## Checksum engine (`_bc_sps30_calculate_crc`, lines 426-448) -/

/-- One pass of the inner `for (int j = 0; j < 8; j++)` body: the `uint8_t`
variable `crc` is promoted to `int`, shifted, possibly XORed with `0x31`, and
truncated on assignment. -/
def crc_bit_step (crc : Nat) : Nat :=
  if crc &&& 0x80 ≠ 0 then ((crc <<< 1) ^^^ 0x31) % 256 else (crc <<< 1) % 256

/-- The inner loop: eight passes of `crc_bit_step` (`j = 0 .. 7`). -/
def crc_inner_loop : Nat → Nat → Nat
  | 0, crc => crc
  | j + 1, crc => crc_inner_loop j (crc_bit_step crc)

/-- Body of the outer loop for one input byte: `crc ^= buffer[i]` followed by
the inner loop. -/
def crc_byte_step (crc : Nat) (byte : Nat) : Nat :=
  crc_inner_loop 8 ((crc ^^^ byte) % 256)

/-- The outer loop `for (i = 0; i < length; i++)` over the span. -/
def crc_outer_loop : List Nat → Nat → Nat
  | [], crc => crc
  | byte :: rest, crc => crc_outer_loop rest (crc_byte_step crc byte)

/-- The function `_bc_sps30_calculate_crc(buffer, length)`: `crc` starts at
`0xff` and is returned after the outer loop. -/
def _bc_sps30_calculate_crc (buffer : List Nat) : Nat :=
  crc_outer_loop buffer 0xff

/-- Inverse of `crc_bit_step` on bytes: the low bit of the result tells whether
`0x31` was XORed in (the shifted value has low bit `0`, `0x31` has low bit `1`).
Used only in proofs. -/
def crc_bit_unstep (y : Nat) : Nat :=
  if y % 2 = 1 then ((y ^^^ 0x31) >>> 1) ||| 0x80 else y >>> 1

/-- The bitwise step as the specification words it: if bit 7 is set, shift
left, truncate to 8 bits and XOR the polynomial `0x31`; otherwise shift left
and truncate to 8 bits. -/
def spec_crc_bit_step (crc : Nat) : Nat :=
  if crc.testBit 7 = true then ((crc <<< 1) % 256) ^^^ 0x31 else (crc <<< 1) % 256

/-- The input `buffer` with bit `k` of the byte at index `i` flipped. -/
def flip_bit (buffer : List Nat) (i k : Nat) : List Nat :=
  buffer.set i (buffer.getD i 0 ^^^ 2 ^ k)

/-! ## Word decoder (`_bc_sps30_convert_to_words`, lines 450-474) -/

/-- The loop `for (i = 0, j = 0; i < buffer_length; i += 3)`.  The first
argument is the remaining span `&buffer[i] ..`, the second the bytes written to
`data8[0 .. j)` so far.  When the length is a multiple of three the remaining
span is either empty (loop exit, `return true`) or holds a whole group
`buffer[i], buffer[i + 1], buffer[i + 2]`.  A remaining span of one or two
bytes arises only when the length test let a length through that is not a
multiple of three, which takes a wrapped product; the source then reads past
the end of the buffer, and the span given here holds no byte for that read:
the loop is taken to end (see `convert_to_words_at` for the call with the
following bytes given). -/
def convert_loop : List Nat → List Nat → Bool × List Nat
  | b0 :: b1 :: b2 :: rest, data8 =>
    if _bc_sps30_calculate_crc [b0, b1] ≠ b2 then (false, data8)
    else convert_loop rest (data8 ++ [b0, b1])
  | _, data8 => (true, data8)

/-- The function `_bc_sps30_convert_to_words(buffer, buffer_length, data,
data_length)`.  `buffer_length` is the length of `buffer`; the result is the
returned flag together with the bytes stored through `data8`.

The test `buffer_length != (data_length * 3)` of line 455 is made in `size_t`,
32 bits wide on the target: the product wraps modulo `2 ^ 32`, and the lengths
are found equal when `buffer_length` equals the wrapped product.  A list whose
length is not below `2 ^ 32` has no `size_t` length; for it the exact product
is compared (see `convert_to_words_size_t`). -/
def _bc_sps30_convert_to_words (buffer : List Nat) (data_length : Nat) : Bool × List Nat :=
  if buffer.length ≠ (data_length * 3) % 2 ^ 32 ∧ buffer.length ≠ data_length * 3 then (false, [])
  else convert_loop buffer []

/-- The same call with the memory at `buffer` given beyond the buffer:
`memory` holds the bytes from `buffer[0]` on, `buffer_length` is passed
separately.  The loop reads the groups at `i = 0, 3, ...` while
`i < buffer_length`, that is the first `3 * ⌈buffer_length / 3⌉` bytes of
`memory`, which `memory` must hold. -/
def convert_to_words_at (memory : List Nat) (buffer_length data_length : Nat) :
    Bool × List Nat :=
  if buffer_length ≠ (data_length * 3) % 2 ^ 32 ∧ buffer_length ≠ data_length * 3 then (false, [])
  else convert_loop (memory.take (3 * ((buffer_length + 2) / 3))) []

/-- A word on the wire: its two data bytes in sensor order followed by the
checksum of those two bytes. -/
def encode_word (w : Nat × Nat) : List Nat :=
  [w.1, w.2, _bc_sps30_calculate_crc [w.1, w.2]]

/-- Encoding of `k` words into `3k` bytes. -/
def encode_words : List (Nat × Nat) → List Nat
  | [] => []
  | w :: ws => encode_word w ++ encode_words ws

/-- The two bytes of every word, in order, without checksums. -/
def word_bytes : List (Nat × Nat) → List Nat
  | [] => []
  | w :: ws => w.1 :: w.2 :: word_bytes ws

/-- Group `g` of `buffer` fails its checksum: the third byte of the group
differs from the checksum of the first two. -/
def group_bad (buffer : List Nat) (g : Nat) : Prop :=
  3 * g + 2 < buffer.length ∧
    _bc_sps30_calculate_crc [buffer.getD (3 * g) 0, buffer.getD (3 * g + 1) 0]
      ≠ buffer.getD (3 * g + 2) 0

/-! ## Byte order macros (lines 11-12) -/

/-- The macro `be16_to_cpu(s)`:
`(((uint16_t)(s) << 8) | (0xff & ((uint16_t)(s)) >> 8))`.  The `uint16_t`
operand is promoted to a 32-bit `int` before the shift, so nothing is
truncated. -/
def be16_to_cpu (s : Nat) : Nat :=
  ((s % 2 ^ 16) <<< 8) ||| (0xff &&& ((s % 2 ^ 16) >>> 8))

/-- The macro `be32_to_cpu(s)`:
`(((uint32_t)be16_to_cpu(s) << 16) | (0xffff & (be16_to_cpu((s) >> 16))))`,
with the shift of the `uint32_t` operand taken modulo `2 ^ 32`. -/
def be32_to_cpu (s : Nat) : Nat :=
  ((((be16_to_cpu s) % 2 ^ 32) <<< 16) % 2 ^ 32) ||| (0xffff &&& be16_to_cpu (s >>> 16))

/-- The member `data[i].u` of the union array overlaid on the byte area
`data8`: the 32-bit word in bytes `4 i .. 4 i + 3`, read by the little-endian
host. -/
def union_u (data8 : List Nat) (i : Nat) : Nat :=
  data8.getD (4 * i) 0 + data8.getD (4 * i + 1) 0 * 2 ^ 8
    + data8.getD (4 * i + 2) 0 * 2 ^ 16 + data8.getD (4 * i + 3) 0 * 2 ^ 24

/-- Big-endian value of four wire bytes. -/
def be_value (b0 b1 b2 b3 : Nat) : Nat :=
  b0 * 2 ^ 24 + b1 * 2 ^ 16 + b2 * 2 ^ 8 + b3

/-! ## Data model

The header `bc_sps30.h` is not part of the sources; the types below are
reconstructed from the specification (section 3) and from the way the source
uses every field. -/

/-- Modelled from the spec: the protocol state enumeration of `bc_sps30.h`
(section 4.4), one constructor per `BC_SPS30_STATE_*` case label of the
switch. -/
inductive bc_sps30_state_t
  | ERROR
  | INITIALIZE
  | GET_SERIAL_NUMBER
  | READ_SERIAL_NUMBER
  | READY
  | START_MEASUREMENT
  | SET_DATAREADY_FLAG
  | READ_DATAREADY_FLAG
  | GET_MEASUREMENT_DATA
  | READ_MEASUREMENT_DATA
  | STOP_MEASUREMENT
  deriving DecidableEq, Repr

/-- Modelled from the spec: the event kinds `BC_SPS30_EVENT_ERROR` and
`BC_SPS30_EVENT_UPDATE` of `bc_sps30.h`. -/
inductive bc_sps30_event_t
  | ERROR
  | UPDATE
  deriving DecidableEq, Repr

/-- Modelled from the spec: the mass concentration record of `bc_sps30.h`;
every field is the 32-bit pattern of a `float`. -/
structure bc_sps30_mass_concentration_t where
  mc_1p0 : Nat
  mc_2p5 : Nat
  mc_4p0 : Nat
  mc_10p0 : Nat
  deriving DecidableEq, Repr

/-- Modelled from the spec: the number concentration record of `bc_sps30.h`;
every field is the 32-bit pattern of a `float`. -/
structure bc_sps30_number_concentration_t where
  nc_0p5 : Nat
  nc_1p0 : Nat
  nc_2p5 : Nat
  nc_4p0 : Nat
  nc_10p0 : Nat
  deriving DecidableEq, Repr

/-- Modelled from the spec: the device handle `bc_sps30_t` of `bc_sps30.h`,
with the fields the source reads and writes.  A function pointer is `none`
for `NULL` and `some id` otherwise. -/
structure bc_sps30_t where
  _i2c_channel : Nat
  _i2c_address : Nat
  _task_id_interval : Nat
  _task_id_measure : Nat
  _event_handler : Option Nat
  _event_param : Nat
  _update_interval : Nat
  _state : bc_sps30_state_t
  _measurement_valid : Bool
  _mass_concentration : bc_sps30_mass_concentration_t
  _number_concentration : bc_sps30_number_concentration_t
  _typical_particle_size : Nat
  deriving DecidableEq, Repr

/-- Delay constants of lines 4-7. -/
def _BC_SPS30_DELAY_RUN : Nat := 100

def _BC_SPS30_DELAY_INITIALIZE : Nat := 500

def _BC_SPS30_DELAY_READ : Nat := 30

def _BC_SPS30_DELAY_MEASUREMENT : Nat := 250

/-- Calls into the external collaborators (bus transport, scheduler, event
callback), in program order.  `dispatch st` records one evaluation of
`switch (self->_state)` with value `st`; it is an observation, not a call.
`event handler self ev param` records one execution of the statement that
raises an event, `if (self->_event_handler != NULL) self->_event_handler(self,
ev, self->_event_param)`, with `handler` the value of `self->_event_handler`:
the callback is called exactly when `handler` is not `none`. -/
inductive effect
  | dispatch (st : bc_sps30_state_t)
  | i2c_init (channel : Nat)
  | i2c_write (channel address : Nat) (buffer : List Nat) (ok : Bool)
  | i2c_read (channel address length : Nat) (reply : Option (List Nat))
  | scheduler_register_interval (tick : Nat)
  | scheduler_register_measure (tick : Nat)
  | plan_absolute (task_id tick : Nat)
  | plan_relative (task_id tick : Nat)
  | plan_now (task_id : Nat)
  | plan_current_relative (tick : Nat)
  | plan_current_from_now (tick : Nat)
  | event (handler : Option Nat) (self : bc_sps30_t) (ev : bc_sps30_event_t) (param : Nat)
  deriving DecidableEq, Repr

/-- The bus transport as a black box: what the `n`-th transaction issued by the
driver returns.  `write_ok n` is the result of `bc_i2c_write`; `read_reply n`
is `none` when `bc_i2c_read` fails and the filled buffer otherwise. -/
structure bc_i2c_bus where
  write_ok : Nat → Bool
  read_reply : Nat → Option (List Nat)

/-- The handle together with the number of bus transactions issued so far and
the calls made to the collaborators. -/
structure task_ctx where
  self : bc_sps30_t
  txn : Nat
  trace : List effect
  deriving DecidableEq, Repr

/-- How one pass through the body of `while (true)` ends. -/
inductive loop_flow
  | next_iteration
  | returned
  deriving DecidableEq, Repr

/-! ## Calls to the collaborators -/

/-- Append one call to the trace. -/
def emit (c : task_ctx) (e : effect) : task_ctx :=
  { c with trace := c.trace ++ [e] }

/-- The assignment `self->_state = st`. -/
def set_state (c : task_ctx) (st : bc_sps30_state_t) : task_ctx :=
  { c with self := { c.self with _state := st } }

/-- The call `bc_i2c_write(self->_i2c_channel, &transfer)` with
`transfer.device_address = self->_i2c_address` and the given buffer. -/
def bc_i2c_write (bus : bc_i2c_bus) (c : task_ctx) (buffer : List Nat) : Bool × task_ctx :=
  (bus.write_ok c.txn,
   { c with
     txn := c.txn + 1
     trace := c.trace ++
       [effect.i2c_write c.self._i2c_channel c.self._i2c_address buffer (bus.write_ok c.txn)] })

/-- The call `bc_i2c_read(self->_i2c_channel, &transfer)` with
`transfer.length = length`; the first component is the filled buffer, or
`none` when the call returns `false`. -/
def bc_i2c_read (bus : bc_i2c_bus) (c : task_ctx) (length : Nat) :
    Option (List Nat) × task_ctx :=
  (bus.read_reply c.txn,
   { c with
     txn := c.txn + 1
     trace := c.trace ++
       [effect.i2c_read c.self._i2c_channel c.self._i2c_address length (bus.read_reply c.txn)] })

/-- The statement that raises an event,
`if (self->_event_handler != NULL) self->_event_handler(self, ev, self->_event_param)`.
The callback, when there is one, receives the handle as it is at the time of
the call (recorded in the trace) and is taken not to write to it. -/
def raise_event (c : task_ctx) (ev : bc_sps30_event_t) : task_ctx :=
  emit c (effect.event c.self._event_handler c.self ev c.self._event_param)

/-- The macro `BC_SPS30_NUM_WORDS(x)`, applied to `sizeof(x)`. -/
def BC_SPS30_NUM_WORDS (size : Nat) : Nat := size / 2

/-- The ten assignments of lines 362-381: `val.u = be32_to_cpu(data[i].u)`
followed by the store of `val.f` into the field. -/
def store_measurement (self : bc_sps30_t) (data8 : List Nat) : bc_sps30_t :=
  { self with
    _mass_concentration :=
      { mc_1p0 := be32_to_cpu (union_u data8 0) % 2 ^ 32
        mc_2p5 := be32_to_cpu (union_u data8 1) % 2 ^ 32
        mc_4p0 := be32_to_cpu (union_u data8 2) % 2 ^ 32
        mc_10p0 := be32_to_cpu (union_u data8 3) % 2 ^ 32 }
    _number_concentration :=
      { nc_0p5 := be32_to_cpu (union_u data8 4) % 2 ^ 32
        nc_1p0 := be32_to_cpu (union_u data8 5) % 2 ^ 32
        nc_2p5 := be32_to_cpu (union_u data8 6) % 2 ^ 32
        nc_4p0 := be32_to_cpu (union_u data8 7) % 2 ^ 32
        nc_10p0 := be32_to_cpu (union_u data8 8) % 2 ^ 32 }
    _typical_particle_size := be32_to_cpu (union_u data8 9) % 2 ^ 32 }

/-! ## Protocol state machine (`_bc_sps30_task_measure`, lines 122-424) -/

/-- One pass through the body of `while (true)`: the `switch` on
`self->_state`.  The `default` label is not reachable for a value of the
enumeration. -/
def task_measure_iter (bus : bc_i2c_bus) (c0 : task_ctx) : loop_flow × task_ctx :=
  let c := emit c0 (effect.dispatch c0.self._state)
  match c0.self._state with
  | .ERROR =>
    let c1 := { c with self := { c.self with _measurement_valid := false } }
    let c2 := raise_event c1 .ERROR
    (.next_iteration, set_state c2 .INITIALIZE)
  | .READY => (.returned, c)
  | .INITIALIZE => (.next_iteration, set_state c .GET_SERIAL_NUMBER)
  | .GET_SERIAL_NUMBER =>
    let r := bc_i2c_write bus (set_state c .ERROR) [0xd0, 0x33]
    if r.1 = false then (.next_iteration, r.2)
    else (.returned,
      emit (set_state r.2 .READ_SERIAL_NUMBER) (.plan_current_from_now _BC_SPS30_DELAY_READ))
  | .READ_SERIAL_NUMBER =>
    let r := bc_i2c_read bus (set_state c .ERROR) 48
    match r.1 with
    | none => (.next_iteration, r.2)
    | some buffer =>
      if (_bc_sps30_convert_to_words buffer (BC_SPS30_NUM_WORDS 32)).1 = false then
        (.next_iteration, r.2)
      else (.next_iteration, set_state r.2 .READY)
  | .START_MEASUREMENT =>
    let r := bc_i2c_write bus (set_state c .ERROR)
      [0x00, 0x10, 0x03, 0x00, _bc_sps30_calculate_crc [0x03, 0x00]]
    if r.1 = false then (.next_iteration, r.2)
    else (.next_iteration, set_state r.2 .SET_DATAREADY_FLAG)
  | .SET_DATAREADY_FLAG =>
    let r := bc_i2c_write bus (set_state c .ERROR) [0x02, 0x02]
    if r.1 = false then (.next_iteration, r.2)
    else (.returned,
      emit (set_state r.2 .READ_DATAREADY_FLAG) (.plan_current_from_now _BC_SPS30_DELAY_READ))
  | .READ_DATAREADY_FLAG =>
    let r := bc_i2c_read bus (set_state c .ERROR) 3
    match r.1 with
    | none => (.next_iteration, r.2)
    | some buffer =>
      if _bc_sps30_calculate_crc (buffer.take 2) ≠ buffer.getD 2 0 then (.next_iteration, r.2)
      else if buffer.getD 1 0 = 0x01 then (.next_iteration, set_state r.2 .GET_MEASUREMENT_DATA)
      else (.returned,
        emit (set_state r.2 .READ_DATAREADY_FLAG)
          (.plan_current_from_now _BC_SPS30_DELAY_MEASUREMENT))
  | .GET_MEASUREMENT_DATA =>
    let r := bc_i2c_write bus (set_state c .ERROR) [0x03, 0x00]
    if r.1 = false then (.next_iteration, r.2)
    else (.returned,
      emit (set_state r.2 .READ_MEASUREMENT_DATA) (.plan_current_from_now _BC_SPS30_DELAY_READ))
  | .READ_MEASUREMENT_DATA =>
    let r := bc_i2c_read bus (set_state c .ERROR) 60
    match r.1 with
    | none => (.next_iteration, r.2)
    | some buffer =>
      let w := _bc_sps30_convert_to_words buffer (BC_SPS30_NUM_WORDS 40)
      if w.1 = false then (.next_iteration, r.2)
      else
        let c1 := { r.2 with
          self := { store_measurement r.2.self w.2 with _measurement_valid := true } }
        let c2 := raise_event c1 .UPDATE
        (.next_iteration, set_state c2 .STOP_MEASUREMENT)
  | .STOP_MEASUREMENT =>
    let r := bc_i2c_write bus (set_state c .ERROR) [0x01, 0x04]
    if r.1 = false then (.next_iteration, r.2)
    else (.next_iteration, set_state r.2 .READY)

/-- The function `_bc_sps30_task_measure`: the `while (true)` loop, run for at
most `fuel` passes.  The result is `none` when the loop has not returned
within `fuel` passes. -/
def _bc_sps30_task_measure (bus : bc_i2c_bus) : Nat → task_ctx → Option task_ctx
  | 0, _ => none
  | fuel + 1, c =>
    match task_measure_iter bus c with
    | (.returned, c1) => some c1
    | (.next_iteration, c1) => _bc_sps30_task_measure bus fuel c1

/-! ## Public facade (lines 21-120) -/

/-- The function `bc_sps30_init`: `memset` of the handle to zero, then the
assignments of lines 25-31.  `BC_TICK_INFINITY` (`tick_infinity`) and the task
identifiers returned by `bc_scheduler_register` come from outside the
sources and are parameters. -/
def bc_sps30_init (tick_infinity id_interval id_measure : Nat) (i2c_channel i2c_address : Nat) :
    bc_sps30_t × List effect :=
  ({ _i2c_channel := i2c_channel
     _i2c_address := i2c_address
     _task_id_interval := id_interval
     _task_id_measure := id_measure
     _event_handler := none
     _event_param := 0
     _update_interval := 0
     _state := .INITIALIZE
     _measurement_valid := false
     _mass_concentration := { mc_1p0 := 0, mc_2p5 := 0, mc_4p0 := 0, mc_10p0 := 0 }
     _number_concentration := { nc_0p5 := 0, nc_1p0 := 0, nc_2p5 := 0, nc_4p0 := 0, nc_10p0 := 0 }
     _typical_particle_size := 0 },
   [effect.scheduler_register_interval tick_infinity,
    effect.scheduler_register_measure _BC_SPS30_DELAY_RUN,
    effect.i2c_init i2c_channel])

/-- The function `bc_sps30_set_event_handler`. -/
def bc_sps30_set_event_handler (self : bc_sps30_t) (event_handler : Option Nat)
    (event_param : Nat) : bc_sps30_t :=
  { self with _event_handler := event_handler, _event_param := event_param }

/-- The function `bc_sps30_set_update_interval`; `tick_infinity` is
`BC_TICK_INFINITY`. -/
def bc_sps30_set_update_interval (tick_infinity : Nat) (self : bc_sps30_t) (interval : Nat) :
    bc_sps30_t × List effect :=
  let self1 := { self with _update_interval := interval }
  if self1._update_interval = tick_infinity then
    (self1, [effect.plan_absolute self1._task_id_interval tick_infinity])
  else
    (self1, [effect.plan_relative self1._task_id_interval _BC_SPS30_DELAY_INITIALIZE])

/-- The function `bc_sps30_measure`: returned flag, handle afterwards, and the
scheduler calls made. -/
def bc_sps30_measure (self : bc_sps30_t) : Bool × bc_sps30_t × List effect :=
  if self._state = .READY then
    (true, { self with _state := .START_MEASUREMENT }, [effect.plan_now self._task_id_measure])
  else
    (false, self, [])

/-- The function `bc_sps30_get_mass_concentration`: returned flag, handle
afterwards, and the caller's record `*mass_concentration` afterwards. -/
def bc_sps30_get_mass_concentration (self : bc_sps30_t)
    (mass_concentration : bc_sps30_mass_concentration_t) :
    Bool × bc_sps30_t × bc_sps30_mass_concentration_t :=
  if self._measurement_valid = false then (false, self, mass_concentration)
  else
    (true, self,
     { mass_concentration with
       mc_1p0 := self._mass_concentration.mc_1p0
       mc_2p5 := self._mass_concentration.mc_2p5
       mc_4p0 := self._mass_concentration.mc_4p0
       mc_10p0 := self._mass_concentration.mc_10p0 })

/-- The function `bc_sps30_get_number_concentration`. -/
def bc_sps30_get_number_concentration (self : bc_sps30_t)
    (number_concentration : bc_sps30_number_concentration_t) :
    Bool × bc_sps30_t × bc_sps30_number_concentration_t :=
  if self._measurement_valid = false then (false, self, number_concentration)
  else
    (true, self,
     { number_concentration with
       nc_0p5 := self._number_concentration.nc_0p5
       nc_1p0 := self._number_concentration.nc_1p0
       nc_2p5 := self._number_concentration.nc_2p5
       nc_4p0 := self._number_concentration.nc_4p0
       nc_10p0 := self._number_concentration.nc_10p0 })

/-- The function `bc_sps30_get_typical_particle_size`. -/
def bc_sps30_get_typical_particle_size (self : bc_sps30_t) (typical_particle_size : Nat) :
    Bool × bc_sps30_t × Nat :=
  if self._measurement_valid = false then (false, self, typical_particle_size)
  else (true, self, self._typical_particle_size)

/-- The function `_bc_sps30_task_interval`: a measurement request followed by
`bc_scheduler_plan_current_relative(self->_update_interval)`. -/
def _bc_sps30_task_interval (self : bc_sps30_t) : bc_sps30_t × List effect :=
  let r := bc_sps30_measure self
  (r.2.1, r.2.2 ++ [effect.plan_current_relative r.2.1._update_interval])

/-! ## Observations on traces -/

/-- The states in which the `switch` was evaluated, in order. -/
def dispatched : List effect → List bc_sps30_state_t
  | [] => []
  | effect.dispatch st :: rest => st :: dispatched rest
  | _ :: rest => dispatched rest

/-- The events raised, in order, each with the handle as it was at that time. -/
def events : List effect → List (bc_sps30_event_t × bc_sps30_t)
  | [] => []
  | effect.event _ self ev _ :: rest => (ev, self) :: events rest
  | _ :: rest => events rest

/-- The calls made to a registered callback, in order: the callback, the event
and the handle as it was at the time of the call. -/
def callbacks : List effect → List (Nat × bc_sps30_event_t × bc_sps30_t)
  | [] => []
  | effect.event (some handler) self ev _ :: rest => (handler, ev, self) :: callbacks rest
  | _ :: rest => callbacks rest

/-- The scheduler calls of a trace, in order. -/
def scheduled : List effect → List effect
  | [] => []
  | effect.plan_absolute a b :: rest => effect.plan_absolute a b :: scheduled rest
  | effect.plan_relative a b :: rest => effect.plan_relative a b :: scheduled rest
  | effect.plan_now a :: rest => effect.plan_now a :: scheduled rest
  | effect.plan_current_relative a :: rest => effect.plan_current_relative a :: scheduled rest
  | effect.plan_current_from_now a :: rest => effect.plan_current_from_now a :: scheduled rest
  | _ :: rest => scheduled rest

/-- Group `g` of `buffer` carries a correct checksum. -/
@[reducible] def group_ok (buffer : List Nat) (g : Nat) : Prop :=
  _bc_sps30_calculate_crc [buffer.getD (3 * g) 0, buffer.getD (3 * g + 1) 0]
    = buffer.getD (3 * g + 2) 0

/-- The data bytes of a checksummed buffer: the first two bytes of every
3-byte group. -/
def data_bytes : List Nat → List Nat
  | b0 :: b1 :: _ :: rest => b0 :: b1 :: data_bytes rest
  | _ => []

/-- The big-endian value of the four data bytes of groups `2 i` and `2 i + 1`
of a measurement reply. -/
def wire_value (buffer : List Nat) (i : Nat) : Nat :=
  be_value (buffer.getD (6 * i) 0) (buffer.getD (6 * i + 1) 0)
    (buffer.getD (6 * i + 3) 0) (buffer.getD (6 * i + 4) 0)


/-- The bus transaction of the state in `c` fails: the write or read returns
`false`, or the reply that was read fails its length or checksum validation.
States that issue no transaction never satisfy this. -/
def transaction_fails (bus : bc_i2c_bus) (c : task_ctx) : Prop :=
  match c.self._state with
  | .GET_SERIAL_NUMBER => bus.write_ok c.txn = false
  | .START_MEASUREMENT => bus.write_ok c.txn = false
  | .SET_DATAREADY_FLAG => bus.write_ok c.txn = false
  | .GET_MEASUREMENT_DATA => bus.write_ok c.txn = false
  | .STOP_MEASUREMENT => bus.write_ok c.txn = false
  | .READ_SERIAL_NUMBER =>
    match bus.read_reply c.txn with
    | none => True
    | some buffer => (_bc_sps30_convert_to_words buffer 16).1 = false
  | .READ_DATAREADY_FLAG =>
    match bus.read_reply c.txn with
    | none => True
    | some buffer => _bc_sps30_calculate_crc (buffer.take 2) ≠ buffer.getD 2 0
  | .READ_MEASUREMENT_DATA =>
    match bus.read_reply c.txn with
    | none => True
    | some buffer => (_bc_sps30_convert_to_words buffer 20).1 = false
  | .ERROR => False
  | .READY => False
  | .INITIALIZE => False

/-- The calls a handle's callback receives when event `ev` is raised with the
handle in condition `snapshot`: one call when a callback is registered, none
when `_event_handler` is `NULL`. -/
def callback_calls (self : bc_sps30_t) (ev : bc_sps30_event_t) (snapshot : bc_sps30_t) :
    List (Nat × bc_sps30_event_t × bc_sps30_t) :=
  match self._event_handler with
  | none => []
  | some handler => [(handler, ev, snapshot)]


/-! ## Concrete inputs used in the worked examples -/

/-- The two wire words (four data bytes, most significant first) of a 32-bit
pattern. -/
def pattern_words (p : Nat) : List (Nat × Nat) :=
  [(p / 2 ^ 24 % 256, p / 2 ^ 16 % 256), (p / 2 ^ 8 % 256, p % 256)]

/-- The 60-byte measurement reply carrying ten 32-bit patterns. -/
def measurement_payload (patterns : List Nat) : List Nat :=
  encode_words (patterns.flatMap pattern_words)

/-- The bit patterns of the floats `1.0, 2.0, ..., 10.0`. -/
def float_patterns_1_to_10 : List Nat :=
  [0x3F800000, 0x40000000, 0x40400000, 0x40800000, 0x40A00000,
   0x40C00000, 0x40E00000, 0x41000000, 0x41100000, 0x41200000]

/-- A handle as left by `bc_sps30_init` on channel `0`, address `0x69`, with
callback `7` registered, placed in the given state. -/
def example_handle (st : bc_sps30_state_t) : bc_sps30_t :=
  { bc_sps30_set_event_handler (bc_sps30_init (2 ^ 64 - 1) 1 2 0 0x69).1 (some 7) 0 with
    _state := st }

/-- A bus on which every write succeeds and every read delivers `reply`. -/
def constant_bus (reply : List Nat) : bc_i2c_bus :=
  { write_ok := fun _ => true, read_reply := fun _ => some reply }


/-- A bus on which every transaction fails. -/
def failing_bus : bc_i2c_bus :=
  { write_ok := fun _ => false, read_reply := fun _ => none }


/-- A bus on which every write succeeds, the read issued as transaction `2`
delivers a data-ready reply with low byte `0x01` and a correct checksum, and
every other read delivers the measurement reply encoding `1.0 .. 10.0`. -/
def cycle_bus : bc_i2c_bus :=
  { write_ok := fun _ => true
    read_reply := fun n =>
      if n = 2 then some [0x00, 0x01, _bc_sps30_calculate_crc [0x00, 0x01]]
      else some (measurement_payload float_patterns_1_to_10) }


/-- A 48-byte serial-number reply: sixteen words `0x30 0x31`, each followed by
its checksum. -/
def serial_payload : List Nat :=
  encode_words (List.replicate 16 (0x30, 0x31))

/-- The lengths requested by the read transactions of a trace, in order. -/
def read_requests : List effect → List Nat
  | [] => []
  | effect.i2c_read _ _ length _ :: rest => length :: read_requests rest
  | _ :: rest => read_requests rest

/-- The write transactions of a trace, in order: device address and bytes
handed to the bus. -/
def write_payloads : List effect → List (Nat × List Nat)
  | [] => []
  | effect.i2c_write _ address buffer _ :: rest => (address, buffer) :: write_payloads rest
  | _ :: rest => write_payloads rest

/-- A bus on which every write succeeds and the status reads issued as
transactions `2`, `3`, `4` report not ready (`0x00 0x00`), every later read
reports ready (`0x00 0x01`), each with its correct checksum. -/
def polling_bus : bc_i2c_bus :=
  { write_ok := fun _ => true
    read_reply := fun n =>
      if n < 5 then some [0x00, 0x00, _bc_sps30_calculate_crc [0x00, 0x00]]
      else some [0x00, 0x01, _bc_sps30_calculate_crc [0x00, 0x01]] }

/-- A handle in the given state that holds a valid measurement: the patterns of
`1.0 .. 10.0` in the ten fields, valid flag set, callback `7` registered. -/
def measured_handle (st : bc_sps30_state_t) : bc_sps30_t :=
  { example_handle st with
    _measurement_valid := true
    _mass_concentration :=
      { mc_1p0 := 0x3F800000, mc_2p5 := 0x40000000, mc_4p0 := 0x40400000,
        mc_10p0 := 0x40800000 }
    _number_concentration :=
      { nc_0p5 := 0x40A00000, nc_1p0 := 0x40C00000, nc_2p5 := 0x40E00000,
        nc_4p0 := 0x41000000, nc_10p0 := 0x41100000 }
    _typical_particle_size := 0x41200000 }

/-- The first `n` passes of the `while (true)` loop of one invocation of
`_bc_sps30_task_measure`, stopping early at a pass that returns. -/
def task_measure_passes (bus : bc_i2c_bus) : Nat → task_ctx → task_ctx
  | 0, c => c
  | n + 1, c =>
    match task_measure_iter bus c with
    | (.returned, c1) => c1
    | (.next_iteration, c1) => task_measure_passes bus n c1

/-- The number of events of kind `ev` raised in a trace. -/
def count_events (ev : bc_sps30_event_t) (trace : List effect) : Nat :=
  ((events trace).map Prod.fst).count ev

/-- The number of callback calls with event kind `ev` in a trace. -/
def count_callbacks (ev : bc_sps30_event_t) (trace : List effect) : Nat :=
  ((callbacks trace).map (fun x => x.2.1)).count ev

/-- What the scheduler and the application can do with a handle between two
scheduler callbacks: call the facade, or run one of the two tasks.  A step-task
invocation comes with the bus behaviour it meets, the number of the first
transaction it issues and a bound on the passes of its loop. -/
inductive driver_op
  | measure
  | set_event_handler (event_handler : Option Nat) (event_param : Nat)
  | set_update_interval (tick_infinity interval : Nat)
  | task_interval
  | task_measure (bus : bc_i2c_bus) (txn fuel : Nat)

/-- The handle after one operation; `none` when a step-task invocation has not
returned within its bound. -/
def apply_op : driver_op → bc_sps30_t → Option bc_sps30_t
  | .measure, self => some (bc_sps30_measure self).2.1
  | .set_event_handler event_handler event_param, self =>
    some (bc_sps30_set_event_handler self event_handler event_param)
  | .set_update_interval tick_infinity interval, self =>
    some (bc_sps30_set_update_interval tick_infinity self interval).1
  | .task_interval, self => some (_bc_sps30_task_interval self).1
  | .task_measure bus txn fuel, self =>
    match _bc_sps30_task_measure bus fuel { self := self, txn := txn, trace := [] } with
    | none => none
    | some c => some c.self

/-- The handle after a sequence of operations, each run to completion. -/
def apply_ops : List driver_op → bc_sps30_t → Option bc_sps30_t
  | [], self => some self
  | op :: ops, self =>
    match apply_op op self with
    | none => none
    | some self1 => apply_ops ops self1

/-- A bus on which every read delivers the measurement reply encoding
`1.0 .. 10.0` and every write succeeds except the one issued as transaction
`5`. -/
def stop_failing_bus : bc_i2c_bus :=
  { write_ok := fun n => decide (n ≠ 5)
    read_reply := fun _ => some (measurement_payload float_patterns_1_to_10) }

/-! # Theorems -/

/-! ## Checksum engine -/

theorem crc_bit_step_lt (c : Nat) : crc_bit_step c < 256 := by
  unfold crc_bit_step
  split <;> exact Nat.mod_lt _ (by decide)

theorem crc_inner_loop_lt (j c : Nat) (h : c < 256) : crc_inner_loop j c < 256 := by
  induction j generalizing c with
  | zero => simpa [crc_inner_loop] using h
  | succ j ih => exact ih _ (crc_bit_step_lt c)

theorem crc_byte_step_lt (c x : Nat) : crc_byte_step c x < 256 :=
  crc_inner_loop_lt 8 _ (Nat.mod_lt _ (by decide))

theorem crc_outer_loop_lt (l : List Nat) (c : Nat) (h : c < 256) : crc_outer_loop l c < 256 := by
  induction l generalizing c with
  | nil => simpa [crc_outer_loop] using h
  | cons x rest ih => exact ih _ (crc_byte_step_lt c x)

theorem calculate_crc_lt (l : List Nat) : _bc_sps30_calculate_crc l < 256 :=
  crc_outer_loop_lt l 0xff (by decide)

theorem crc_outer_loop_append (l : List Nat) (x c : Nat) :
    crc_outer_loop (l ++ [x]) c = crc_byte_step (crc_outer_loop l c) x := by
  induction l generalizing c with
  | nil => rfl
  | cons y rest ih => exact ih _

theorem crc_inner_loop_eq_iterate (j c : Nat) :
    crc_inner_loop j c = Nat.iterate crc_bit_step j c := by
  induction j generalizing c with
  | zero => rfl
  | succ j ih => exact ih _

set_option maxRecDepth 100000 in
theorem spec_crc_bit_step_byte : ∀ w < 256, spec_crc_bit_step w = crc_bit_step w := by
  decide

theorem spec_crc_bit_step_mod (v : Nat) : spec_crc_bit_step v = spec_crc_bit_step (v % 256) := by
  have h1 : (v % 256).testBit 7 = v.testBit 7 := by
    have := Nat.testBit_mod_two_pow v 8 7
    simpa using this
  have h2 : ((v % 256) <<< 1) % 256 = (v <<< 1) % 256 := by
    simp only [Nat.shiftLeft_eq]
    omega
  unfold spec_crc_bit_step
  rw [h1, h2]

theorem spec_crc_bit_step_eq (v : Nat) : spec_crc_bit_step v = crc_bit_step (v % 256) := by
  rw [spec_crc_bit_step_mod, spec_crc_bit_step_byte _ (Nat.mod_lt _ (by decide))]

theorem spec_iterate_eq (n v : Nat) :
    Nat.iterate spec_crc_bit_step (n + 1) v = Nat.iterate crc_bit_step (n + 1) (v % 256) := by
  induction n generalizing v with
  | zero => exact spec_crc_bit_step_eq v
  | succ n ih =>
    show Nat.iterate spec_crc_bit_step (n + 1) (spec_crc_bit_step v) = _
    rw [ih, spec_crc_bit_step_eq, Nat.mod_eq_of_lt (crc_bit_step_lt _)]
    rfl

/-- C1: `_bc_sps30_calculate_crc` is the CRC-8 with initial value `0xFF` and
polynomial `0x31`, most significant bit first, without final XOR: the checksum
of the empty sequence is `0xFF`; the checksum of `b ++ [x]` is obtained from
`checksum b XOR x` by eight steps of the specification's bitwise step; and the
known vectors `[0xBE, 0xEF] ↦ 0x92`, `[0x00, 0x00] ↦ 0x81`,
`[0x03, 0x00] ↦ 0xAC` hold. -/
theorem C1_crc8_init_ff_poly_31 :
    _bc_sps30_calculate_crc [] = 0xFF ∧
    (∀ (b : List Nat) (x : Nat),
      _bc_sps30_calculate_crc (b ++ [x])
        = Nat.iterate spec_crc_bit_step 8 (_bc_sps30_calculate_crc b ^^^ x)) ∧
    _bc_sps30_calculate_crc [0xBE, 0xEF] = 0x92 ∧
    _bc_sps30_calculate_crc [0x00, 0x00] = 0x81 ∧
    _bc_sps30_calculate_crc [0x03, 0x00] = 0xAC := by
  refine ⟨rfl, ?_, by decide, by decide, by decide⟩
  intro b x
  unfold _bc_sps30_calculate_crc
  rw [crc_outer_loop_append, spec_iterate_eq 7]
  unfold crc_byte_step
  exact crc_inner_loop_eq_iterate 8 _

theorem xor_mod_256 (a b : Nat) : (a ^^^ b) % 256 = (a % 256) ^^^ (b % 256) := by
  apply Nat.eq_of_testBit_eq
  intro i
  have h256 : (256 : Nat) = 2 ^ 8 := by norm_num
  rw [h256]
  simp only [Nat.testBit_mod_two_pow, Nat.testBit_xor]
  cases decide (i < 8) <;> simp

set_option maxRecDepth 100000 in
theorem crc_bit_unstep_step : ∀ a < 256, crc_bit_unstep (crc_bit_step a) = a := by
  decide

theorem crc_bit_step_inj (a b : Nat) (ha : a < 256) (hb : b < 256)
    (h : crc_bit_step a = crc_bit_step b) : a = b := by
  rw [← crc_bit_unstep_step a ha, ← crc_bit_unstep_step b hb, h]

theorem crc_inner_loop_inj (j a b : Nat) (ha : a < 256) (hb : b < 256)
    (h : crc_inner_loop j a = crc_inner_loop j b) : a = b := by
  induction j generalizing a b with
  | zero => simpa [crc_inner_loop] using h
  | succ j ih =>
    exact crc_bit_step_inj a b ha hb
      (ih _ _ (crc_bit_step_lt a) (crc_bit_step_lt b) h)

theorem crc_byte_step_inj (x a b : Nat) (ha : a < 256) (hb : b < 256)
    (h : crc_byte_step a x = crc_byte_step b x) : a = b := by
  have h1 := crc_inner_loop_inj 8 _ _ (Nat.mod_lt _ (by decide)) (Nat.mod_lt _ (by decide)) h
  rw [xor_mod_256, xor_mod_256, Nat.mod_eq_of_lt ha, Nat.mod_eq_of_lt hb] at h1
  exact Nat.xor_left_injective h1

theorem crc_outer_loop_inj (l : List Nat) (a b : Nat) (ha : a < 256) (hb : b < 256)
    (h : crc_outer_loop l a = crc_outer_loop l b) : a = b := by
  induction l generalizing a b with
  | nil => simpa [crc_outer_loop] using h
  | cons x rest ih =>
    exact crc_byte_step_inj x a b ha hb
      (ih _ _ (crc_byte_step_lt a x) (crc_byte_step_lt b x) h)

theorem crc_byte_step_flip (c x k : Nat) (hk : k < 8) :
    crc_byte_step c (x ^^^ 2 ^ k) ≠ crc_byte_step c x := by
  intro h
  have h1 := crc_inner_loop_inj 8 _ _ (Nat.mod_lt _ (by decide)) (Nat.mod_lt _ (by decide)) h
  have hlt : 2 ^ k < 256 := by
    have : (256 : Nat) = 2 ^ 8 := by norm_num
    rw [this]
    exact Nat.pow_lt_pow_right (by decide) hk
  rw [← Nat.xor_assoc, xor_mod_256 (c ^^^ x) (2 ^ k), Nat.mod_eq_of_lt hlt] at h1
  have h2 : (c ^^^ x) % 256 ^^^ 2 ^ k = (c ^^^ x) % 256 ^^^ 0 := by
    rw [Nat.xor_zero]
    exact h1
  have h3 : 2 ^ k = 0 := Nat.xor_right_injective h2
  exact absurd h3 (by positivity)

theorem crc_outer_loop_flip (l : List Nat) (i k c : Nat) (hc : c < 256)
    (hi : i < l.length) (hk : k < 8) :
    crc_outer_loop (flip_bit l i k) c ≠ crc_outer_loop l c := by
  induction l generalizing i c with
  | nil => simp at hi
  | cons x rest ih =>
    cases i with
    | zero =>
      intro h
      have h1 : flip_bit (x :: rest) 0 k = (x ^^^ 2 ^ k) :: rest := by
        simp [flip_bit]
      rw [h1] at h
      exact crc_byte_step_flip c x k hk
        (crc_outer_loop_inj rest _ _ (crc_byte_step_lt _ _) (crc_byte_step_lt _ _) h)
    | succ i =>
      have h1 : flip_bit (x :: rest) (i + 1) k = x :: flip_bit rest i k := by
        simp [flip_bit]
      rw [h1]
      exact ih i _ (crc_byte_step_lt c x) (by simpa using hi)

/-- C2: for every byte sequence, every index `i` into it and every bit
position `k < 8`, flipping bit `k` of byte `i` changes the value returned by
`_bc_sps30_calculate_crc`. -/
theorem C2_single_bit_flip_changes_crc (buffer : List Nat) (i k : Nat)
    (hi : i < buffer.length) (hk : k < 8) :
    _bc_sps30_calculate_crc (flip_bit buffer i k) ≠ _bc_sps30_calculate_crc buffer :=
  crc_outer_loop_flip buffer i k 0xff (by decide) hi hk

/-- Witness for C2 at `[0xBE, 0xEF]`, byte `1`, bit `3`: the modified input is
`[0xBE, 0xE7]`. -/
theorem C2_single_bit_flip_changes_crc_witness :
    (1 < [0xBE, 0xEF].length) ∧ (3 < 8) ∧ flip_bit [0xBE, 0xEF] 1 3 = [0xBE, 0xE7] ∧
    _bc_sps30_calculate_crc (flip_bit [0xBE, 0xEF] 1 3) ≠ _bc_sps30_calculate_crc [0xBE, 0xEF] :=
  ⟨by decide, by decide, by decide,
    C2_single_bit_flip_changes_crc [0xBE, 0xEF] 1 3 (by decide) (by decide)⟩

/-! ## Word decoder -/

theorem encode_words_length (ws : List (Nat × Nat)) :
    (encode_words ws).length = ws.length * 3 := by
  induction ws with
  | nil => rfl
  | cons w ws ih => simp [encode_words, encode_word, ih]; omega

theorem word_bytes_length (ws : List (Nat × Nat)) :
    (word_bytes ws).length = 2 * ws.length := by
  induction ws with
  | nil => rfl
  | cons w ws ih => simp [word_bytes, ih]; omega

theorem convert_loop_encode (ws : List (Nat × Nat)) (data8 : List Nat) :
    convert_loop (encode_words ws) data8 = (true, data8 ++ word_bytes ws) := by
  induction ws generalizing data8 with
  | nil => simp [encode_words, word_bytes, convert_loop]
  | cons w ws ih =>
    simp [encode_words, encode_word, word_bytes, convert_loop, ih]

/-- C3: for every `k` and every sequence `ws` of `k` words (each given by its
two bytes in wire order), decoding the `3 k` bytes produced by `encode_words`
with expected word count `k` succeeds, and the bytes stored are exactly the
two bytes of every word, in the original order (`2 k` bytes). -/
theorem C3_convert_to_words_round_trip (ws : List (Nat × Nat)) :
    (encode_words ws).length = 3 * ws.length ∧
    _bc_sps30_convert_to_words (encode_words ws) ws.length = (true, word_bytes ws) ∧
    (word_bytes ws).length = 2 * ws.length := by
  refine ⟨by rw [encode_words_length]; omega, ?_, word_bytes_length ws⟩
  unfold _bc_sps30_convert_to_words
  rw [if_neg (by rw [encode_words_length]; simp), convert_loop_encode]
  simp

theorem convert_loop_false_iff : ∀ (l data8 : List Nat),
    (convert_loop l data8).1 = false ↔ ∃ g, group_bad l g
  | [], data8 => by
    simp [convert_loop, group_bad]
  | [_], data8 => by
    simp [convert_loop, group_bad]
  | [_, _], data8 => by
    simp [convert_loop, group_bad]
  | b0 :: b1 :: b2 :: rest, data8 => by
    have ih := convert_loop_false_iff rest (data8 ++ [b0, b1])
    have shift : ∀ g, group_bad (b0 :: b1 :: b2 :: rest) (g + 1) ↔ group_bad rest g := by
      intro g
      have e0 : 3 * (g + 1) = 3 * g + 1 + 1 + 1 := by omega
      have e1 : 3 * (g + 1) + 1 = 3 * g + 1 + 1 + 1 + 1 := by omega
      have e2 : 3 * (g + 1) + 2 = 3 * g + 2 + 1 + 1 + 1 := by omega
      unfold group_bad
      rw [e2, e1, e0]
      simp only [List.getD_cons_succ, List.length_cons]
      constructor
      · rintro ⟨h1, h2⟩
        exact ⟨by omega, h2⟩
      · rintro ⟨h1, h2⟩
        exact ⟨by omega, h2⟩
    have zero : group_bad (b0 :: b1 :: b2 :: rest) 0 ↔ _bc_sps30_calculate_crc [b0, b1] ≠ b2 := by
      simp [group_bad]
    by_cases hcrc : _bc_sps30_calculate_crc [b0, b1] = b2
    · have hl : convert_loop (b0 :: b1 :: b2 :: rest) data8
          = convert_loop rest (data8 ++ [b0, b1]) := by
        simp [convert_loop, hcrc]
      rw [hl, ih]
      constructor
      · rintro ⟨g, hg⟩
        exact ⟨g + 1, (shift g).2 hg⟩
      · rintro ⟨g, hg⟩
        cases g with
        | zero => exact absurd hcrc (zero.1 hg)
        | succ g => exact ⟨g, (shift g).1 hg⟩
    · have hl : convert_loop (b0 :: b1 :: b2 :: rest) data8 = (false, data8) := by
        simp [convert_loop, hcrc]
      rw [hl]
      exact ⟨fun _ => ⟨0, zero.2 hcrc⟩, fun _ => rfl⟩

/-- For a buffer whose length is a `size_t` value the length test is the
comparison with the wrapped product. -/
theorem convert_to_words_size_t (buffer : List Nat) (data_length : Nat)
    (hlen : buffer.length < 2 ^ 32) :
    _bc_sps30_convert_to_words buffer data_length
      = if buffer.length ≠ (data_length * 3) % 2 ^ 32 then (false, [])
        else convert_loop buffer [] := by
  unfold _bc_sps30_convert_to_words
  by_cases h : buffer.length = (data_length * 3) % 2 ^ 32
  · rw [if_neg (by simp [h]), if_neg (by simp [h])]
  · have h2 : buffer.length ≠ data_length * 3 := by
      intro h3
      apply h
      rw [← h3, Nat.mod_eq_of_lt hlen]
    rw [if_pos ⟨h, h2⟩, if_pos h]

/-- When the product `data_length * 3` does not wrap, the length test is the
comparison with the product. -/
theorem convert_to_words_no_wrap (buffer : List Nat) (data_length : Nat)
    (hsize : data_length * 3 < 2 ^ 32) :
    _bc_sps30_convert_to_words buffer data_length
      = if buffer.length ≠ data_length * 3 then (false, []) else convert_loop buffer [] := by
  unfold _bc_sps30_convert_to_words
  rw [Nat.mod_eq_of_lt hsize]
  by_cases h : buffer.length = data_length * 3
  · rw [if_neg (by simp [h]), if_neg (by simp [h])]
  · rw [if_pos ⟨h, h⟩, if_pos h]

/-- The call with the memory given is the call on the buffer alone when the
memory ends with the buffer. -/
theorem convert_to_words_at_length (buffer : List Nat) (data_length : Nat) :
    convert_to_words_at buffer buffer.length data_length
      = _bc_sps30_convert_to_words buffer data_length := by
  unfold convert_to_words_at _bc_sps30_convert_to_words
  rw [List.take_of_length_le (by omega)]

theorem convert_to_words_false_iff (buffer : List Nat) (data_length : Nat)
    (hsize : data_length * 3 < 2 ^ 32) :
    (_bc_sps30_convert_to_words buffer data_length).1 = false ↔
      (buffer.length ≠ 3 * data_length ∨ ∃ g, group_bad buffer g) := by
  rw [convert_to_words_no_wrap buffer data_length hsize]
  by_cases hlen : buffer.length = data_length * 3
  · rw [if_neg (by simpa using hlen), convert_loop_false_iff]
    constructor
    · intro h
      exact Or.inr h
    · rintro (h | h)
      · exact absurd (by omega) h
      · exact h
  · rw [if_pos hlen]
    exact ⟨fun _ => Or.inl (by omega), fun _ => rfl⟩

theorem be16_to_cpu_eq (s : Nat) :
    be16_to_cpu s = 2 ^ 8 * (s % 2 ^ 16) + (s % 2 ^ 16) / 2 ^ 8 := by
  unfold be16_to_cpu
  have h1 : (0xff : Nat) &&& ((s % 2 ^ 16) >>> 8) = (s % 2 ^ 16) / 2 ^ 8 := by
    rw [Nat.and_comm, Nat.shiftRight_eq_div_pow]
    have := Nat.and_pow_two_sub_one_eq_mod ((s % 2 ^ 16) / 2 ^ 8) 8
    have h255 : (2 : Nat) ^ 8 - 1 = 0xff := by norm_num
    rw [h255] at this
    rw [this]
    apply Nat.mod_eq_of_lt
    have : s % 2 ^ 16 < 2 ^ 16 := Nat.mod_lt _ (by positivity)
    omega
  have h2 : (s % 2 ^ 16) / 2 ^ 8 < 2 ^ 8 := by
    have : s % 2 ^ 16 < 2 ^ 16 := Nat.mod_lt _ (by positivity)
    omega
  rw [h1, Nat.shiftLeft_eq, Nat.mul_comm (s % 2 ^ 16) (2 ^ 8)]
  exact (Nat.mul_add_lt_is_or h2 _).symm

theorem be32_to_cpu_eq (s : Nat) :
    be32_to_cpu s = 2 ^ 16 * (be16_to_cpu s % 2 ^ 16) + be16_to_cpu (s / 2 ^ 16) % 2 ^ 16 := by
  unfold be32_to_cpu
  have h1 : (0xffff : Nat) &&& be16_to_cpu (s >>> 16) = be16_to_cpu (s / 2 ^ 16) % 2 ^ 16 := by
    rw [Nat.and_comm, Nat.shiftRight_eq_div_pow]
    have := Nat.and_pow_two_sub_one_eq_mod (be16_to_cpu (s / 2 ^ 16)) 16
    have h65535 : (2 : Nat) ^ 16 - 1 = 0xffff := by norm_num
    rw [h65535] at this
    exact this
  have h2 : ((be16_to_cpu s % 2 ^ 32) <<< 16) % 2 ^ 32 = 2 ^ 16 * (be16_to_cpu s % 2 ^ 16) := by
    rw [Nat.shiftLeft_eq]
    omega
  have h3 : be16_to_cpu (s / 2 ^ 16) % 2 ^ 16 < 2 ^ 16 := Nat.mod_lt _ (by positivity)
  rw [h1, h2]
  exact (Nat.mul_add_lt_is_or h3 _).symm

theorem be32_to_cpu_bytes (b0 b1 b2 b3 : Nat) (h0 : b0 < 256) (h1 : b1 < 256) (h2 : b2 < 256)
    (h3 : b3 < 256) :
    be32_to_cpu (b0 + b1 * 2 ^ 8 + b2 * 2 ^ 16 + b3 * 2 ^ 24) = be_value b0 b1 b2 b3 := by
  have e1 : (b0 + b1 * 2 ^ 8 + b2 * 2 ^ 16 + b3 * 2 ^ 24) % 2 ^ 16 = b0 + b1 * 2 ^ 8 := by omega
  have e2 : (b0 + b1 * 2 ^ 8 + b2 * 2 ^ 16 + b3 * 2 ^ 24) / 2 ^ 16 = b2 + b3 * 2 ^ 8 := by omega
  have e3 : (b0 + b1 * 2 ^ 8) / 2 ^ 8 = b1 := by omega
  have e4 : (b2 + b3 * 2 ^ 8) % 2 ^ 16 = b2 + b3 * 2 ^ 8 := by omega
  have e5 : (b2 + b3 * 2 ^ 8) / 2 ^ 8 = b3 := by omega
  have e6 : (2 ^ 8 * (b0 + b1 * 2 ^ 8) + b1) % 2 ^ 16 = b0 * 2 ^ 8 + b1 := by omega
  have e7 : (2 ^ 8 * (b2 + b3 * 2 ^ 8) + b3) % 2 ^ 16 = b2 * 2 ^ 8 + b3 := by omega
  rw [be32_to_cpu_eq, be16_to_cpu_eq, be16_to_cpu_eq, e1, e2, e3, e4, e5, e6, e7]
  unfold be_value
  omega

/-! ## Measurement decoding -/

theorem group_bad_zero (b0 b1 b2 : Nat) (rest : List Nat) :
    group_bad (b0 :: b1 :: b2 :: rest) 0 ↔ _bc_sps30_calculate_crc [b0, b1] ≠ b2 := by
  simp [group_bad]

theorem group_bad_succ (b0 b1 b2 : Nat) (rest : List Nat) (g : Nat) :
    group_bad (b0 :: b1 :: b2 :: rest) (g + 1) ↔ group_bad rest g := by
  have e0 : 3 * (g + 1) = 3 * g + 1 + 1 + 1 := by omega
  have e1 : 3 * (g + 1) + 1 = 3 * g + 1 + 1 + 1 + 1 := by omega
  have e2 : 3 * (g + 1) + 2 = 3 * g + 2 + 1 + 1 + 1 := by omega
  unfold group_bad
  rw [e2, e1, e0]
  simp only [List.getD_cons_succ, List.length_cons]
  constructor
  · rintro ⟨h1, h2⟩
    exact ⟨by omega, h2⟩
  · rintro ⟨h1, h2⟩
    exact ⟨by omega, h2⟩

theorem convert_loop_ok : ∀ (l data8 : List Nat), (∀ g, ¬ group_bad l g) →
    convert_loop l data8 = (true, data8 ++ data_bytes l)
  | [], data8, _ => by simp [convert_loop, data_bytes]
  | [_], data8, _ => by simp [convert_loop, data_bytes]
  | [_, _], data8, _ => by simp [convert_loop, data_bytes]
  | b0 :: b1 :: b2 :: rest, data8, h => by
    have hcrc : _bc_sps30_calculate_crc [b0, b1] = b2 := by
      by_contra hne
      exact h 0 ((group_bad_zero b0 b1 b2 rest).2 hne)
    have hrest : ∀ g, ¬ group_bad rest g :=
      fun g hg => h (g + 1) ((group_bad_succ b0 b1 b2 rest g).2 hg)
    have ih := convert_loop_ok rest (data8 ++ [b0, b1]) hrest
    simp [convert_loop, hcrc, ih, data_bytes]

theorem data_bytes_getD : ∀ (l : List Nat) (g : Nat), 3 * g + 2 < l.length →
    (data_bytes l).getD (2 * g) 0 = l.getD (3 * g) 0 ∧
    (data_bytes l).getD (2 * g + 1) 0 = l.getD (3 * g + 1) 0
  | [], g, h => by simp at h
  | [_], g, h => by simp at h
  | [_, _], g, h => by simp at h
  | b0 :: b1 :: b2 :: rest, 0, _ => by simp [data_bytes]
  | b0 :: b1 :: b2 :: rest, g + 1, h => by
    have ih := data_bytes_getD rest g (by simp at h; omega)
    have e0 : 3 * (g + 1) = 3 * g + 1 + 1 + 1 := by omega
    have e1 : 3 * (g + 1) + 1 = 3 * g + 1 + 1 + 1 + 1 := by omega
    have d0 : 2 * (g + 1) = 2 * g + 1 + 1 := by omega
    have d1 : 2 * (g + 1) + 1 = 2 * g + 1 + 1 + 1 := by omega
    rw [e1, e0, d1, d0]
    simp only [data_bytes, List.getD_cons_succ]
    exact ih

theorem getD_lt_256 (l : List Nat) (h : ∀ x ∈ l, x < 256) (k : Nat) : l.getD k 0 < 256 := by
  rw [List.getD_eq_getElem?_getD]
  by_cases hk : k < l.length
  · rw [List.getElem?_eq_getElem hk]
    exact h _ (List.getElem_mem hk)
  · rw [List.getElem?_eq_none (by omega)]
    decide

theorem union_u_data_bytes (buffer : List Nat) (i : Nat) (hi : 6 * i + 5 < buffer.length) :
    union_u (data_bytes buffer) i
      = buffer.getD (6 * i) 0 + buffer.getD (6 * i + 1) 0 * 2 ^ 8
        + buffer.getD (6 * i + 3) 0 * 2 ^ 16 + buffer.getD (6 * i + 4) 0 * 2 ^ 24 := by
  have a := data_bytes_getD buffer (2 * i) (by omega)
  have b := data_bytes_getD buffer (2 * i + 1) (by omega)
  have i0 : 2 * (2 * i) = 4 * i := by omega
  have i1 : 2 * (2 * i + 1) = 4 * i + 2 := by omega
  have i2 : 2 * (2 * i + 1) + 1 = 4 * i + 3 := by omega
  have j0 : 3 * (2 * i) = 6 * i := by omega
  have j1 : 3 * (2 * i + 1) = 6 * i + 3 := by omega
  have j2 : 3 * (2 * i + 1) + 1 = 6 * i + 4 := by omega
  rw [i0, j0] at a
  rw [i2, j2, i1, j1] at b
  unfold union_u
  rw [a.1, a.2, b.1, b.2]

theorem stored_value (buffer : List Nat) (hbytes : ∀ x ∈ buffer, x < 256) (i : Nat)
    (hi : 6 * i + 5 < buffer.length) :
    be32_to_cpu (union_u (data_bytes buffer) i) % 2 ^ 32 = wire_value buffer i := by
  rw [union_u_data_bytes buffer i hi,
    be32_to_cpu_bytes _ _ _ _ (getD_lt_256 buffer hbytes _) (getD_lt_256 buffer hbytes _)
      (getD_lt_256 buffer hbytes _) (getD_lt_256 buffer hbytes _)]
  unfold wire_value be_value
  have h0 := getD_lt_256 buffer hbytes (6 * i)
  have h1 := getD_lt_256 buffer hbytes (6 * i + 1)
  have h2 := getD_lt_256 buffer hbytes (6 * i + 3)
  have h3 := getD_lt_256 buffer hbytes (6 * i + 4)
  omega

theorem convert_measurement_reply (buffer : List Nat) (hlen : buffer.length = 60)
    (hcrc : ∀ g < 20, group_ok buffer g) :
    _bc_sps30_convert_to_words buffer (BC_SPS30_NUM_WORDS 40) = (true, data_bytes buffer) := by
  have hgood : ∀ g, ¬ group_bad buffer g := by
    rintro g ⟨hin, hne⟩
    exact hne (hcrc g (by omega))
  unfold _bc_sps30_convert_to_words
  rw [if_neg (by simp [hlen, BC_SPS30_NUM_WORDS]), convert_loop_ok buffer [] hgood]
  simp

/-- The handle after a successful READ_MEASUREMENT_DATA decode, before the
callback: fields stored, flag set, `_state` still ERROR. -/
theorem iter_read_measurement_data_ok (bus : bc_i2c_bus) (c : task_ctx) (buffer data8 : List Nat)
    (hst : c.self._state = .READ_MEASUREMENT_DATA)
    (hread : bus.read_reply c.txn = some buffer)
    (hconv : _bc_sps30_convert_to_words buffer (BC_SPS30_NUM_WORDS 40) = (true, data8)) :
    task_measure_iter bus c =
      (.next_iteration,
        set_state
          (raise_event
            { self := { store_measurement { c.self with _state := .ERROR } data8 with
                        _measurement_valid := true }
              txn := c.txn + 1
              trace := c.trace ++ [effect.dispatch .READ_MEASUREMENT_DATA,
                effect.i2c_read c.self._i2c_channel c.self._i2c_address 60 (some buffer)] }
            .UPDATE)
          .STOP_MEASUREMENT) := by
  simp [task_measure_iter, hst, bc_i2c_read, set_state, emit, hread, hconv]

theorem raise_event_self (c : task_ctx) (ev : bc_sps30_event_t) :
    (raise_event c ev).self = c.self := rfl

theorem raise_event_txn (c : task_ctx) (ev : bc_sps30_event_t) :
    (raise_event c ev).txn = c.txn := rfl

/-- C5: in state READ_MEASUREMENT_DATA, when the bus read delivers a 60-byte
reply whose 20 groups all carry a correct checksum, the step stores for
`i = 0 .. 9` the big-endian value of the four data bytes of groups `2 i` and
`2 i + 1` into `mc_1p0, mc_2p5, mc_4p0, mc_10p0, nc_0p5, nc_1p0, nc_2p5,
nc_4p0, nc_10p0, typical_particle_size` in this order, sets the valid flag,
and the three getters then return `true` with these values. -/
theorem C5_measurement_decoding (bus : bc_i2c_bus) (c : task_ctx) (buffer : List Nat)
    (mc_out : bc_sps30_mass_concentration_t) (nc_out : bc_sps30_number_concentration_t)
    (tps_out : Nat)
    (hst : c.self._state = .READ_MEASUREMENT_DATA)
    (hread : bus.read_reply c.txn = some buffer)
    (hlen : buffer.length = 60)
    (hbytes : ∀ x ∈ buffer, x < 256)
    (hcrc : ∀ g < 20, group_ok buffer g) :
    (task_measure_iter bus c).2.self._mass_concentration
      = { mc_1p0 := wire_value buffer 0, mc_2p5 := wire_value buffer 1,
          mc_4p0 := wire_value buffer 2, mc_10p0 := wire_value buffer 3 } ∧
    (task_measure_iter bus c).2.self._number_concentration
      = { nc_0p5 := wire_value buffer 4, nc_1p0 := wire_value buffer 5,
          nc_2p5 := wire_value buffer 6, nc_4p0 := wire_value buffer 7,
          nc_10p0 := wire_value buffer 8 } ∧
    (task_measure_iter bus c).2.self._typical_particle_size = wire_value buffer 9 ∧
    (task_measure_iter bus c).2.self._measurement_valid = true ∧
    bc_sps30_get_mass_concentration (task_measure_iter bus c).2.self mc_out
      = (true, (task_measure_iter bus c).2.self,
          { mc_1p0 := wire_value buffer 0, mc_2p5 := wire_value buffer 1,
            mc_4p0 := wire_value buffer 2, mc_10p0 := wire_value buffer 3 }) ∧
    bc_sps30_get_number_concentration (task_measure_iter bus c).2.self nc_out
      = (true, (task_measure_iter bus c).2.self,
          { nc_0p5 := wire_value buffer 4, nc_1p0 := wire_value buffer 5,
            nc_2p5 := wire_value buffer 6, nc_4p0 := wire_value buffer 7,
            nc_10p0 := wire_value buffer 8 }) ∧
    bc_sps30_get_typical_particle_size (task_measure_iter bus c).2.self tps_out
      = (true, (task_measure_iter bus c).2.self, wire_value buffer 9) := by
  have hconv := convert_measurement_reply buffer hlen hcrc
  have sv : ∀ i, i < 10 →
      be32_to_cpu (union_u (data_bytes buffer) i) % 4294967296 = wire_value buffer i :=
    fun i hi => stored_value buffer hbytes i (by omega)
  have hmc : (task_measure_iter bus c).2.self._mass_concentration
      = { mc_1p0 := wire_value buffer 0, mc_2p5 := wire_value buffer 1,
          mc_4p0 := wire_value buffer 2, mc_10p0 := wire_value buffer 3 } := by
    rw [iter_read_measurement_data_ok bus c buffer _ hst hread hconv]
    simp [set_state, raise_event_self, store_measurement, sv]
  have hnc : (task_measure_iter bus c).2.self._number_concentration
      = { nc_0p5 := wire_value buffer 4, nc_1p0 := wire_value buffer 5,
          nc_2p5 := wire_value buffer 6, nc_4p0 := wire_value buffer 7,
          nc_10p0 := wire_value buffer 8 } := by
    rw [iter_read_measurement_data_ok bus c buffer _ hst hread hconv]
    simp [set_state, raise_event_self, store_measurement, sv]
  have htps : (task_measure_iter bus c).2.self._typical_particle_size = wire_value buffer 9 := by
    rw [iter_read_measurement_data_ok bus c buffer _ hst hread hconv]
    simp [set_state, raise_event_self, store_measurement, sv]
  have hvalid : (task_measure_iter bus c).2.self._measurement_valid = true := by
    rw [iter_read_measurement_data_ok bus c buffer _ hst hread hconv]
    simp [set_state, raise_event_self, store_measurement]
  refine ⟨hmc, hnc, htps, hvalid, ?_, ?_, ?_⟩
  · simp [bc_sps30_get_mass_concentration, hvalid, hmc]
  · simp [bc_sps30_get_number_concentration, hvalid, hnc]
  · simp [bc_sps30_get_typical_particle_size, hvalid, htps]

set_option maxRecDepth 100000 in
/-- Witness for C5: the payload encoding the floats `1.0, ..., 10.0` makes the
getters return `true` with the patterns `0x3F800000, ..., 0x41200000` in the
documented order, and the payload whose data bytes are all zero yields ten
zero patterns. -/
theorem C5_measurement_decoding_witness :
    ((measurement_payload float_patterns_1_to_10).length = 60 ∧
     (∀ x ∈ measurement_payload float_patterns_1_to_10, x < 256) ∧
     (∀ g < 20, group_ok (measurement_payload float_patterns_1_to_10) g)) ∧
    (bc_sps30_get_mass_concentration
        (task_measure_iter (constant_bus (measurement_payload float_patterns_1_to_10))
          { self := example_handle .READ_MEASUREMENT_DATA, txn := 4, trace := [] }).2.self
        { mc_1p0 := 0, mc_2p5 := 0, mc_4p0 := 0, mc_10p0 := 0 }).2.2
      = { mc_1p0 := 0x3F800000, mc_2p5 := 0x40000000, mc_4p0 := 0x40400000,
          mc_10p0 := 0x40800000 } ∧
    (bc_sps30_get_number_concentration
        (task_measure_iter (constant_bus (measurement_payload float_patterns_1_to_10))
          { self := example_handle .READ_MEASUREMENT_DATA, txn := 4, trace := [] }).2.self
        { nc_0p5 := 0, nc_1p0 := 0, nc_2p5 := 0, nc_4p0 := 0, nc_10p0 := 0 }).2.2
      = { nc_0p5 := 0x40A00000, nc_1p0 := 0x40C00000, nc_2p5 := 0x40E00000,
          nc_4p0 := 0x41000000, nc_10p0 := 0x41100000 } ∧
    (bc_sps30_get_typical_particle_size
        (task_measure_iter (constant_bus (measurement_payload float_patterns_1_to_10))
          { self := example_handle .READ_MEASUREMENT_DATA, txn := 4, trace := [] }).2.self
        0).2.2 = 0x41200000 ∧
    (task_measure_iter (constant_bus (measurement_payload (List.replicate 10 0)))
        { self := example_handle .READ_MEASUREMENT_DATA, txn := 4, trace := [] }).2.self._mass_concentration
      = { mc_1p0 := 0, mc_2p5 := 0, mc_4p0 := 0, mc_10p0 := 0 } ∧
    (task_measure_iter (constant_bus (measurement_payload (List.replicate 10 0)))
        { self := example_handle .READ_MEASUREMENT_DATA, txn := 4, trace := [] }).2.self._number_concentration
      = { nc_0p5 := 0, nc_1p0 := 0, nc_2p5 := 0, nc_4p0 := 0, nc_10p0 := 0 } ∧
    (task_measure_iter (constant_bus (measurement_payload (List.replicate 10 0)))
        { self := example_handle .READ_MEASUREMENT_DATA, txn := 4, trace := [] }).2.self._typical_particle_size
      = 0 := by
  have hp : (measurement_payload float_patterns_1_to_10).length = 60 ∧
      (∀ x ∈ measurement_payload float_patterns_1_to_10, x < 256) ∧
      (∀ g < 20, group_ok (measurement_payload float_patterns_1_to_10) g) := by
    decide
  have hz : (measurement_payload (List.replicate 10 0)).length = 60 ∧
      (∀ x ∈ measurement_payload (List.replicate 10 0), x < 256) ∧
      (∀ g < 20, group_ok (measurement_payload (List.replicate 10 0)) g) := by
    decide
  have h1 := C5_measurement_decoding
    (constant_bus (measurement_payload float_patterns_1_to_10))
    { self := example_handle .READ_MEASUREMENT_DATA, txn := 4, trace := [] }
    (measurement_payload float_patterns_1_to_10)
    { mc_1p0 := 0, mc_2p5 := 0, mc_4p0 := 0, mc_10p0 := 0 }
    { nc_0p5 := 0, nc_1p0 := 0, nc_2p5 := 0, nc_4p0 := 0, nc_10p0 := 0 } 0
    rfl rfl hp.1 hp.2.1 hp.2.2
  have h0 := C5_measurement_decoding
    (constant_bus (measurement_payload (List.replicate 10 0)))
    { self := example_handle .READ_MEASUREMENT_DATA, txn := 4, trace := [] }
    (measurement_payload (List.replicate 10 0))
    { mc_1p0 := 0, mc_2p5 := 0, mc_4p0 := 0, mc_10p0 := 0 }
    { nc_0p5 := 0, nc_1p0 := 0, nc_2p5 := 0, nc_4p0 := 0, nc_10p0 := 0 } 0
    rfl rfl hz.1 hz.2.1 hz.2.2
  refine ⟨hp, ?_, ?_, ?_, ?_, ?_, ?_⟩
  · rw [h1.2.2.2.2.1]; decide
  · rw [h1.2.2.2.2.2.1]; decide
  · rw [h1.2.2.2.2.2.2]; decide
  · rw [h0.1]; decide
  · rw [h0.2.1]; decide
  · rw [h0.2.2.1]; decide

/-! ## Public facade -/

/-- C6: `bc_sps30_measure` returns `true` exactly when the state is READY.
When it returns `true` the state becomes START_MEASUREMENT, every other field
of the handle is unchanged and the step task is planned to run now; when it
returns `false` the handle is unchanged and nothing is scheduled. -/
theorem C6_measure_accepts_exactly_in_ready (self : bc_sps30_t) :
    ((bc_sps30_measure self).1 = true ↔ self._state = .READY) ∧
    (self._state = .READY →
      bc_sps30_measure self
        = (true, { self with _state := .START_MEASUREMENT },
            [effect.plan_now self._task_id_measure])) ∧
    (self._state ≠ .READY → bc_sps30_measure self = (false, self, [])) := by
  by_cases h : self._state = .READY
  · simp [bc_sps30_measure, h]
  · simp [bc_sps30_measure, h]

/-- Witness for C6: accepted in READY, rejected mid-cycle in
READ_DATAREADY_FLAG and before initialization has completed in INITIALIZE. -/
theorem C6_measure_accepts_exactly_in_ready_witness :
    bc_sps30_measure (example_handle .READY)
      = (true, example_handle .START_MEASUREMENT, [effect.plan_now 2]) ∧
    bc_sps30_measure (example_handle .READ_DATAREADY_FLAG)
      = (false, example_handle .READ_DATAREADY_FLAG, []) ∧
    bc_sps30_measure (example_handle .INITIALIZE)
      = (false, example_handle .INITIALIZE, []) :=
  ⟨(C6_measure_accepts_exactly_in_ready (example_handle .READY)).2.1 rfl,
   (C6_measure_accepts_exactly_in_ready (example_handle .READ_DATAREADY_FLAG)).2.2 (by decide),
   (C6_measure_accepts_exactly_in_ready (example_handle .INITIALIZE)).2.2 (by decide)⟩

/-- C7: each getter returns `false` and leaves the caller's output value
untouched when the valid flag is false, and returns `true` with the output
equal to the handle's last decoded record, field for field, when the flag is
true; in both cases the handle is unchanged. -/
theorem C7_getters (self : bc_sps30_t) (mc_out : bc_sps30_mass_concentration_t)
    (nc_out : bc_sps30_number_concentration_t) (tps_out : Nat) :
    (self._measurement_valid = false →
      bc_sps30_get_mass_concentration self mc_out = (false, self, mc_out) ∧
      bc_sps30_get_number_concentration self nc_out = (false, self, nc_out) ∧
      bc_sps30_get_typical_particle_size self tps_out = (false, self, tps_out)) ∧
    (self._measurement_valid = true →
      bc_sps30_get_mass_concentration self mc_out = (true, self, self._mass_concentration) ∧
      bc_sps30_get_number_concentration self nc_out = (true, self, self._number_concentration) ∧
      bc_sps30_get_typical_particle_size self tps_out = (true, self, self._typical_particle_size)) := by
  constructor
  · intro h
    simp [bc_sps30_get_mass_concentration, bc_sps30_get_number_concentration,
      bc_sps30_get_typical_particle_size, h]
  · intro h
    simp [bc_sps30_get_mass_concentration, bc_sps30_get_number_concentration,
      bc_sps30_get_typical_particle_size, h]

/-- Witness for C7: a handle without a valid measurement leaves the outputs
`(1, 2, 3, 4)`, `(1, 2, 3, 4, 5)` and `9` untouched; the same handle with the
valid flag set delivers its stored (zero) record. -/
theorem C7_getters_witness :
    (bc_sps30_get_mass_concentration (example_handle .READY)
        { mc_1p0 := 1, mc_2p5 := 2, mc_4p0 := 3, mc_10p0 := 4 }
      = (false, example_handle .READY, { mc_1p0 := 1, mc_2p5 := 2, mc_4p0 := 3, mc_10p0 := 4 }) ∧
     bc_sps30_get_number_concentration (example_handle .READY)
        { nc_0p5 := 1, nc_1p0 := 2, nc_2p5 := 3, nc_4p0 := 4, nc_10p0 := 5 }
      = (false, example_handle .READY,
          { nc_0p5 := 1, nc_1p0 := 2, nc_2p5 := 3, nc_4p0 := 4, nc_10p0 := 5 }) ∧
     bc_sps30_get_typical_particle_size (example_handle .READY) 9
      = (false, example_handle .READY, 9)) ∧
    (bc_sps30_get_mass_concentration { example_handle .READY with _measurement_valid := true }
        { mc_1p0 := 1, mc_2p5 := 2, mc_4p0 := 3, mc_10p0 := 4 }
      = (true, { example_handle .READY with _measurement_valid := true },
          { mc_1p0 := 0, mc_2p5 := 0, mc_4p0 := 0, mc_10p0 := 0 }) ∧
     bc_sps30_get_number_concentration { example_handle .READY with _measurement_valid := true }
        { nc_0p5 := 1, nc_1p0 := 2, nc_2p5 := 3, nc_4p0 := 4, nc_10p0 := 5 }
      = (true, { example_handle .READY with _measurement_valid := true },
          { nc_0p5 := 0, nc_1p0 := 0, nc_2p5 := 0, nc_4p0 := 0, nc_10p0 := 0 }) ∧
     bc_sps30_get_typical_particle_size { example_handle .READY with _measurement_valid := true } 9
      = (true, { example_handle .READY with _measurement_valid := true }, 0)) :=
  ⟨(C7_getters (example_handle .READY) { mc_1p0 := 1, mc_2p5 := 2, mc_4p0 := 3, mc_10p0 := 4 }
      { nc_0p5 := 1, nc_1p0 := 2, nc_2p5 := 3, nc_4p0 := 4, nc_10p0 := 5 } 9).1 rfl,
   (C7_getters { example_handle .READY with _measurement_valid := true }
      { mc_1p0 := 1, mc_2p5 := 2, mc_4p0 := 3, mc_10p0 := 4 }
      { nc_0p5 := 1, nc_1p0 := 2, nc_2p5 := 3, nc_4p0 := 4, nc_10p0 := 5 } 9).2 rfl⟩

/-! ## Valid-flag invariant -/

theorem convert_to_words_true_groups (buffer : List Nat) (n : Nat)
    (hsize : n * 3 < 2 ^ 32)
    (h : (_bc_sps30_convert_to_words buffer n).1 = true) :
    buffer.length = 3 * n ∧ ∀ g < n, group_ok buffer g := by
  have hnot := (convert_to_words_false_iff buffer n hsize).not.1 (by simp [h])
  have hlen : buffer.length = 3 * n := by
    by_contra hne
    exact hnot (Or.inl hne)
  refine ⟨hlen, fun g hg => ?_⟩
  by_contra hne
  exact hnot (Or.inr ⟨g, by omega, hne⟩)

theorem iter_valid_rises (bus : bc_i2c_bus) (c : task_ctx)
    (h0 : c.self._measurement_valid = false)
    (h1 : (task_measure_iter bus c).2.self._measurement_valid = true) :
    c.self._state = .READ_MEASUREMENT_DATA ∧
    ∃ buffer, bus.read_reply c.txn = some buffer ∧
      (_bc_sps30_convert_to_words buffer (BC_SPS30_NUM_WORDS 40)).1 = true := by
  cases hst : c.self._state
  case READ_MEASUREMENT_DATA =>
    refine ⟨rfl, ?_⟩
    cases hread : bus.read_reply c.txn with
    | none =>
      simp [task_measure_iter, hst, bc_i2c_read, set_state, emit, hread, h0] at h1
    | some buffer =>
      refine ⟨buffer, rfl, ?_⟩
      by_contra hconv
      simp [task_measure_iter, hst, bc_i2c_read, set_state, emit, hread, hconv, h0] at h1
  all_goals
    exfalso
    revert h1
    simp only [task_measure_iter, hst, bc_i2c_read, bc_i2c_write, set_state, emit]
    repeat' split
    all_goals simp [raise_event_self, h0]

theorem iter_error_clears_valid (bus : bc_i2c_bus) (c : task_ctx)
    (hst : c.self._state = .ERROR) :
    (task_measure_iter bus c).2.self._measurement_valid = false := by
  simp [task_measure_iter, hst, set_state, emit, raise_event_self]

/-- C8: over a single state step the valid flag goes from false to true only in
a READ_MEASUREMENT_DATA step whose bus read succeeded and whose 60-byte reply
passed the word decode with all 20 group checksums correct; every step
executed in the ERROR state leaves the flag false; after `bc_sps30_init` the
flag is false; and `bc_sps30_measure`, `bc_sps30_set_event_handler`,
`bc_sps30_set_update_interval`, the three getters and the interval task do not
change it. -/
theorem C8_valid_flag_invariant :
    (∀ (bus : bc_i2c_bus) (c : task_ctx),
      c.self._measurement_valid = false →
      (task_measure_iter bus c).2.self._measurement_valid = true →
      c.self._state = .READ_MEASUREMENT_DATA ∧
      ∃ buffer, bus.read_reply c.txn = some buffer ∧ buffer.length = 60 ∧
        (∀ g < 20, group_ok buffer g) ∧
        (_bc_sps30_convert_to_words buffer (BC_SPS30_NUM_WORDS 40)).1 = true) ∧
    (∀ (bus : bc_i2c_bus) (c : task_ctx), c.self._state = .ERROR →
      (task_measure_iter bus c).2.self._measurement_valid = false) ∧
    (∀ tick_infinity id_interval id_measure i2c_channel i2c_address : Nat,
      (bc_sps30_init tick_infinity id_interval id_measure i2c_channel i2c_address).1._measurement_valid
        = false) ∧
    (∀ self : bc_sps30_t,
      (bc_sps30_measure self).2.1._measurement_valid = self._measurement_valid) ∧
    (∀ (self : bc_sps30_t) (event_handler : Option Nat) (event_param : Nat),
      (bc_sps30_set_event_handler self event_handler event_param)._measurement_valid
        = self._measurement_valid) ∧
    (∀ (tick_infinity : Nat) (self : bc_sps30_t) (interval : Nat),
      (bc_sps30_set_update_interval tick_infinity self interval).1._measurement_valid
        = self._measurement_valid) ∧
    (∀ (self : bc_sps30_t) (mc_out : bc_sps30_mass_concentration_t)
        (nc_out : bc_sps30_number_concentration_t) (tps_out : Nat),
      (bc_sps30_get_mass_concentration self mc_out).2.1 = self ∧
      (bc_sps30_get_number_concentration self nc_out).2.1 = self ∧
      (bc_sps30_get_typical_particle_size self tps_out).2.1 = self) ∧
    (∀ self : bc_sps30_t,
      (_bc_sps30_task_interval self).1._measurement_valid = self._measurement_valid) := by
  refine ⟨?_, iter_error_clears_valid, ?_, ?_, ?_, ?_, ?_, ?_⟩
  · intro bus c h0 h1
    obtain ⟨hst, buffer, hread, hconv⟩ := iter_valid_rises bus c h0 h1
    have hg := convert_to_words_true_groups buffer _ (by decide) hconv
    exact ⟨hst, buffer, hread, by simpa [BC_SPS30_NUM_WORDS] using hg.1,
      by simpa [BC_SPS30_NUM_WORDS] using hg.2, hconv⟩
  · intros
    rfl
  · intro self
    unfold bc_sps30_measure
    split <;> rfl
  · intros
    rfl
  · intro tick_infinity self interval
    unfold bc_sps30_set_update_interval
    simp only
    split <;> rfl
  · intro self mc_out nc_out tps_out
    unfold bc_sps30_get_mass_concentration bc_sps30_get_number_concentration
      bc_sps30_get_typical_particle_size
    refine ⟨?_, ?_, ?_⟩ <;> split <;> rfl
  · intro self
    unfold _bc_sps30_task_interval bc_sps30_measure
    simp only
    split <;> rfl

set_option maxRecDepth 100000 in
/-- Witness for C8: on the handle left by initialization (flag false), a
READ_MEASUREMENT_DATA step with the `1.0 .. 10.0` payload raises the flag, and
a step in the ERROR state on a handle whose flag is set clears it. -/
theorem C8_valid_flag_invariant_witness :
    ((example_handle .READ_MEASUREMENT_DATA)._measurement_valid = false ∧
     (task_measure_iter (constant_bus (measurement_payload float_patterns_1_to_10))
        { self := example_handle .READ_MEASUREMENT_DATA, txn := 4, trace := [] }).2.self._measurement_valid
       = true) ∧
    (∃ buffer,
      (constant_bus (measurement_payload float_patterns_1_to_10)).read_reply 4 = some buffer ∧
      buffer.length = 60 ∧ (∀ g < 20, group_ok buffer g) ∧
      (_bc_sps30_convert_to_words buffer (BC_SPS30_NUM_WORDS 40)).1 = true) ∧
    (task_measure_iter (constant_bus [])
        { self := { example_handle .ERROR with _measurement_valid := true },
          txn := 0, trace := [] }).2.self._measurement_valid = false :=
  ⟨⟨rfl, by decide⟩,
   (C8_valid_flag_invariant.1
      (constant_bus (measurement_payload float_patterns_1_to_10))
      { self := example_handle .READ_MEASUREMENT_DATA, txn := 4, trace := [] }
      rfl (by decide)).2,
   C8_valid_flag_invariant.2.1 (constant_bus [])
      { self := { example_handle .ERROR with _measurement_valid := true }, txn := 0, trace := [] }
      rfl⟩

/-! ## Failure handling -/

theorem events_append (a b : List effect) : events (a ++ b) = events a ++ events b := by
  induction a with
  | nil => rfl
  | cons e rest ih => cases e <;> simp [events, ih]

theorem callbacks_append (a b : List effect) :
    callbacks (a ++ b) = callbacks a ++ callbacks b := by
  induction a with
  | nil => rfl
  | cons e rest ih =>
    cases e with
    | event handler self ev param => cases handler <;> simp [callbacks, ih]
    | _ => simp [callbacks, ih]

theorem dispatched_append (a b : List effect) :
    dispatched (a ++ b) = dispatched a ++ dispatched b := by
  induction a with
  | nil => rfl
  | cons e rest ih => cases e <;> simp [dispatched, ih]

theorem scheduled_append (a b : List effect) :
    scheduled (a ++ b) = scheduled a ++ scheduled b := by
  induction a with
  | nil => rfl
  | cons e rest ih => cases e <;> simp [scheduled, ih]

theorem callbacks_event (handler : Option Nat) (self snapshot : bc_sps30_t)
    (ev : bc_sps30_event_t) (param : Nat) (rest : List effect)
    (h : self._event_handler = handler) :
    callbacks (effect.event handler snapshot ev param :: rest)
      = callback_calls self ev snapshot ++ callbacks rest := by
  subst h
  unfold callback_calls
  cases self._event_handler <;> simp [callbacks]

/-- The step taken in a state whose transaction fails: `_state` is left at
ERROR, one transaction is consumed, no event is raised, nothing is
scheduled. -/
theorem iter_transaction_fails (bus : bc_i2c_bus) (c : task_ctx)
    (hfail : transaction_fails bus c) :
    ∃ c1, task_measure_iter bus c = (.next_iteration, c1) ∧
      c1.self = { c.self with _state := .ERROR } ∧ c1.txn = c.txn + 1 ∧
      events c1.trace = events c.trace ∧
      callbacks c1.trace = callbacks c.trace ∧
      dispatched c1.trace = dispatched c.trace ++ [c.self._state] ∧
      scheduled c1.trace = scheduled c.trace := by
  cases hst : c.self._state
  case READ_SERIAL_NUMBER =>
    cases hread : bus.read_reply c.txn with
    | none =>
      simp [task_measure_iter, hst, bc_i2c_read, set_state, emit, hread, events_append,
        callbacks_append, dispatched_append, scheduled_append, events, callbacks, dispatched,
        scheduled]
    | some buffer =>
      have hconv : (_bc_sps30_convert_to_words buffer 16).1 = false := by
        simpa [transaction_fails, hst, hread] using hfail
      simp [task_measure_iter, hst, bc_i2c_read, set_state, emit, hread, events_append,
        callbacks_append, dispatched_append, scheduled_append, events, callbacks, dispatched,
        scheduled, BC_SPS30_NUM_WORDS, hconv]
  case READ_DATAREADY_FLAG =>
    cases hread : bus.read_reply c.txn with
    | none =>
      simp [task_measure_iter, hst, bc_i2c_read, set_state, emit, hread, events_append,
        callbacks_append, dispatched_append, scheduled_append, events, callbacks, dispatched,
        scheduled]
    | some buffer =>
      have hcrc : _bc_sps30_calculate_crc (buffer.take 2) ≠ buffer.getD 2 0 := by
        simpa [transaction_fails, hst, hread] using hfail
      rw [List.getD_eq_getElem?_getD] at hcrc
      simp [task_measure_iter, hst, bc_i2c_read, set_state, emit, hread, events_append,
        callbacks_append, dispatched_append, scheduled_append, events, callbacks, dispatched,
        scheduled, hcrc]
  case READ_MEASUREMENT_DATA =>
    cases hread : bus.read_reply c.txn with
    | none =>
      simp [task_measure_iter, hst, bc_i2c_read, set_state, emit, hread, events_append,
        callbacks_append, dispatched_append, scheduled_append, events, callbacks, dispatched,
        scheduled]
    | some buffer =>
      have hconv : (_bc_sps30_convert_to_words buffer 20).1 = false := by
        simpa [transaction_fails, hst, hread] using hfail
      simp [task_measure_iter, hst, bc_i2c_read, set_state, emit, hread, events_append,
        callbacks_append, dispatched_append, scheduled_append, events, callbacks, dispatched,
        scheduled, BC_SPS30_NUM_WORDS, hconv]
  case ERROR => simp [transaction_fails, hst] at hfail
  case READY => simp [transaction_fails, hst] at hfail
  case INITIALIZE => simp [transaction_fails, hst] at hfail
  all_goals
    have hw : bus.write_ok c.txn = false := by
      simpa [transaction_fails, hst] using hfail
    simp [task_measure_iter, hst, bc_i2c_write, set_state, emit, hw, events_append,
      callbacks_append, dispatched_append, scheduled_append, events, callbacks, dispatched,
      scheduled]

/-- The step taken in the ERROR state. -/
theorem iter_error (bus : bc_i2c_bus) (c : task_ctx) (hst : c.self._state = .ERROR) :
    ∃ c1, task_measure_iter bus c = (.next_iteration, c1) ∧
      c1.self = { c.self with _state := .INITIALIZE, _measurement_valid := false } ∧
      c1.txn = c.txn ∧
      events c1.trace
        = events c.trace ++ [(.ERROR, { c.self with _measurement_valid := false })] ∧
      callbacks c1.trace
        = callbacks c.trace ++
          callback_calls c.self .ERROR { c.self with _measurement_valid := false } ∧
      dispatched c1.trace = dispatched c.trace ++ [.ERROR] ∧
      scheduled c1.trace = scheduled c.trace := by
  refine ⟨{ self := { c.self with _state := .INITIALIZE, _measurement_valid := false }
            txn := c.txn
            trace := c.trace ++ [effect.dispatch .ERROR,
              effect.event c.self._event_handler { c.self with _measurement_valid := false }
                .ERROR c.self._event_param] },
    ?_, rfl, rfl, ?_, ?_, ?_, ?_⟩
  · simp [task_measure_iter, hst, raise_event, set_state, emit]
  · simp [events_append, events]
  · rw [callbacks_append]
    simp only [callbacks]
    rw [callbacks_event _ c.self _ _ _ _ rfl]
    simp [callbacks]
  · simp [dispatched_append, dispatched]
  · simp [scheduled_append, scheduled]

/-- The step taken in the INITIALIZE state. -/
theorem iter_initialize (bus : bc_i2c_bus) (c : task_ctx) (hst : c.self._state = .INITIALIZE) :
    ∃ c1, task_measure_iter bus c = (.next_iteration, c1) ∧
      c1.self = { c.self with _state := .GET_SERIAL_NUMBER } ∧
      c1.txn = c.txn ∧
      events c1.trace = events c.trace ∧
      callbacks c1.trace = callbacks c.trace ∧
      dispatched c1.trace = dispatched c.trace ++ [.INITIALIZE] ∧
      scheduled c1.trace = scheduled c.trace := by
  simp [task_measure_iter, hst, set_state, emit, events_append, callbacks_append,
    dispatched_append, scheduled_append, events, callbacks, dispatched, scheduled]

theorem callback_calls_set_state (self : bc_sps30_t) (st : bc_sps30_state_t)
    (ev : bc_sps30_event_t) (snapshot : bc_sps30_t) :
    callback_calls { self with _state := st } ev snapshot = callback_calls self ev snapshot :=
  rfl

/-- C9: in every state that performs a bus write or read, a transport failure
of that transaction, or a length or checksum failure of its reply, is followed
by the ERROR step and then the INITIALIZE step.  The failing step leaves the
state at ERROR; the ERROR step clears the valid flag, raises exactly one ERROR
event, which is delivered in exactly one call to the registered callback (no
call when none is registered), and sets the state to INITIALIZE; the
INITIALIZE step moves on to GET_SERIAL_NUMBER.  No other field of the handle
changes, no other event is raised, and only the failed transaction is
issued. -/
theorem C9_failure_handling (bus : bc_i2c_bus) (c : task_ctx)
    (hfail : transaction_fails bus c) :
    ∃ c1 c2 c3,
      task_measure_iter bus c = (.next_iteration, c1) ∧
      task_measure_iter bus c1 = (.next_iteration, c2) ∧
      task_measure_iter bus c2 = (.next_iteration, c3) ∧
      c1.self = { c.self with _state := .ERROR } ∧
      c2.self = { c.self with _state := .INITIALIZE, _measurement_valid := false } ∧
      c3.self = { c.self with _state := .GET_SERIAL_NUMBER, _measurement_valid := false } ∧
      events c3.trace
        = events c.trace ++
          [(.ERROR, { c.self with _state := .ERROR, _measurement_valid := false })] ∧
      callbacks c3.trace
        = callbacks c.trace ++
          callback_calls c.self .ERROR
            { c.self with _state := .ERROR, _measurement_valid := false } ∧
      (∀ handler, c.self._event_handler = some handler →
        callbacks c3.trace
          = callbacks c.trace ++
            [(handler, .ERROR, { c.self with _state := .ERROR, _measurement_valid := false })]) ∧
      dispatched c3.trace = dispatched c.trace ++ [c.self._state, .ERROR, .INITIALIZE] ∧
      c3.txn = c.txn + 1 := by
  obtain ⟨c1, e1, s1, t1, ev1, cb1, d1, _⟩ := iter_transaction_fails bus c hfail
  obtain ⟨c2, e2, s2, t2, ev2, cb2, d2, _⟩ := iter_error bus c1 (by rw [s1])
  obtain ⟨c3, e3, s3, t3, ev3, cb3, d3, _⟩ := iter_initialize bus c2 (by rw [s2])
  have hcb : callbacks c3.trace
      = callbacks c.trace ++
        callback_calls c.self .ERROR
          { c.self with _state := .ERROR, _measurement_valid := false } := by
    rw [cb3, cb2, cb1, s1, callback_calls_set_state]
  refine ⟨c1, c2, c3, e1, e2, e3, s1, ?_, ?_, ?_, hcb, ?_, ?_, ?_⟩
  · rw [s2, s1]
  · rw [s3, s2, s1]
  · rw [ev3, ev2, ev1, s1]
  · intro handler hh
    rw [hcb]
    simp [callback_calls, hh]
  · rw [d3, d2, d1]
    simp
  · rw [t3, t2, t1]

/-- Witness for C9: a failed START_MEASUREMENT write on a handle with callback
`7` registered; the callback is called once, with the ERROR event. -/
theorem C9_failure_handling_witness :
    transaction_fails failing_bus
      { self := example_handle .START_MEASUREMENT, txn := 0, trace := [] } ∧
    ∃ c1 c2 c3,
      task_measure_iter failing_bus
        { self := example_handle .START_MEASUREMENT, txn := 0, trace := [] }
        = (.next_iteration, c1) ∧
      task_measure_iter failing_bus c1 = (.next_iteration, c2) ∧
      task_measure_iter failing_bus c2 = (.next_iteration, c3) ∧
      c1.self = example_handle .ERROR ∧
      c2.self = example_handle .INITIALIZE ∧
      c3.self = example_handle .GET_SERIAL_NUMBER ∧
      events c3.trace = [(.ERROR, example_handle .ERROR)] ∧
      callbacks c3.trace = [(7, .ERROR, example_handle .ERROR)] ∧
      dispatched c3.trace = [.START_MEASUREMENT, .ERROR, .INITIALIZE] ∧
      c3.txn = 1 := by
  obtain ⟨c1, c2, c3, e1, e2, e3, s1, s2, s3, hev, hcb, _, hd, ht⟩ :=
    C9_failure_handling failing_bus
      { self := example_handle .START_MEASUREMENT, txn := 0, trace := [] }
      (rfl : failing_bus.write_ok 0 = false)
  exact ⟨rfl, c1, c2, c3, e1, e2, e3, s1, s2, s3, hev, hcb, hd, ht⟩

/-! ## Successful measurement cycle -/

/-- First invocation of a cycle: START_MEASUREMENT and SET_DATAREADY_FLAG both
write successfully; the task returns in READ_DATAREADY_FLAG. -/
theorem invocation_start_measurement (bus : bc_i2c_bus) (c : task_ctx) (fuel : Nat)
    (hst : c.self._state = .START_MEASUREMENT)
    (w0 : bus.write_ok c.txn = true) (w1 : bus.write_ok (c.txn + 1) = true) :
    _bc_sps30_task_measure bus (fuel + 2) c
      = some
        { self := { c.self with _state := .READ_DATAREADY_FLAG }
          txn := c.txn + 2
          trace := c.trace ++
            [effect.dispatch .START_MEASUREMENT,
             effect.i2c_write c.self._i2c_channel c.self._i2c_address
               [0x00, 0x10, 0x03, 0x00, _bc_sps30_calculate_crc [0x03, 0x00]] true,
             effect.dispatch .SET_DATAREADY_FLAG,
             effect.i2c_write c.self._i2c_channel c.self._i2c_address [0x02, 0x02] true,
             effect.plan_current_from_now _BC_SPS30_DELAY_READ] } := by
  simp [_bc_sps30_task_measure, task_measure_iter, hst, bc_i2c_write, set_state, emit, w0, w1]

/-- Second invocation of a cycle: the data-ready flag is read with a correct
checksum and reports ready, the GET_MEASUREMENT_DATA write succeeds; the task
returns in READ_MEASUREMENT_DATA. -/
theorem invocation_data_ready (bus : bc_i2c_bus) (c : task_ctx) (fuel : Nat) (flag : List Nat)
    (hst : c.self._state = .READ_DATAREADY_FLAG)
    (r0 : bus.read_reply c.txn = some flag)
    (hcrc : _bc_sps30_calculate_crc (flag.take 2) = flag.getD 2 0)
    (hready : flag.getD 1 0 = 0x01)
    (w1 : bus.write_ok (c.txn + 1) = true) :
    _bc_sps30_task_measure bus (fuel + 2) c
      = some
        { self := { c.self with _state := .READ_MEASUREMENT_DATA }
          txn := c.txn + 2
          trace := c.trace ++
            [effect.dispatch .READ_DATAREADY_FLAG,
             effect.i2c_read c.self._i2c_channel c.self._i2c_address 3 (some flag),
             effect.dispatch .GET_MEASUREMENT_DATA,
             effect.i2c_write c.self._i2c_channel c.self._i2c_address [0x03, 0x00] true,
             effect.plan_current_from_now _BC_SPS30_DELAY_READ] } := by
  rw [List.getD_eq_getElem?_getD] at hcrc hready
  simp [_bc_sps30_task_measure, task_measure_iter, hst, bc_i2c_write, bc_i2c_read, set_state,
    emit, r0, w1, hcrc, hready]

/-- Third invocation of a cycle: the measurement reply is read and decoded, the
fields are stored, the flag is set, the UPDATE event is raised, the
STOP_MEASUREMENT write succeeds; the task returns in READY. -/
theorem invocation_read_measurement (bus : bc_i2c_bus) (c : task_ctx) (fuel : Nat)
    (buffer data8 : List Nat)
    (hst : c.self._state = .READ_MEASUREMENT_DATA)
    (r0 : bus.read_reply c.txn = some buffer)
    (hconv : _bc_sps30_convert_to_words buffer (BC_SPS30_NUM_WORDS 40) = (true, data8))
    (w1 : bus.write_ok (c.txn + 1) = true) :
    _bc_sps30_task_measure bus (fuel + 3) c
      = some
        { self := { store_measurement c.self data8 with
                    _state := .READY, _measurement_valid := true }
          txn := c.txn + 2
          trace := c.trace ++
            [effect.dispatch .READ_MEASUREMENT_DATA,
             effect.i2c_read c.self._i2c_channel c.self._i2c_address 60 (some buffer),
             effect.event c.self._event_handler
               { store_measurement c.self data8 with
                 _state := .ERROR, _measurement_valid := true }
               .UPDATE c.self._event_param,
             effect.dispatch .STOP_MEASUREMENT,
             effect.i2c_write c.self._i2c_channel c.self._i2c_address [0x01, 0x04] true,
             effect.dispatch .READY] } := by
  simp [_bc_sps30_task_measure, task_measure_iter, hst, bc_i2c_write, bc_i2c_read, set_state,
    emit, raise_event, store_measurement, r0, w1, hconv]

/-- C10: from READY, after `bc_sps30_measure` is called and every bus
transaction succeeds with checksum-valid replies (the data-ready reply
reporting ready), the step task runs three times, returning in
READ_DATAREADY_FLAG, in READ_MEASUREMENT_DATA and in READY; the states it
visits are START_MEASUREMENT, SET_DATAREADY_FLAG, READ_DATAREADY_FLAG,
GET_MEASUREMENT_DATA, READ_MEASUREMENT_DATA, STOP_MEASUREMENT, READY in this
order; exactly one event is raised, an UPDATE event, after the measurement
reply has been read, with the decoded fields stored and the valid flag true at
that time (it is delivered in one call to the registered callback, if there
is one); no ERROR event is raised; and the cycle ends in READY with the valid
flag true. -/
theorem C10_successful_cycle (bus : bc_i2c_bus) (self : bc_sps30_t) (t fuel : Nat)
    (flag reply : List Nat)
    (hst : self._state = .READY)
    (w0 : bus.write_ok t = true)
    (w1 : bus.write_ok (t + 1) = true)
    (r2 : bus.read_reply (t + 2) = some flag)
    (hcrc : _bc_sps30_calculate_crc (flag.take 2) = flag.getD 2 0)
    (hready : flag.getD 1 0 = 0x01)
    (w3 : bus.write_ok (t + 3) = true)
    (r4 : bus.read_reply (t + 4) = some reply)
    (hconv : (_bc_sps30_convert_to_words reply 20).1 = true)
    (w5 : bus.write_ok (t + 5) = true) :
    (bc_sps30_measure self).1 = true ∧
    ∃ c1 c2 c3,
      _bc_sps30_task_measure bus (fuel + 2)
        { self := (bc_sps30_measure self).2.1, txn := t, trace := [] } = some c1 ∧
      _bc_sps30_task_measure bus (fuel + 2) c1 = some c2 ∧
      _bc_sps30_task_measure bus (fuel + 3) c2 = some c3 ∧
      c1.self._state = .READ_DATAREADY_FLAG ∧
      c2.self._state = .READ_MEASUREMENT_DATA ∧
      c3.trace =
        [effect.dispatch .START_MEASUREMENT,
         effect.i2c_write self._i2c_channel self._i2c_address
           [0x00, 0x10, 0x03, 0x00, _bc_sps30_calculate_crc [0x03, 0x00]] true,
         effect.dispatch .SET_DATAREADY_FLAG,
         effect.i2c_write self._i2c_channel self._i2c_address [0x02, 0x02] true,
         effect.plan_current_from_now _BC_SPS30_DELAY_READ,
         effect.dispatch .READ_DATAREADY_FLAG,
         effect.i2c_read self._i2c_channel self._i2c_address 3 (some flag),
         effect.dispatch .GET_MEASUREMENT_DATA,
         effect.i2c_write self._i2c_channel self._i2c_address [0x03, 0x00] true,
         effect.plan_current_from_now _BC_SPS30_DELAY_READ,
         effect.dispatch .READ_MEASUREMENT_DATA,
         effect.i2c_read self._i2c_channel self._i2c_address 60 (some reply),
         effect.event self._event_handler
           { store_measurement self (_bc_sps30_convert_to_words reply 20).2 with
             _state := .ERROR, _measurement_valid := true }
           .UPDATE self._event_param,
         effect.dispatch .STOP_MEASUREMENT,
         effect.i2c_write self._i2c_channel self._i2c_address [0x01, 0x04] true,
         effect.dispatch .READY] ∧
      dispatched c3.trace =
        [.START_MEASUREMENT, .SET_DATAREADY_FLAG, .READ_DATAREADY_FLAG, .GET_MEASUREMENT_DATA,
         .READ_MEASUREMENT_DATA, .STOP_MEASUREMENT, .READY] ∧
      events c3.trace =
        [(.UPDATE, { store_measurement self (_bc_sps30_convert_to_words reply 20).2 with
                     _state := .ERROR, _measurement_valid := true })] ∧
      callbacks c3.trace =
        callback_calls self .UPDATE
          { store_measurement self (_bc_sps30_convert_to_words reply 20).2 with
            _state := .ERROR, _measurement_valid := true } ∧
      (∀ handler, self._event_handler = some handler →
        callbacks c3.trace =
          [(handler, .UPDATE,
            { store_measurement self (_bc_sps30_convert_to_words reply 20).2 with
              _state := .ERROR, _measurement_valid := true })]) ∧
      c3.self = { store_measurement self (_bc_sps30_convert_to_words reply 20).2 with
                  _state := .READY, _measurement_valid := true } ∧
      c3.self._state = .READY ∧ c3.self._measurement_valid = true ∧
      c3.txn = t + 6 := by
  have hm : bc_sps30_measure self
      = (true, { self with _state := .START_MEASUREMENT },
          [effect.plan_now self._task_id_measure]) := by
    simp [bc_sps30_measure, hst]
  have hconv' : _bc_sps30_convert_to_words reply (BC_SPS30_NUM_WORDS 40)
      = (true, (_bc_sps30_convert_to_words reply 20).2) := by
    show _bc_sps30_convert_to_words reply 20 = _
    rw [← hconv]
  have e1 := invocation_start_measurement bus
    { self := { self with _state := .START_MEASUREMENT }, txn := t, trace := [] } fuel rfl w0 w1
  have e2 := invocation_data_ready bus
    (⟨{ self with _state := .READ_DATAREADY_FLAG }, t + 2,
      [] ++
        [effect.dispatch .START_MEASUREMENT,
         effect.i2c_write self._i2c_channel self._i2c_address
           [0x00, 0x10, 0x03, 0x00, _bc_sps30_calculate_crc [0x03, 0x00]] true,
         effect.dispatch .SET_DATAREADY_FLAG,
         effect.i2c_write self._i2c_channel self._i2c_address [0x02, 0x02] true,
         effect.plan_current_from_now _BC_SPS30_DELAY_READ]⟩ : task_ctx)
    fuel flag rfl r2 hcrc hready w3
  have e3 := invocation_read_measurement bus
    (⟨{ self with _state := .READ_MEASUREMENT_DATA }, t + 2 + 2,
      ([] ++
        [effect.dispatch .START_MEASUREMENT,
         effect.i2c_write self._i2c_channel self._i2c_address
           [0x00, 0x10, 0x03, 0x00, _bc_sps30_calculate_crc [0x03, 0x00]] true,
         effect.dispatch .SET_DATAREADY_FLAG,
         effect.i2c_write self._i2c_channel self._i2c_address [0x02, 0x02] true,
         effect.plan_current_from_now _BC_SPS30_DELAY_READ]) ++
        [effect.dispatch .READ_DATAREADY_FLAG,
         effect.i2c_read self._i2c_channel self._i2c_address 3 (some flag),
         effect.dispatch .GET_MEASUREMENT_DATA,
         effect.i2c_write self._i2c_channel self._i2c_address [0x03, 0x00] true,
         effect.plan_current_from_now _BC_SPS30_DELAY_READ]⟩ : task_ctx)
    fuel reply _ rfl r4 hconv' w5
  refine ⟨by rw [hm], _, _, _, by rw [hm]; exact e1, e2, e3, rfl, rfl, ?_, ?_, ?_, ?_, ?_, ?_,
    rfl, rfl, rfl⟩
  · simp [store_measurement]
  · simp [dispatched]
  · simp [events, store_measurement]
  · simp only [List.nil_append, List.cons_append, callbacks]
    rw [callbacks_event _ self _ _ _ _ rfl]
    simp [callbacks, store_measurement]
  · intro handler hh
    simp [callbacks, store_measurement, hh]
  · simp [store_measurement]

set_option maxRecDepth 100000 in
/-- Witness for C10: a full cycle on `cycle_bus` from the READY handle with
callback `7` registered; the callback is called once, with UPDATE, and the
getters then deliver the patterns of `1.0 .. 4.0`. -/
theorem C10_successful_cycle_witness :
    ∃ c1 c2 c3,
      _bc_sps30_task_measure cycle_bus 2
        { self := (bc_sps30_measure (example_handle .READY)).2.1, txn := 0, trace := [] }
        = some c1 ∧
      _bc_sps30_task_measure cycle_bus 2 c1 = some c2 ∧
      _bc_sps30_task_measure cycle_bus 3 c2 = some c3 ∧
      dispatched c3.trace =
        [.START_MEASUREMENT, .SET_DATAREADY_FLAG, .READ_DATAREADY_FLAG, .GET_MEASUREMENT_DATA,
         .READ_MEASUREMENT_DATA, .STOP_MEASUREMENT, .READY] ∧
      (events c3.trace).map Prod.fst = [.UPDATE] ∧
      (callbacks c3.trace).map (fun x => (x.1, x.2.1)) = [(7, .UPDATE)] ∧
      c3.self._state = .READY ∧ c3.self._measurement_valid = true ∧
      c3.self._mass_concentration
        = { mc_1p0 := 0x3F800000, mc_2p5 := 0x40000000, mc_4p0 := 0x40400000,
            mc_10p0 := 0x40800000 } := by
  obtain ⟨_, c1, c2, c3, e1, e2, e3, _, _, _, hd, hev, hcb, _, hself, hs, hv, _⟩ :=
    C10_successful_cycle cycle_bus (example_handle .READY) 0 0
      [0x00, 0x01, _bc_sps30_calculate_crc [0x00, 0x01]]
      (measurement_payload float_patterns_1_to_10)
      rfl rfl rfl rfl (by decide) (by decide) rfl rfl (by decide) rfl
  refine ⟨c1, c2, c3, e1, e2, e3, hd, ?_, ?_, hs, hv, ?_⟩
  · rw [hev]
    rfl
  · rw [hcb]
    rfl
  · rw [hself]
    decide

/-! ## Initialization path -/

theorem convert_to_words_ok (buffer : List Nat) (n : Nat) (hlen : buffer.length = 3 * n)
    (hcrc : ∀ g < n, group_ok buffer g) :
    _bc_sps30_convert_to_words buffer n = (true, data_bytes buffer) := by
  have hgood : ∀ g, ¬ group_bad buffer g := by
    rintro g ⟨hin, hne⟩
    exact hne (hcrc g (by omega))
  unfold _bc_sps30_convert_to_words
  rw [if_neg (by simp; omega), convert_loop_ok buffer [] hgood]
  simp

/-- First invocation after initialization: INITIALIZE, then a successful
GET_SERIAL_NUMBER write; the task returns in READ_SERIAL_NUMBER. -/
theorem invocation_initialize (bus : bc_i2c_bus) (c : task_ctx) (fuel : Nat)
    (hst : c.self._state = .INITIALIZE)
    (w0 : bus.write_ok c.txn = true) :
    _bc_sps30_task_measure bus (fuel + 2) c
      = some
        { self := { c.self with _state := .READ_SERIAL_NUMBER }
          txn := c.txn + 1
          trace := c.trace ++
            [effect.dispatch .INITIALIZE,
             effect.dispatch .GET_SERIAL_NUMBER,
             effect.i2c_write c.self._i2c_channel c.self._i2c_address [0xd0, 0x33] true,
             effect.plan_current_from_now _BC_SPS30_DELAY_READ] } := by
  simp [_bc_sps30_task_measure, task_measure_iter, hst, bc_i2c_write, set_state, emit, w0]

/-- Second invocation after initialization: the serial number is read and
decoded; the task returns in READY. -/
theorem invocation_read_serial_number (bus : bc_i2c_bus) (c : task_ctx) (fuel : Nat)
    (buffer : List Nat)
    (hst : c.self._state = .READ_SERIAL_NUMBER)
    (r0 : bus.read_reply c.txn = some buffer)
    (hconv : (_bc_sps30_convert_to_words buffer (BC_SPS30_NUM_WORDS 32)).1 = true) :
    _bc_sps30_task_measure bus (fuel + 2) c
      = some
        { self := { c.self with _state := .READY }
          txn := c.txn + 1
          trace := c.trace ++
            [effect.dispatch .READ_SERIAL_NUMBER,
             effect.i2c_read c.self._i2c_channel c.self._i2c_address 48 (some buffer),
             effect.dispatch .READY] } := by
  simp [_bc_sps30_task_measure, task_measure_iter, hst, bc_i2c_read, set_state, emit, r0, hconv]

/-- C11: after `bc_sps30_init` the state is INITIALIZE, the valid flag is
false and the step task is registered with the fixed startup delay
`_BC_SPS30_DELAY_RUN`; if the serial-number query write `[0xD0, 0x33]` then
succeeds and the following 48-byte read succeeds with 16 checksum-valid
groups, the step task runs twice, returning in READ_SERIAL_NUMBER and in
READY; it visits INITIALIZE, GET_SERIAL_NUMBER, READ_SERIAL_NUMBER (and
READY, where it returns), raises no event and leaves the valid flag false. -/
theorem C11_initialization_path
    (tick_infinity id_interval id_measure i2c_channel i2c_address : Nat) :
    (bc_sps30_init tick_infinity id_interval id_measure i2c_channel i2c_address).1._state
      = .INITIALIZE ∧
    (bc_sps30_init tick_infinity id_interval id_measure i2c_channel i2c_address).1._measurement_valid
      = false ∧
    (bc_sps30_init tick_infinity id_interval id_measure i2c_channel i2c_address).2
      = [effect.scheduler_register_interval tick_infinity,
         effect.scheduler_register_measure _BC_SPS30_DELAY_RUN,
         effect.i2c_init i2c_channel] ∧
    (∀ (bus : bc_i2c_bus) (t fuel : Nat) (reply : List Nat),
      bus.write_ok t = true →
      bus.read_reply (t + 1) = some reply →
      reply.length = 48 →
      (∀ g < 16, group_ok reply g) →
      ∃ c1 c2,
        _bc_sps30_task_measure bus (fuel + 2)
          { self := (bc_sps30_init tick_infinity id_interval id_measure i2c_channel
              i2c_address).1,
            txn := t, trace := [] } = some c1 ∧
        _bc_sps30_task_measure bus (fuel + 2) c1 = some c2 ∧
        c1.self._state = .READ_SERIAL_NUMBER ∧
        c2.trace =
          [effect.dispatch .INITIALIZE,
           effect.dispatch .GET_SERIAL_NUMBER,
           effect.i2c_write i2c_channel i2c_address [0xD0, 0x33] true,
           effect.plan_current_from_now _BC_SPS30_DELAY_READ,
           effect.dispatch .READ_SERIAL_NUMBER,
           effect.i2c_read i2c_channel i2c_address 48 (some reply),
           effect.dispatch .READY] ∧
        dispatched c2.trace
          = [.INITIALIZE, .GET_SERIAL_NUMBER, .READ_SERIAL_NUMBER, .READY] ∧
        events c2.trace = [] ∧
        c2.self._state = .READY ∧
        c2.self._measurement_valid = false ∧
        c2.self = { (bc_sps30_init tick_infinity id_interval id_measure i2c_channel
                      i2c_address).1 with _state := .READY }) := by
  refine ⟨rfl, rfl, rfl, ?_⟩
  intro bus t fuel reply w0 r1 hlen hcrc
  have hconv : (_bc_sps30_convert_to_words reply (BC_SPS30_NUM_WORDS 32)).1 = true := by
    show (_bc_sps30_convert_to_words reply 16).1 = true
    rw [convert_to_words_ok reply 16 (by omega) hcrc]
  have e1 := invocation_initialize bus
    (⟨(bc_sps30_init tick_infinity id_interval id_measure i2c_channel i2c_address).1, t, []⟩ :
      task_ctx) fuel rfl w0
  have e2 := invocation_read_serial_number bus
    (⟨{ (bc_sps30_init tick_infinity id_interval id_measure i2c_channel i2c_address).1 with
        _state := .READ_SERIAL_NUMBER }, t + 1,
      [] ++
        [effect.dispatch .INITIALIZE,
         effect.dispatch .GET_SERIAL_NUMBER,
         effect.i2c_write i2c_channel i2c_address [0xd0, 0x33] true,
         effect.plan_current_from_now _BC_SPS30_DELAY_READ]⟩ : task_ctx)
    fuel reply rfl r1 hconv
  exact ⟨_, _, e1, e2, rfl, rfl, rfl, rfl, rfl, rfl, rfl⟩

set_option maxRecDepth 100000 in
/-- Witness for C11: initialization on channel `0`, address `0x69`, followed by
a successful serial-number query on a bus delivering `serial_payload`. -/
theorem C11_initialization_path_witness :
    (serial_payload.length = 48 ∧ ∀ g < 16, group_ok serial_payload g) ∧
    ∃ c1 c2,
      _bc_sps30_task_measure (constant_bus serial_payload) 2
        { self := (bc_sps30_init (2 ^ 64 - 1) 1 2 0 0x69).1, txn := 0, trace := [] } = some c1 ∧
      _bc_sps30_task_measure (constant_bus serial_payload) 2 c1 = some c2 ∧
      c1.self._state = .READ_SERIAL_NUMBER ∧
      dispatched c2.trace
        = [.INITIALIZE, .GET_SERIAL_NUMBER, .READ_SERIAL_NUMBER, .READY] ∧
      events c2.trace = [] ∧
      c2.self._state = .READY ∧
      c2.self._measurement_valid = false := by
  have hp : serial_payload.length = 48 ∧ ∀ g < 16, group_ok serial_payload g := by decide
  obtain ⟨c1, c2, e1, e2, s1, _, hd, hev, hs, hv, _⟩ :=
    (C11_initialization_path (2 ^ 64 - 1) 1 2 0 0x69).2.2.2
      (constant_bus serial_payload) 0 0 serial_payload rfl rfl hp.1 hp.2
  exact ⟨hp, c1, c2, e1, e2, s1, hd, hev, hs, hv⟩

/-! ## Data-ready polling -/

/-- The READ_DATAREADY_FLAG step on a checksum-valid reply whose second byte
is not `0x01`: the handle is unchanged, one transaction is consumed, the task
plans itself after `_BC_SPS30_DELAY_MEASUREMENT` and returns. -/
theorem iter_data_not_ready (bus : bc_i2c_bus) (c : task_ctx) (flag : List Nat)
    (hst : c.self._state = .READ_DATAREADY_FLAG)
    (r0 : bus.read_reply c.txn = some flag)
    (hcrc : _bc_sps30_calculate_crc (flag.take 2) = flag.getD 2 0)
    (hnot : flag.getD 1 0 ≠ 0x01) :
    task_measure_iter bus c
      = (.returned,
          { self := c.self
            txn := c.txn + 1
            trace := c.trace ++
              [effect.dispatch .READ_DATAREADY_FLAG,
               effect.i2c_read c.self._i2c_channel c.self._i2c_address 3 (some flag),
               effect.plan_current_from_now _BC_SPS30_DELAY_MEASUREMENT] }) := by
  rw [List.getD_eq_getElem?_getD] at hcrc hnot
  simp [task_measure_iter, hst, bc_i2c_read, set_state, emit, r0, hcrc, hnot]
  rw [← hst]

/-- The READ_DATAREADY_FLAG step on a checksum-valid reply whose second byte
is `0x01`: the state becomes GET_MEASUREMENT_DATA and the loop continues. -/
theorem iter_data_ready (bus : bc_i2c_bus) (c : task_ctx) (flag : List Nat)
    (hst : c.self._state = .READ_DATAREADY_FLAG)
    (r0 : bus.read_reply c.txn = some flag)
    (hcrc : _bc_sps30_calculate_crc (flag.take 2) = flag.getD 2 0)
    (hready : flag.getD 1 0 = 0x01) :
    task_measure_iter bus c
      = (.next_iteration,
          { self := { c.self with _state := .GET_MEASUREMENT_DATA }
            txn := c.txn + 1
            trace := c.trace ++
              [effect.dispatch .READ_DATAREADY_FLAG,
               effect.i2c_read c.self._i2c_channel c.self._i2c_address 3 (some flag)] }) := by
  rw [List.getD_eq_getElem?_getD] at hcrc hready
  simp [task_measure_iter, hst, bc_i2c_read, set_state, emit, r0, hcrc, hready]

theorem invocation_data_not_ready (bus : bc_i2c_bus) (c : task_ctx) (fuel : Nat)
    (flag : List Nat)
    (hst : c.self._state = .READ_DATAREADY_FLAG)
    (r0 : bus.read_reply c.txn = some flag)
    (hcrc : _bc_sps30_calculate_crc (flag.take 2) = flag.getD 2 0)
    (hnot : flag.getD 1 0 ≠ 0x01) :
    ∃ c1, _bc_sps30_task_measure bus (fuel + 1) c = some c1 ∧
      c1.self = c.self ∧ c1.txn = c.txn + 1 ∧
      c1.trace = c.trace ++
        [effect.dispatch .READ_DATAREADY_FLAG,
         effect.i2c_read c.self._i2c_channel c.self._i2c_address 3 (some flag),
         effect.plan_current_from_now _BC_SPS30_DELAY_MEASUREMENT] := by
  refine ⟨⟨c.self, c.txn + 1, c.trace ++
      [effect.dispatch .READ_DATAREADY_FLAG,
       effect.i2c_read c.self._i2c_channel c.self._i2c_address 3 (some flag),
       effect.plan_current_from_now _BC_SPS30_DELAY_MEASUREMENT]⟩, ?_, rfl, rfl, rfl⟩
  simp only [_bc_sps30_task_measure, iter_data_not_ready bus c flag hst r0 hcrc hnot]

theorem invocation_start_measurement_ex (bus : bc_i2c_bus) (c : task_ctx) (fuel : Nat)
    (hst : c.self._state = .START_MEASUREMENT)
    (w0 : bus.write_ok c.txn = true) (w1 : bus.write_ok (c.txn + 1) = true) :
    ∃ c1, _bc_sps30_task_measure bus (fuel + 2) c = some c1 ∧
      c1.self = { c.self with _state := .READ_DATAREADY_FLAG } ∧ c1.txn = c.txn + 2 ∧
      c1.trace = c.trace ++
        [effect.dispatch .START_MEASUREMENT,
         effect.i2c_write c.self._i2c_channel c.self._i2c_address
           [0x00, 0x10, 0x03, 0x00, _bc_sps30_calculate_crc [0x03, 0x00]] true,
         effect.dispatch .SET_DATAREADY_FLAG,
         effect.i2c_write c.self._i2c_channel c.self._i2c_address [0x02, 0x02] true,
         effect.plan_current_from_now _BC_SPS30_DELAY_READ] :=
  ⟨_, invocation_start_measurement bus c fuel hst w0 w1, rfl, rfl, rfl⟩

/-- C12: in READ_DATAREADY_FLAG, when the 3-byte read succeeds, its checksum is
valid and the reply does not report ready (second byte different from `0x01`,
in particular zero), the step leaves the handle as it is (state
READ_DATAREADY_FLAG, valid flag and stored measurement untouched), raises no
event, plans itself after `_BC_SPS30_DELAY_MEASUREMENT` and returns.
Consequently, from READY after a measurement trigger, three replies that do
not report ready followed by one that does cause exactly four status reads
and three re-polls, after which the state is GET_MEASUREMENT_DATA and the
loop continues. -/
theorem C12_data_ready_polling :
    (∀ (bus : bc_i2c_bus) (c : task_ctx) (flag : List Nat),
      c.self._state = .READ_DATAREADY_FLAG →
      bus.read_reply c.txn = some flag →
      _bc_sps30_calculate_crc (flag.take 2) = flag.getD 2 0 →
      flag.getD 1 0 ≠ 0x01 →
      ∃ c1, task_measure_iter bus c = (.returned, c1) ∧
        c1.self = c.self ∧
        c1.self._state = .READ_DATAREADY_FLAG ∧
        events c1.trace = events c.trace ∧
        scheduled c1.trace
          = scheduled c.trace ++ [effect.plan_current_from_now _BC_SPS30_DELAY_MEASUREMENT] ∧
        c1.txn = c.txn + 1) ∧
    (∀ (bus : bc_i2c_bus) (self : bc_sps30_t) (t fuel : Nat) (f0 f1 f2 f3 : List Nat),
      self._state = .READY →
      bus.write_ok t = true →
      bus.write_ok (t + 1) = true →
      bus.read_reply (t + 2) = some f0 →
      _bc_sps30_calculate_crc (f0.take 2) = f0.getD 2 0 → f0.getD 1 0 ≠ 0x01 →
      bus.read_reply (t + 3) = some f1 →
      _bc_sps30_calculate_crc (f1.take 2) = f1.getD 2 0 → f1.getD 1 0 ≠ 0x01 →
      bus.read_reply (t + 4) = some f2 →
      _bc_sps30_calculate_crc (f2.take 2) = f2.getD 2 0 → f2.getD 1 0 ≠ 0x01 →
      bus.read_reply (t + 5) = some f3 →
      _bc_sps30_calculate_crc (f3.take 2) = f3.getD 2 0 → f3.getD 1 0 = 0x01 →
      ∃ c1 c2 c3 c4 c5,
        _bc_sps30_task_measure bus (fuel + 2)
          { self := (bc_sps30_measure self).2.1, txn := t, trace := [] } = some c1 ∧
        _bc_sps30_task_measure bus (fuel + 1) c1 = some c2 ∧
        _bc_sps30_task_measure bus (fuel + 1) c2 = some c3 ∧
        _bc_sps30_task_measure bus (fuel + 1) c3 = some c4 ∧
        task_measure_iter bus c4 = (.next_iteration, c5) ∧
        c1.self._state = .READ_DATAREADY_FLAG ∧
        c2.self._state = .READ_DATAREADY_FLAG ∧
        c3.self._state = .READ_DATAREADY_FLAG ∧
        c4.self._state = .READ_DATAREADY_FLAG ∧
        c5.self._state = .GET_MEASUREMENT_DATA ∧
        read_requests c5.trace = [3, 3, 3, 3] ∧
        scheduled c5.trace
          = [effect.plan_current_from_now _BC_SPS30_DELAY_READ,
             effect.plan_current_from_now _BC_SPS30_DELAY_MEASUREMENT,
             effect.plan_current_from_now _BC_SPS30_DELAY_MEASUREMENT,
             effect.plan_current_from_now _BC_SPS30_DELAY_MEASUREMENT] ∧
        dispatched c5.trace
          = [.START_MEASUREMENT, .SET_DATAREADY_FLAG, .READ_DATAREADY_FLAG,
             .READ_DATAREADY_FLAG, .READ_DATAREADY_FLAG, .READ_DATAREADY_FLAG] ∧
        events c5.trace = []) := by
  constructor
  · intro bus c flag hst r0 hcrc hnot
    refine ⟨_, iter_data_not_ready bus c flag hst r0 hcrc hnot, rfl, hst, ?_, ?_, rfl⟩
    · simp [events_append, events]
    · simp [scheduled_append, scheduled]
  · intro bus self t fuel f0 f1 f2 f3 hst w0 w1 r2 k2 n2 r3 k3 n3 r4 k4 n4 r5 k5 y5
    have hm : (bc_sps30_measure self).2.1 = { self with _state := .START_MEASUREMENT } := by
      simp [bc_sps30_measure, hst]
    obtain ⟨c1, e1, s1, t1, tr1⟩ := invocation_start_measurement_ex bus
      (⟨{ self with _state := .START_MEASUREMENT }, t, []⟩ : task_ctx) fuel rfl w0 w1
    have q1 : c1.self._state = .READ_DATAREADY_FLAG := by rw [s1]
    obtain ⟨c2, e2, s2, t2, tr2⟩ := invocation_data_not_ready bus c1 fuel f0 q1
      (by rw [t1]; exact r2) k2 n2
    have q2 : c2.self._state = .READ_DATAREADY_FLAG := by rw [s2, q1]
    obtain ⟨c3, e3, s3, t3, tr3⟩ := invocation_data_not_ready bus c2 fuel f1 q2
      (by rw [t2, t1]; exact r3) k3 n3
    have q3 : c3.self._state = .READ_DATAREADY_FLAG := by rw [s3, q2]
    obtain ⟨c4, e4, s4, t4, tr4⟩ := invocation_data_not_ready bus c3 fuel f2 q3
      (by rw [t3, t2, t1]; exact r4) k4 n4
    have q4 : c4.self._state = .READ_DATAREADY_FLAG := by rw [s4, q3]
    have e5 := iter_data_ready bus c4 f3 q4 (by rw [t4, t3, t2, t1]; exact r5) k5 y5
    refine ⟨c1, c2, c3, c4, _, by rw [hm]; exact e1, e2, e3, e4, e5, q1, q2, q3, q4, rfl,
      ?_, ?_, ?_, ?_⟩
    · simp [tr4, tr3, tr2, tr1, read_requests]
    · simp [tr4, tr3, tr2, tr1, scheduled]
    · simp [tr4, tr3, tr2, tr1, dispatched]
    · simp [tr4, tr3, tr2, tr1, events]

set_option maxRecDepth 100000 in
/-- Witness for C12: on `polling_bus`, from the READY handle, the status is
read four times and the task re-polls three times before the state becomes
GET_MEASUREMENT_DATA. -/
theorem C12_data_ready_polling_witness :
    (∃ c1,
      task_measure_iter polling_bus
        { self := example_handle .READ_DATAREADY_FLAG, txn := 2, trace := [] }
        = (.returned, c1) ∧
      c1.self = example_handle .READ_DATAREADY_FLAG ∧
      c1.self._state = .READ_DATAREADY_FLAG ∧
      events c1.trace = [] ∧
      scheduled c1.trace = [effect.plan_current_from_now 250] ∧
      c1.txn = 3) ∧
    (∃ c1 c2 c3 c4 c5,
      _bc_sps30_task_measure polling_bus 2
        { self := (bc_sps30_measure (example_handle .READY)).2.1, txn := 0, trace := [] }
        = some c1 ∧
      _bc_sps30_task_measure polling_bus 1 c1 = some c2 ∧
      _bc_sps30_task_measure polling_bus 1 c2 = some c3 ∧
      _bc_sps30_task_measure polling_bus 1 c3 = some c4 ∧
      task_measure_iter polling_bus c4 = (.next_iteration, c5) ∧
      c5.self._state = .GET_MEASUREMENT_DATA ∧
      read_requests c5.trace = [3, 3, 3, 3] ∧
      scheduled c5.trace
        = [effect.plan_current_from_now 30, effect.plan_current_from_now 250,
           effect.plan_current_from_now 250, effect.plan_current_from_now 250]) := by
  constructor
  · exact C12_data_ready_polling.1 polling_bus
      { self := example_handle .READ_DATAREADY_FLAG, txn := 2, trace := [] }
      [0x00, 0x00, _bc_sps30_calculate_crc [0x00, 0x00]] rfl rfl (by decide) (by decide)
  · obtain ⟨c1, c2, c3, c4, c5, e1, e2, e3, e4, e5, _, _, _, _, s5, hr, hs, _, _⟩ :=
      C12_data_ready_polling.2 polling_bus (example_handle .READY) 0 0
        [0x00, 0x00, _bc_sps30_calculate_crc [0x00, 0x00]]
        [0x00, 0x00, _bc_sps30_calculate_crc [0x00, 0x00]]
        [0x00, 0x00, _bc_sps30_calculate_crc [0x00, 0x00]]
        [0x00, 0x01, _bc_sps30_calculate_crc [0x00, 0x01]]
        rfl rfl rfl rfl (by decide) (by decide) rfl (by decide) (by decide)
        rfl (by decide) (by decide) rfl (by decide) (by decide)
    exact ⟨c1, c2, c3, c4, c5, e1, e2, e3, e4, e5, s5, hr, hs⟩

/-- C13 (as amended): for every status reply that was read successfully and
whose third byte is the checksum of the first two, the READ_DATAREADY_FLAG
step advances to GET_MEASUREMENT_DATA exactly when the second reply byte
equals `0x01`; for every other value of that byte, zero included, it stays in
READ_DATAREADY_FLAG, plans a re-poll and returns. -/
theorem C13_data_ready_decision (bus : bc_i2c_bus) (c : task_ctx) (flag : List Nat)
    (hst : c.self._state = .READ_DATAREADY_FLAG)
    (r0 : bus.read_reply c.txn = some flag)
    (hcrc : _bc_sps30_calculate_crc (flag.take 2) = flag.getD 2 0) :
    ((task_measure_iter bus c).2.self._state = .GET_MEASUREMENT_DATA ↔ flag.getD 1 0 = 0x01) ∧
    (flag.getD 1 0 = 0x01 →
      (task_measure_iter bus c).1 = .next_iteration ∧
      (task_measure_iter bus c).2.self._state = .GET_MEASUREMENT_DATA ∧
      scheduled (task_measure_iter bus c).2.trace = scheduled c.trace) ∧
    (flag.getD 1 0 ≠ 0x01 →
      (task_measure_iter bus c).1 = .returned ∧
      (task_measure_iter bus c).2.self._state = .READ_DATAREADY_FLAG ∧
      scheduled (task_measure_iter bus c).2.trace
        = scheduled c.trace ++ [effect.plan_current_from_now _BC_SPS30_DELAY_MEASUREMENT]) := by
  have ready : flag.getD 1 0 = 0x01 →
      (task_measure_iter bus c).1 = .next_iteration ∧
      (task_measure_iter bus c).2.self._state = .GET_MEASUREMENT_DATA ∧
      scheduled (task_measure_iter bus c).2.trace = scheduled c.trace := by
    intro h
    rw [iter_data_ready bus c flag hst r0 hcrc h]
    refine ⟨rfl, rfl, ?_⟩
    simp [scheduled_append, scheduled]
  have notready : flag.getD 1 0 ≠ 0x01 →
      (task_measure_iter bus c).1 = .returned ∧
      (task_measure_iter bus c).2.self._state = .READ_DATAREADY_FLAG ∧
      scheduled (task_measure_iter bus c).2.trace
        = scheduled c.trace ++ [effect.plan_current_from_now _BC_SPS30_DELAY_MEASUREMENT] := by
    intro h
    rw [iter_data_not_ready bus c flag hst r0 hcrc h]
    refine ⟨rfl, hst, ?_⟩
    simp [scheduled_append, scheduled]
  refine ⟨⟨fun h => ?_, fun h => (ready h).2.1⟩, ready, notready⟩
  by_contra hne
  rw [(notready hne).2.1] at h
  exact absurd h (by decide)

set_option maxRecDepth 100000 in
/-- Witness for C13: the reply `0x00 0x01` advances to GET_MEASUREMENT_DATA,
the reply `0x00 0x00` re-polls. -/
theorem C13_data_ready_decision_witness :
    ((task_measure_iter (constant_bus [0x00, 0x01, _bc_sps30_calculate_crc [0x00, 0x01]])
        { self := example_handle .READ_DATAREADY_FLAG, txn := 2, trace := [] }).1
        = .next_iteration ∧
     (task_measure_iter (constant_bus [0x00, 0x01, _bc_sps30_calculate_crc [0x00, 0x01]])
        { self := example_handle .READ_DATAREADY_FLAG, txn := 2, trace := [] }).2.self._state
        = .GET_MEASUREMENT_DATA ∧
     scheduled
        (task_measure_iter (constant_bus [0x00, 0x01, _bc_sps30_calculate_crc [0x00, 0x01]])
          { self := example_handle .READ_DATAREADY_FLAG, txn := 2, trace := [] }).2.trace
        = scheduled []) ∧
    ((task_measure_iter (constant_bus [0x00, 0x00, _bc_sps30_calculate_crc [0x00, 0x00]])
        { self := example_handle .READ_DATAREADY_FLAG, txn := 2, trace := [] }).1
        = .returned ∧
     (task_measure_iter (constant_bus [0x00, 0x00, _bc_sps30_calculate_crc [0x00, 0x00]])
        { self := example_handle .READ_DATAREADY_FLAG, txn := 2, trace := [] }).2.self._state
        = .READ_DATAREADY_FLAG ∧
     scheduled
        (task_measure_iter (constant_bus [0x00, 0x00, _bc_sps30_calculate_crc [0x00, 0x00]])
          { self := example_handle .READ_DATAREADY_FLAG, txn := 2, trace := [] }).2.trace
        = scheduled [] ++ [effect.plan_current_from_now _BC_SPS30_DELAY_MEASUREMENT]) :=
  ⟨(C13_data_ready_decision (constant_bus [0x00, 0x01, _bc_sps30_calculate_crc [0x00, 0x01]])
      { self := example_handle .READ_DATAREADY_FLAG, txn := 2, trace := [] }
      [0x00, 0x01, _bc_sps30_calculate_crc [0x00, 0x01]] rfl rfl (by decide)).2.1 (by decide),
   (C13_data_ready_decision (constant_bus [0x00, 0x00, _bc_sps30_calculate_crc [0x00, 0x00]])
      { self := example_handle .READ_DATAREADY_FLAG, txn := 2, trace := [] }
      [0x00, 0x00, _bc_sps30_calculate_crc [0x00, 0x00]] rfl rfl (by decide)).2.2 (by decide)⟩

set_option maxRecDepth 100000 in
/-- Counterexample to C13 as stated: the status reply `0x00 0x02` with its
correct checksum `0xE3` has a nonzero second byte, yet the step does not
advance to GET_MEASUREMENT_DATA: it stays in READ_DATAREADY_FLAG and
returns to re-poll. -/
theorem C13_nonzero_flag_not_ready_counterexample :
    _bc_sps30_calculate_crc [0x00, 0x02] = 0xE3 ∧
    ([0x00, 0x02, 0xE3] : List Nat).getD 1 0 ≠ 0 ∧
    (task_measure_iter (constant_bus [0x00, 0x02, 0xE3])
        { self := example_handle .READ_DATAREADY_FLAG, txn := 2, trace := [] }).1 = .returned ∧
    (task_measure_iter (constant_bus [0x00, 0x02, 0xE3])
        { self := example_handle .READ_DATAREADY_FLAG, txn := 2, trace := [] }).2.self._state
      = .READ_DATAREADY_FLAG ∧
    ¬ ((task_measure_iter (constant_bus [0x00, 0x02, 0xE3])
          { self := example_handle .READ_DATAREADY_FLAG, txn := 2, trace := [] }).2.self._state
        = .GET_MEASUREMENT_DATA ↔ ([0x00, 0x02, 0xE3] : List Nat).getD 1 0 ≠ 0) := by
  decide

/-! ## Getters after an error -/

/-- C14 (as amended): once the state machine has passed through the ERROR
state, the ERROR event has been raised, the stored mass-concentration,
number-concentration and typical-particle-size fields are unchanged, but the
valid flag is false, so the three getters return `false` and leave the
caller's output untouched; the flag rises again only in a
READ_MEASUREMENT_DATA step whose read and decode succeed. -/
theorem C14_getters_after_error (bus : bc_i2c_bus) (c : task_ctx)
    (mc_out : bc_sps30_mass_concentration_t) (nc_out : bc_sps30_number_concentration_t)
    (tps_out : Nat)
    (hst : c.self._state = .ERROR) :
    ∃ c1, task_measure_iter bus c = (.next_iteration, c1) ∧
      events c1.trace
        = events c.trace ++ [(.ERROR, { c.self with _measurement_valid := false })] ∧
      c1.self._mass_concentration = c.self._mass_concentration ∧
      c1.self._number_concentration = c.self._number_concentration ∧
      c1.self._typical_particle_size = c.self._typical_particle_size ∧
      c1.self._measurement_valid = false ∧
      bc_sps30_get_mass_concentration c1.self mc_out = (false, c1.self, mc_out) ∧
      bc_sps30_get_number_concentration c1.self nc_out = (false, c1.self, nc_out) ∧
      bc_sps30_get_typical_particle_size c1.self tps_out = (false, c1.self, tps_out) ∧
      (∀ (bus2 : bc_i2c_bus) (c2 : task_ctx),
        c2.self._measurement_valid = false →
        (task_measure_iter bus2 c2).2.self._measurement_valid = true →
        c2.self._state = .READ_MEASUREMENT_DATA ∧
        ∃ buffer, bus2.read_reply c2.txn = some buffer ∧
          (_bc_sps30_convert_to_words buffer (BC_SPS30_NUM_WORDS 40)).1 = true) := by
  obtain ⟨c1, e1, s1, _, ev1, _, _, _⟩ := iter_error bus c hst
  have hv : c1.self._measurement_valid = false := by rw [s1]
  refine ⟨c1, e1, ev1, by rw [s1], by rw [s1], by rw [s1], hv, ?_, ?_, ?_, iter_valid_rises⟩
  · simp [bc_sps30_get_mass_concentration, hv]
  · simp [bc_sps30_get_number_concentration, hv]
  · simp [bc_sps30_get_typical_particle_size, hv]

/-- Witness for C14: the ERROR step on a handle holding the patterns of
`1.0 .. 10.0`; afterwards the fields are still stored and every getter
returns `false`, leaving the outputs `(0, 0, 0, 0)`, `(0, 0, 0, 0, 0)`, `0`. -/
theorem C14_getters_after_error_witness :
    ∃ c1,
      task_measure_iter failing_bus { self := measured_handle .ERROR, txn := 0, trace := [] }
        = (.next_iteration, c1) ∧
      c1.self._mass_concentration = (measured_handle .ERROR)._mass_concentration ∧
      c1.self._measurement_valid = false ∧
      bc_sps30_get_mass_concentration c1.self
          { mc_1p0 := 0, mc_2p5 := 0, mc_4p0 := 0, mc_10p0 := 0 }
        = (false, c1.self, { mc_1p0 := 0, mc_2p5 := 0, mc_4p0 := 0, mc_10p0 := 0 }) ∧
      bc_sps30_get_number_concentration c1.self
          { nc_0p5 := 0, nc_1p0 := 0, nc_2p5 := 0, nc_4p0 := 0, nc_10p0 := 0 }
        = (false, c1.self, { nc_0p5 := 0, nc_1p0 := 0, nc_2p5 := 0, nc_4p0 := 0, nc_10p0 := 0 }) ∧
      bc_sps30_get_typical_particle_size c1.self 0 = (false, c1.self, 0) := by
  obtain ⟨c1, e1, _, hm, _, _, hv, g1, g2, g3, _⟩ :=
    C14_getters_after_error failing_bus
      { self := measured_handle .ERROR, txn := 0, trace := [] }
      { mc_1p0 := 0, mc_2p5 := 0, mc_4p0 := 0, mc_10p0 := 0 }
      { nc_0p5 := 0, nc_1p0 := 0, nc_2p5 := 0, nc_4p0 := 0, nc_10p0 := 0 } 0 rfl
  exact ⟨c1, e1, hm, hv, g1, g2, g3⟩

/-- Counterexample to C14 as stated: a handle holding the valid measurement
`1.0 .. 10.0` whose START_MEASUREMENT write fails passes through ERROR; before,
`bc_sps30_get_mass_concentration` delivers `1.0 .. 4.0`; afterwards it returns
`false` and the caller's record `(0, 0, 0, 0)` is left as it was, so the last
valid snapshot is no longer delivered. -/
theorem C14_getters_reset_after_error_counterexample :
    bc_sps30_get_mass_concentration (measured_handle .START_MEASUREMENT)
        { mc_1p0 := 0, mc_2p5 := 0, mc_4p0 := 0, mc_10p0 := 0 }
      = (true, measured_handle .START_MEASUREMENT,
          { mc_1p0 := 0x3F800000, mc_2p5 := 0x40000000, mc_4p0 := 0x40400000,
            mc_10p0 := 0x40800000 }) ∧
    (task_measure_iter failing_bus
        { self := measured_handle .START_MEASUREMENT, txn := 0, trace := [] }).2.self._state
      = .ERROR ∧
    (events (task_measure_iter failing_bus
        (task_measure_iter failing_bus
          { self := measured_handle .START_MEASUREMENT, txn := 0, trace := [] }).2).2.trace).map
        Prod.fst = [.ERROR] ∧
    (bc_sps30_get_mass_concentration
        (task_measure_iter failing_bus
          (task_measure_iter failing_bus
            { self := measured_handle .START_MEASUREMENT, txn := 0, trace := [] }).2).2.self
        { mc_1p0 := 0, mc_2p5 := 0, mc_4p0 := 0, mc_10p0 := 0 }).1 = false ∧
    (bc_sps30_get_mass_concentration
        (task_measure_iter failing_bus
          (task_measure_iter failing_bus
            { self := measured_handle .START_MEASUREMENT, txn := 0, trace := [] }).2).2.self
        { mc_1p0 := 0, mc_2p5 := 0, mc_4p0 := 0, mc_10p0 := 0 }).2.2
      = { mc_1p0 := 0, mc_2p5 := 0, mc_4p0 := 0, mc_10p0 := 0 } ∧
    (bc_sps30_get_number_concentration
        (task_measure_iter failing_bus
          (task_measure_iter failing_bus
            { self := measured_handle .START_MEASUREMENT, txn := 0, trace := [] }).2).2.self
        { nc_0p5 := 0, nc_1p0 := 0, nc_2p5 := 0, nc_4p0 := 0, nc_10p0 := 0 }).1 = false ∧
    (bc_sps30_get_typical_particle_size
        (task_measure_iter failing_bus
          (task_measure_iter failing_bus
            { self := measured_handle .START_MEASUREMENT, txn := 0, trace := [] }).2).2.self
        0).1 = false := by
  decide

/-! ## Wire payloads -/

theorem write_payloads_append (a b : List effect) :
    write_payloads (a ++ b) = write_payloads a ++ write_payloads b := by
  induction a with
  | nil => rfl
  | cons e rest ih => cases e <;> simp [write_payloads, ih]

theorem read_requests_append (a b : List effect) :
    read_requests (a ++ b) = read_requests a ++ read_requests b := by
  induction a with
  | nil => rfl
  | cons e rest ih => cases e <;> simp [read_requests, ih]

theorem iter_write_payload (bus : bc_i2c_bus) (c : task_ctx) :
    (c.self._state = .GET_SERIAL_NUMBER →
      write_payloads (task_measure_iter bus c).2.trace
        = write_payloads c.trace ++ [(c.self._i2c_address, [0xD0, 0x33])]) ∧
    (c.self._state = .START_MEASUREMENT →
      write_payloads (task_measure_iter bus c).2.trace
        = write_payloads c.trace ++ [(c.self._i2c_address, [0x00, 0x10, 0x03, 0x00, 0xAC])]) ∧
    (c.self._state = .SET_DATAREADY_FLAG →
      write_payloads (task_measure_iter bus c).2.trace
        = write_payloads c.trace ++ [(c.self._i2c_address, [0x02, 0x02])]) ∧
    (c.self._state = .GET_MEASUREMENT_DATA →
      write_payloads (task_measure_iter bus c).2.trace
        = write_payloads c.trace ++ [(c.self._i2c_address, [0x03, 0x00])]) ∧
    (c.self._state = .STOP_MEASUREMENT →
      write_payloads (task_measure_iter bus c).2.trace
        = write_payloads c.trace ++ [(c.self._i2c_address, [0x01, 0x04])]) := by
  have hcrc : _bc_sps30_calculate_crc [0x03, 0x00] = 0xAC := by decide
  refine ⟨?_, ?_, ?_, ?_, ?_⟩ <;> intro hst <;> cases hw : bus.write_ok c.txn <;>
    simp [task_measure_iter, hst, bc_i2c_write, set_state, emit, hw, write_payloads_append,
      write_payloads, hcrc]

theorem iter_read_request (bus : bc_i2c_bus) (c : task_ctx) :
    (c.self._state = .READ_SERIAL_NUMBER →
      read_requests (task_measure_iter bus c).2.trace = read_requests c.trace ++ [48]) ∧
    (c.self._state = .READ_DATAREADY_FLAG →
      read_requests (task_measure_iter bus c).2.trace = read_requests c.trace ++ [3]) ∧
    (c.self._state = .READ_MEASUREMENT_DATA →
      read_requests (task_measure_iter bus c).2.trace = read_requests c.trace ++ [60]) := by
  refine ⟨?_, ?_, ?_⟩ <;> intro hst <;> cases hr : bus.read_reply c.txn <;>
    simp only [task_measure_iter, hst, bc_i2c_read, set_state, emit, hr, raise_event] <;>
    repeat' split
  all_goals simp [read_requests_append, read_requests]

theorem iter_keeps_address (bus : bc_i2c_bus) (c : task_ctx) :
    (task_measure_iter bus c).2.self._i2c_address = c.self._i2c_address ∧
    (task_measure_iter bus c).2.self._i2c_channel = c.self._i2c_channel := by
  cases hst : c.self._state <;>
    simp only [task_measure_iter, hst, bc_i2c_read, bc_i2c_write, set_state, emit, raise_event,
      store_measurement] <;>
    repeat' split
  all_goals simp

/-- C15: the bytes handed to the bus write are exactly `[0xD0, 0x33]` in
GET_SERIAL_NUMBER, `[0x00, 0x10, 0x03, 0x00, c]` with `c = checksum([0x03,
0x00]) = 0xAC` in START_MEASUREMENT, `[0x02, 0x02]` in SET_DATAREADY_FLAG,
`[0x03, 0x00]` in GET_MEASUREMENT_DATA and `[0x01, 0x04]` in
STOP_MEASUREMENT, each addressed to `self->_i2c_address`, which is the
address given to `bc_sps30_init` and is changed by no step and no facade
function; the read steps request exactly 48, 3 and 60 bytes in
READ_SERIAL_NUMBER, READ_DATAREADY_FLAG and READ_MEASUREMENT_DATA. -/
theorem C15_wire_payloads :
    _bc_sps30_calculate_crc [0x03, 0x00] = 0xAC ∧
    (∀ (bus : bc_i2c_bus) (c : task_ctx),
      (c.self._state = .GET_SERIAL_NUMBER →
        write_payloads (task_measure_iter bus c).2.trace
          = write_payloads c.trace ++ [(c.self._i2c_address, [0xD0, 0x33])]) ∧
      (c.self._state = .START_MEASUREMENT →
        write_payloads (task_measure_iter bus c).2.trace
          = write_payloads c.trace ++
            [(c.self._i2c_address,
              [0x00, 0x10, 0x03, 0x00, _bc_sps30_calculate_crc [0x03, 0x00]])]) ∧
      (c.self._state = .SET_DATAREADY_FLAG →
        write_payloads (task_measure_iter bus c).2.trace
          = write_payloads c.trace ++ [(c.self._i2c_address, [0x02, 0x02])]) ∧
      (c.self._state = .GET_MEASUREMENT_DATA →
        write_payloads (task_measure_iter bus c).2.trace
          = write_payloads c.trace ++ [(c.self._i2c_address, [0x03, 0x00])]) ∧
      (c.self._state = .STOP_MEASUREMENT →
        write_payloads (task_measure_iter bus c).2.trace
          = write_payloads c.trace ++ [(c.self._i2c_address, [0x01, 0x04])]) ∧
      (c.self._state = .READ_SERIAL_NUMBER →
        read_requests (task_measure_iter bus c).2.trace = read_requests c.trace ++ [48]) ∧
      (c.self._state = .READ_DATAREADY_FLAG →
        read_requests (task_measure_iter bus c).2.trace = read_requests c.trace ++ [3]) ∧
      (c.self._state = .READ_MEASUREMENT_DATA →
        read_requests (task_measure_iter bus c).2.trace = read_requests c.trace ++ [60]) ∧
      (task_measure_iter bus c).2.self._i2c_address = c.self._i2c_address) ∧
    (∀ tick_infinity id_interval id_measure i2c_channel i2c_address : Nat,
      (bc_sps30_init tick_infinity id_interval id_measure i2c_channel i2c_address).1._i2c_address
        = i2c_address) ∧
    (∀ (self : bc_sps30_t) (event_handler : Option Nat) (event_param tick_infinity interval : Nat),
      (bc_sps30_measure self).2.1._i2c_address = self._i2c_address ∧
      (bc_sps30_set_event_handler self event_handler event_param)._i2c_address
        = self._i2c_address ∧
      (bc_sps30_set_update_interval tick_infinity self interval).1._i2c_address
        = self._i2c_address ∧
      (_bc_sps30_task_interval self).1._i2c_address = self._i2c_address) := by
  have hcrc : _bc_sps30_calculate_crc [0x03, 0x00] = 0xAC := by decide
  refine ⟨hcrc, ?_, fun _ _ _ _ _ => rfl, ?_⟩
  · intro bus c
    have hw := iter_write_payload bus c
    have hr := iter_read_request bus c
    rw [hcrc]
    exact ⟨hw.1, hw.2.1, hw.2.2.1, hw.2.2.2.1, hw.2.2.2.2, hr.1, hr.2.1, hr.2.2,
      (iter_keeps_address bus c).1⟩
  · intro self event_handler event_param tick_infinity interval
    refine ⟨?_, rfl, ?_, ?_⟩
    · unfold bc_sps30_measure
      split <;> rfl
    · unfold bc_sps30_set_update_interval
      simp only
      split <;> rfl
    · unfold _bc_sps30_task_interval bc_sps30_measure
      simp only
      split <;> rfl

/-- Witness for C15: the five writes and three reads issued for the handle
initialized with address `0x69`, on a bus where every transaction fails. -/
theorem C15_wire_payloads_witness :
    write_payloads (task_measure_iter failing_bus
        { self := example_handle .GET_SERIAL_NUMBER, txn := 0, trace := [] }).2.trace
      = [(0x69, [0xD0, 0x33])] ∧
    write_payloads (task_measure_iter failing_bus
        { self := example_handle .START_MEASUREMENT, txn := 0, trace := [] }).2.trace
      = [(0x69, [0x00, 0x10, 0x03, 0x00, 0xAC])] ∧
    write_payloads (task_measure_iter failing_bus
        { self := example_handle .SET_DATAREADY_FLAG, txn := 0, trace := [] }).2.trace
      = [(0x69, [0x02, 0x02])] ∧
    write_payloads (task_measure_iter failing_bus
        { self := example_handle .GET_MEASUREMENT_DATA, txn := 0, trace := [] }).2.trace
      = [(0x69, [0x03, 0x00])] ∧
    write_payloads (task_measure_iter failing_bus
        { self := example_handle .STOP_MEASUREMENT, txn := 0, trace := [] }).2.trace
      = [(0x69, [0x01, 0x04])] ∧
    read_requests (task_measure_iter failing_bus
        { self := example_handle .READ_SERIAL_NUMBER, txn := 0, trace := [] }).2.trace = [48] ∧
    read_requests (task_measure_iter failing_bus
        { self := example_handle .READ_DATAREADY_FLAG, txn := 0, trace := [] }).2.trace = [3] ∧
    read_requests (task_measure_iter failing_bus
        { self := example_handle .READ_MEASUREMENT_DATA, txn := 0, trace := [] }).2.trace
      = [60] :=
  ⟨(C15_wire_payloads.2.1 failing_bus
      { self := example_handle .GET_SERIAL_NUMBER, txn := 0, trace := [] }).1 rfl,
   (C15_wire_payloads.2.1 failing_bus
      { self := example_handle .START_MEASUREMENT, txn := 0, trace := [] }).2.1 rfl,
   (C15_wire_payloads.2.1 failing_bus
      { self := example_handle .SET_DATAREADY_FLAG, txn := 0, trace := [] }).2.2.1 rfl,
   (C15_wire_payloads.2.1 failing_bus
      { self := example_handle .GET_MEASUREMENT_DATA, txn := 0, trace := [] }).2.2.2.1 rfl,
   (C15_wire_payloads.2.1 failing_bus
      { self := example_handle .STOP_MEASUREMENT, txn := 0, trace := [] }).2.2.2.2.1 rfl,
   (C15_wire_payloads.2.1 failing_bus
      { self := example_handle .READ_SERIAL_NUMBER, txn := 0, trace := [] }).2.2.2.2.2.1 rfl,
   (C15_wire_payloads.2.1 failing_bus
      { self := example_handle .READ_DATAREADY_FLAG, txn := 0, trace := [] }).2.2.2.2.2.2.1 rfl,
   (C15_wire_payloads.2.1 failing_bus
      { self := example_handle .READ_MEASUREMENT_DATA, txn := 0, trace := [] }).2.2.2.2.2.2.2.1
      rfl⟩

/-! ## No retry in place -/

/-- C16 (as amended): in every state that issues a bus write or read, when
that transaction fails the same state is not re-run: the state executed next
is ERROR, a different state, followed by INITIALIZE, after which the state is
GET_SERIAL_NUMBER.  The three passes belong to the same invocation (none
returns), no scheduler call is made between them (no backoff), only the failed
transaction is issued, and this holds whatever happened before (no retry
limit). -/
theorem C16_failure_goes_to_error (bus : bc_i2c_bus) (c : task_ctx)
    (hfail : transaction_fails bus c) :
    ∃ c1 c2 c3,
      task_measure_iter bus c = (.next_iteration, c1) ∧
      task_measure_iter bus c1 = (.next_iteration, c2) ∧
      task_measure_iter bus c2 = (.next_iteration, c3) ∧
      c1.self._state = .ERROR ∧
      c1.self._state ≠ c.self._state ∧
      c2.self._state = .INITIALIZE ∧
      c3.self._state = .GET_SERIAL_NUMBER ∧
      dispatched c3.trace = dispatched c.trace ++ [c.self._state, .ERROR, .INITIALIZE] ∧
      scheduled c3.trace = scheduled c.trace ∧
      c3.txn = c.txn + 1 := by
  obtain ⟨c1, e1, s1, t1, _, _, d1, p1⟩ := iter_transaction_fails bus c hfail
  obtain ⟨c2, e2, s2, t2, _, _, d2, p2⟩ := iter_error bus c1 (by rw [s1])
  obtain ⟨c3, e3, s3, t3, _, _, d3, p3⟩ := iter_initialize bus c2 (by rw [s2])
  have hne : c.self._state ≠ .ERROR := by
    intro h
    simp [transaction_fails, h] at hfail
  refine ⟨c1, c2, c3, e1, e2, e3, by rw [s1], ?_, by rw [s2], by rw [s3], ?_, ?_, ?_⟩
  · rw [s1]
    exact fun h => hne h.symm
  · rw [d3, d2, d1]
    simp
  · rw [p3, p2, p1]
  · rw [t3, t2, t1]

/-- Witness for C16: a failed SET_DATAREADY_FLAG write. -/
theorem C16_failure_goes_to_error_witness :
    transaction_fails failing_bus
      { self := example_handle .SET_DATAREADY_FLAG, txn := 1, trace := [] } ∧
    ∃ c1 c2 c3,
      task_measure_iter failing_bus
        { self := example_handle .SET_DATAREADY_FLAG, txn := 1, trace := [] }
        = (.next_iteration, c1) ∧
      task_measure_iter failing_bus c1 = (.next_iteration, c2) ∧
      task_measure_iter failing_bus c2 = (.next_iteration, c3) ∧
      c1.self._state = .ERROR ∧
      c1.self._state ≠ .SET_DATAREADY_FLAG ∧
      c2.self._state = .INITIALIZE ∧
      c3.self._state = .GET_SERIAL_NUMBER ∧
      dispatched c3.trace = [.SET_DATAREADY_FLAG, .ERROR, .INITIALIZE] ∧
      scheduled c3.trace = [] ∧
      c3.txn = 2 :=
  ⟨(rfl : failing_bus.write_ok 1 = false),
    C16_failure_goes_to_error failing_bus
      { self := example_handle .SET_DATAREADY_FLAG, txn := 1, trace := [] }
      (rfl : failing_bus.write_ok 1 = false)⟩

/-- Counterexample to C16 as stated: after a failed START_MEASUREMENT write the
state executed next is ERROR, not START_MEASUREMENT; the states executed by
the first four passes are START_MEASUREMENT, ERROR, INITIALIZE,
GET_SERIAL_NUMBER, and START_MEASUREMENT is not run again. -/
theorem C16_no_retry_in_place_counterexample :
    (task_measure_iter failing_bus
        { self := example_handle .START_MEASUREMENT, txn := 0, trace := [] }).1
      = .next_iteration ∧
    (task_measure_iter failing_bus
        { self := example_handle .START_MEASUREMENT, txn := 0, trace := [] }).2.self._state
      = .ERROR ∧
    (task_measure_iter failing_bus
        { self := example_handle .START_MEASUREMENT, txn := 0, trace := [] }).2.self._state
      ≠ .START_MEASUREMENT ∧
    dispatched
        (task_measure_iter failing_bus
          (task_measure_iter failing_bus
            (task_measure_iter failing_bus
              (task_measure_iter failing_bus
                { self := example_handle .START_MEASUREMENT, txn := 0, trace := [] }).2).2).2).2.trace
      = [.START_MEASUREMENT, .ERROR, .INITIALIZE, .GET_SERIAL_NUMBER] := by
  decide

/-! ## Byte reversal -/

theorem be16_to_cpu_lt (s : Nat) : be16_to_cpu s < 2 ^ 24 := by
  rw [be16_to_cpu_eq]
  have : s % 2 ^ 16 < 2 ^ 16 := Nat.mod_lt _ (by positivity)
  omega

/-- C17: `be32_to_cpu` is a full 32-bit byte reversal: applied to the
little-endian host word `b0 + b1 * 2^8 + b2 * 2^16 + b3 * 2^24` of four bytes
it yields `b0 * 2^24 + b1 * 2^16 + b2 * 2^8 + b3`.  `be16_to_cpu` alone
yields up to 24 bits (always below `2^24`, and `0xFFFFFF` at `0xFFFF`); the
result of `be32_to_cpu` is right because the shift by 16 is taken in 32 bits
and the low half is masked with `0xffff`: at `0x00000100` the untruncated
shift is `0x100010000`, at `0x01000000` the unmasked low half is `0x10001`, and
at `0xFFFFFFFF` the expression without truncation and mask differs from
`be32_to_cpu`. -/
theorem C17_be32_to_cpu_byte_reversal :
    (∀ b0 b1 b2 b3 : Nat, b0 < 256 → b1 < 256 → b2 < 256 → b3 < 256 →
      be32_to_cpu (b0 + b1 * 2 ^ 8 + b2 * 2 ^ 16 + b3 * 2 ^ 24)
        = b0 * 2 ^ 24 + b1 * 2 ^ 16 + b2 * 2 ^ 8 + b3) ∧
    (∀ s : Nat, be16_to_cpu s < 2 ^ 24) ∧
    be16_to_cpu 0xFFFF = 0xFFFFFF ∧
    (be16_to_cpu 0x00000100 <<< 16 = 0x100010000 ∧ be32_to_cpu 0x00000100 = 0x00010000) ∧
    (be16_to_cpu (0x01000000 >>> 16) = 0x10001 ∧ be32_to_cpu 0x01000000 = 0x00000001) ∧
    (be16_to_cpu 0xFFFFFFFF <<< 16) ||| be16_to_cpu (0xFFFFFFFF >>> 16)
      ≠ be32_to_cpu 0xFFFFFFFF := by
  refine ⟨?_, be16_to_cpu_lt, by decide, by decide, by decide, by decide⟩
  intro b0 b1 b2 b3 h0 h1 h2 h3
  have h := be32_to_cpu_bytes b0 b1 b2 b3 h0 h1 h2 h3
  unfold be_value at h
  exact h

/-- Witness for C17: the host word `0x0000803F` (wire bytes `3F 80 00 00`)
is reversed to `0x3F800000`, the pattern of `1.0`. -/
theorem C17_be32_to_cpu_byte_reversal_witness :
    (0x3F < 256 ∧ 0x80 < 256 ∧ 0x00 < 256) ∧
    0x3F + 0x80 * 2 ^ 8 + 0x00 * 2 ^ 16 + 0x00 * 2 ^ 24 = 0x0000803F ∧
    0x3F * 2 ^ 24 + 0x80 * 2 ^ 16 + 0x00 * 2 ^ 8 + 0x00 = 0x3F800000 ∧
    be32_to_cpu (0x3F + 0x80 * 2 ^ 8 + 0x00 * 2 ^ 16 + 0x00 * 2 ^ 24)
      = 0x3F * 2 ^ 24 + 0x80 * 2 ^ 16 + 0x00 * 2 ^ 8 + 0x00 :=
  ⟨by decide, by decide, by decide,
    C17_be32_to_cpu_byte_reversal.1 0x3F 0x80 0x00 0x00 (by decide) (by decide) (by decide)
      (by decide)⟩

/-! ## Persistently failing bus -/

/-- One pass in INITIALIZE, ERROR or GET_SERIAL_NUMBER on a bus whose writes
all fail: the loop continues, in one of the same three states. -/
theorem stuck_pass (bus : bc_i2c_bus) (hbus : ∀ n, bus.write_ok n = false) (c : task_ctx)
    (hst : c.self._state = .INITIALIZE ∨ c.self._state = .ERROR ∨
      c.self._state = .GET_SERIAL_NUMBER) :
    ∃ c1, task_measure_iter bus c = (.next_iteration, c1) ∧
      (c1.self._state = .INITIALIZE ∨ c1.self._state = .ERROR ∨
        c1.self._state = .GET_SERIAL_NUMBER) ∧
      (dispatched c1.trace).length = (dispatched c.trace).length + 1 := by
  rcases hst with h | h | h
  · obtain ⟨c1, e1, s1, _, _, _, d1, _⟩ := iter_initialize bus c h
    exact ⟨c1, e1, Or.inr (Or.inr (by rw [s1])), by rw [d1]; simp⟩
  · obtain ⟨c1, e1, s1, _, _, _, d1, _⟩ := iter_error bus c h
    exact ⟨c1, e1, Or.inl (by rw [s1]), by rw [d1]; simp⟩
  · have hf : transaction_fails bus c := by
      simp [transaction_fails, h, hbus]
    obtain ⟨c1, e1, s1, _, _, _, d1, _⟩ := iter_transaction_fails bus c hf
    exact ⟨c1, e1, Or.inr (Or.inl (by rw [s1])), by rw [d1]; simp⟩

theorem stuck_never_returns (bus : bc_i2c_bus) (hbus : ∀ n, bus.write_ok n = false)
    (fuel : Nat) (c : task_ctx)
    (hst : c.self._state = .INITIALIZE ∨ c.self._state = .ERROR ∨
      c.self._state = .GET_SERIAL_NUMBER) :
    _bc_sps30_task_measure bus fuel c = none := by
  induction fuel generalizing c with
  | zero => rfl
  | succ fuel ih =>
    obtain ⟨c1, e1, s1, _⟩ := stuck_pass bus hbus c hst
    simp only [_bc_sps30_task_measure, e1]
    exact ih c1 s1

theorem stuck_visits (bus : bc_i2c_bus) (hbus : ∀ n, bus.write_ok n = false)
    (n : Nat) (c : task_ctx)
    (hst : c.self._state = .INITIALIZE ∨ c.self._state = .ERROR ∨
      c.self._state = .GET_SERIAL_NUMBER) :
    (dispatched (task_measure_passes bus n c).trace).length
      = (dispatched c.trace).length + n := by
  induction n generalizing c with
  | zero => rfl
  | succ n ih =>
    obtain ⟨c1, e1, s1, d1⟩ := stuck_pass bus hbus c hst
    simp only [task_measure_passes, e1]
    rw [ih c1 s1, d1]
    omega

theorem count_events_of_events_eq (ev : bc_sps30_event_t) (a b : List effect)
    (h : events a = events b) : count_events ev a = count_events ev b := by
  unfold count_events
  rw [h]

theorem count_callbacks_of_callbacks_eq (ev : bc_sps30_event_t) (a b : List effect)
    (h : callbacks a = callbacks b) : count_callbacks ev a = count_callbacks ev b := by
  unfold count_callbacks
  rw [h]

theorem count_callbacks_error (self snapshot : bc_sps30_t) (a b : List effect)
    (h : callbacks a = callbacks b ++ callback_calls self .ERROR snapshot) :
    count_callbacks .ERROR a
      = count_callbacks .ERROR b + (if self._event_handler.isSome then 1 else 0) := by
  unfold count_callbacks
  rw [h]
  unfold callback_calls
  cases self._event_handler <;> simp

/-- One pass of the stuck loop with its effect on the ERROR event counts. -/
theorem stuck_pass_counts (bus : bc_i2c_bus) (hbus : ∀ n, bus.write_ok n = false) (c : task_ctx)
    (hst : c.self._state = .INITIALIZE ∨ c.self._state = .ERROR ∨
      c.self._state = .GET_SERIAL_NUMBER) :
    ∃ c1, task_measure_iter bus c = (.next_iteration, c1) ∧
      c1.self._event_handler = c.self._event_handler ∧
      ((c.self._state = .INITIALIZE ∧ c1.self._state = .GET_SERIAL_NUMBER ∧
          count_events .ERROR c1.trace = count_events .ERROR c.trace ∧
          count_callbacks .ERROR c1.trace = count_callbacks .ERROR c.trace) ∨
       (c.self._state = .ERROR ∧ c1.self._state = .INITIALIZE ∧
          count_events .ERROR c1.trace = count_events .ERROR c.trace + 1 ∧
          count_callbacks .ERROR c1.trace
            = count_callbacks .ERROR c.trace +
              (if c.self._event_handler.isSome then 1 else 0)) ∨
       (c.self._state = .GET_SERIAL_NUMBER ∧ c1.self._state = .ERROR ∧
          count_events .ERROR c1.trace = count_events .ERROR c.trace ∧
          count_callbacks .ERROR c1.trace = count_callbacks .ERROR c.trace)) := by
  rcases hst with h | h | h
  · obtain ⟨c1, e1, s1, _, ev1, cb1, _, _⟩ := iter_initialize bus c h
    exact ⟨c1, e1, by rw [s1], Or.inl ⟨h, by rw [s1],
      count_events_of_events_eq _ _ _ ev1, count_callbacks_of_callbacks_eq _ _ _ cb1⟩⟩
  · obtain ⟨c1, e1, s1, _, ev1, cb1, _, _⟩ := iter_error bus c h
    refine ⟨c1, e1, by rw [s1], Or.inr (Or.inl ⟨h, by rw [s1], ?_,
      count_callbacks_error _ _ _ _ cb1⟩)⟩
    unfold count_events
    rw [ev1]
    simp
  · have hf : transaction_fails bus c := by
      simp [transaction_fails, h, hbus]
    obtain ⟨c1, e1, s1, _, ev1, cb1, _, _⟩ := iter_transaction_fails bus c hf
    exact ⟨c1, e1, by rw [s1], Or.inr (Or.inr ⟨h, by rw [s1],
      count_events_of_events_eq _ _ _ ev1, count_callbacks_of_callbacks_eq _ _ _ cb1⟩)⟩

/-- Three passes of the stuck loop: the state is back where it was and exactly
one ERROR event has been raised. -/
theorem stuck_three_passes (bus : bc_i2c_bus) (hbus : ∀ n, bus.write_ok n = false)
    (c : task_ctx)
    (hst : c.self._state = .INITIALIZE ∨ c.self._state = .ERROR ∨
      c.self._state = .GET_SERIAL_NUMBER) :
    ∃ c3, (∀ m, task_measure_passes bus (m + 3) c = task_measure_passes bus m c3) ∧
      (c3.self._state = .INITIALIZE ∨ c3.self._state = .ERROR ∨
        c3.self._state = .GET_SERIAL_NUMBER) ∧
      c3.self._event_handler = c.self._event_handler ∧
      count_events .ERROR c3.trace = count_events .ERROR c.trace + 1 ∧
      count_callbacks .ERROR c3.trace
        = count_callbacks .ERROR c.trace + (if c.self._event_handler.isSome then 1 else 0) := by
  obtain ⟨c1, e1, h1, k1⟩ := stuck_pass_counts bus hbus c hst
  have t1 : c1.self._state = .INITIALIZE ∨ c1.self._state = .ERROR ∨
      c1.self._state = .GET_SERIAL_NUMBER := by
    rcases k1 with ⟨_, s, _⟩ | ⟨_, s, _⟩ | ⟨_, s, _⟩
    · exact Or.inr (Or.inr s)
    · exact Or.inl s
    · exact Or.inr (Or.inl s)
  obtain ⟨c2, e2, h2, k2⟩ := stuck_pass_counts bus hbus c1 t1
  have t2 : c2.self._state = .INITIALIZE ∨ c2.self._state = .ERROR ∨
      c2.self._state = .GET_SERIAL_NUMBER := by
    rcases k2 with ⟨_, s, _⟩ | ⟨_, s, _⟩ | ⟨_, s, _⟩
    · exact Or.inr (Or.inr s)
    · exact Or.inl s
    · exact Or.inr (Or.inl s)
  obtain ⟨c3, e3, h3, k3⟩ := stuck_pass_counts bus hbus c2 t2
  have t3 : c3.self._state = .INITIALIZE ∨ c3.self._state = .ERROR ∨
      c3.self._state = .GET_SERIAL_NUMBER := by
    rcases k3 with ⟨_, s, _⟩ | ⟨_, s, _⟩ | ⟨_, s, _⟩
    · exact Or.inr (Or.inr s)
    · exact Or.inl s
    · exact Or.inr (Or.inl s)
  rw [h1] at h2
  rw [h2] at h3
  rw [h1] at k2
  rw [h2] at k3
  refine ⟨c3, ?_, t3, h3, ?_, ?_⟩
  · intro m
    simp only [task_measure_passes, e1, e2, e3]
  · rcases k1 with ⟨a1, b1, x1, _⟩ | ⟨a1, b1, x1, _⟩ | ⟨a1, b1, x1, _⟩ <;>
      rcases k2 with ⟨a2, b2, x2, _⟩ | ⟨a2, b2, x2, _⟩ | ⟨a2, b2, x2, _⟩ <;>
      rcases k3 with ⟨a3, b3, x3, _⟩ | ⟨a3, b3, x3, _⟩ | ⟨a3, b3, x3, _⟩ <;>
      first
      | (rw [b1] at a2; exact absurd a2 (by decide))
      | (rw [b2] at a3; exact absurd a3 (by decide))
      | omega
  · rcases k1 with ⟨a1, b1, _, y1⟩ | ⟨a1, b1, _, y1⟩ | ⟨a1, b1, _, y1⟩ <;>
      rcases k2 with ⟨a2, b2, _, y2⟩ | ⟨a2, b2, _, y2⟩ | ⟨a2, b2, _, y2⟩ <;>
      rcases k3 with ⟨a3, b3, _, y3⟩ | ⟨a3, b3, _, y3⟩ | ⟨a3, b3, _, y3⟩ <;>
      first
      | (rw [b1] at a2; exact absurd a2 (by decide))
      | (rw [b2] at a3; exact absurd a3 (by decide))
      | omega

theorem stuck_error_counts (bus : bc_i2c_bus) (hbus : ∀ n, bus.write_ok n = false)
    (n : Nat) (c : task_ctx)
    (hst : c.self._state = .INITIALIZE ∨ c.self._state = .ERROR ∨
      c.self._state = .GET_SERIAL_NUMBER) :
    count_events .ERROR (task_measure_passes bus (3 * n) c).trace
      = count_events .ERROR c.trace + n ∧
    count_callbacks .ERROR (task_measure_passes bus (3 * n) c).trace
      = count_callbacks .ERROR c.trace + n * (if c.self._event_handler.isSome then 1 else 0) := by
  induction n generalizing c with
  | zero => simp [task_measure_passes]
  | succ n ih =>
    obtain ⟨c3, hp, t3, h3, ce, cc⟩ := stuck_three_passes bus hbus c hst
    have e : 3 * (n + 1) = 3 * n + 3 := by omega
    rw [e, hp (3 * n)]
    obtain ⟨i1, i2⟩ := ih c3 t3
    rw [i1, i2, ce, cc, h3]
    constructor
    · omega
    · rw [Nat.add_mul]
      omega

theorem stuck_cycle (bus : bc_i2c_bus) (hbus : ∀ n, bus.write_ok n = false) (c : task_ctx)
    (hst : c.self._state = .GET_SERIAL_NUMBER) :
    dispatched (task_measure_passes bus 4 c).trace
      = dispatched c.trace ++
        [.GET_SERIAL_NUMBER, .ERROR, .INITIALIZE, .GET_SERIAL_NUMBER] := by
  have hf : transaction_fails bus c := by
    simp [transaction_fails, hst, hbus]
  obtain ⟨c1, e1, s1, _, _, _, d1, _⟩ := iter_transaction_fails bus c hf
  obtain ⟨c2, e2, s2, _, _, _, d2, _⟩ := iter_error bus c1 (by rw [s1])
  obtain ⟨c3, e3, s3, _, _, _, d3, _⟩ := iter_initialize bus c2 (by rw [s2])
  have h3 : c3.self._state = .GET_SERIAL_NUMBER := by rw [s3]
  have hf3 : transaction_fails bus c3 := by
    simp [transaction_fails, h3, hbus]
  obtain ⟨c4, e4, _, _, _, _, d4, _⟩ := iter_transaction_fails bus c3 hf3
  simp only [task_measure_passes, e1, e2, e3, e4]
  rw [d4, d3, d2, d1, h3, hst]
  simp

/-- C18: if every bus write fails, an invocation of `_bc_sps30_task_measure`
started in INITIALIZE, ERROR or GET_SERIAL_NUMBER never returns (no amount of
fuel yields a result): it cycles GET_SERIAL_NUMBER, ERROR, INITIALIZE,
GET_SERIAL_NUMBER; its first `n` passes are `n` state visits for every `n`;
after `3 n` passes it has raised `n` ERROR events, each delivered in a
callback call when a callback is registered.  Conversely a pass in
GET_SERIAL_NUMBER whose write succeeds, and a pass in READY, return. -/
theorem C18_failing_bus_never_returns :
    (∀ (bus : bc_i2c_bus) (c : task_ctx),
      (∀ n, bus.write_ok n = false) →
      (c.self._state = .INITIALIZE ∨ c.self._state = .ERROR ∨
        c.self._state = .GET_SERIAL_NUMBER) →
      (∀ fuel, _bc_sps30_task_measure bus fuel c = none) ∧
      (∀ n, (dispatched (task_measure_passes bus n c).trace).length
        = (dispatched c.trace).length + n) ∧
      (∀ n, count_events .ERROR (task_measure_passes bus (3 * n) c).trace
        = count_events .ERROR c.trace + n) ∧
      (∀ n handler, c.self._event_handler = some handler →
        count_callbacks .ERROR (task_measure_passes bus (3 * n) c).trace
          = count_callbacks .ERROR c.trace + n) ∧
      (c.self._state = .GET_SERIAL_NUMBER →
        dispatched (task_measure_passes bus 4 c).trace
          = dispatched c.trace ++
            [.GET_SERIAL_NUMBER, .ERROR, .INITIALIZE, .GET_SERIAL_NUMBER])) ∧
    (∀ (bus : bc_i2c_bus) (c : task_ctx) (fuel : Nat),
      c.self._state = .GET_SERIAL_NUMBER → bus.write_ok c.txn = true →
      (task_measure_iter bus c).1 = .returned ∧
      _bc_sps30_task_measure bus (fuel + 1) c = some (task_measure_iter bus c).2 ∧
      (task_measure_iter bus c).2.self._state = .READ_SERIAL_NUMBER) ∧
    (∀ (bus : bc_i2c_bus) (c : task_ctx) (fuel : Nat),
      c.self._state = .READY →
      (task_measure_iter bus c).1 = .returned ∧
      _bc_sps30_task_measure bus (fuel + 1) c = some (task_measure_iter bus c).2 ∧
      (task_measure_iter bus c).2.self._state = .READY) := by
  refine ⟨?_, ?_, ?_⟩
  · intro bus c hbus hst
    refine ⟨fun fuel => stuck_never_returns bus hbus fuel c hst,
      fun n => stuck_visits bus hbus n c hst,
      fun n => (stuck_error_counts bus hbus n c hst).1, ?_, stuck_cycle bus hbus c⟩
    intro n handler hh
    rw [(stuck_error_counts bus hbus n c hst).2, hh]
    simp
  · intro bus c fuel hst hw
    simp [_bc_sps30_task_measure, task_measure_iter, hst, bc_i2c_write, set_state, emit, hw]
  · intro bus c fuel hst
    simp [_bc_sps30_task_measure, task_measure_iter, hst, emit]

/-- Witness for C18: on `failing_bus`, the invocation started right after
initialization has not returned after `1000` passes, its first `10` passes are
`10` state visits and its first `15` passes raise `5` ERROR events to callback
`7`; on a bus whose writes succeed the GET_SERIAL_NUMBER pass returns. -/
theorem C18_failing_bus_never_returns_witness :
    (∀ n, failing_bus.write_ok n = false) ∧
    _bc_sps30_task_measure failing_bus 1000
      { self := example_handle .INITIALIZE, txn := 0, trace := [] } = none ∧
    (dispatched (task_measure_passes failing_bus 10
      { self := example_handle .INITIALIZE, txn := 0, trace := [] }).trace).length
      = (dispatched []).length + 10 ∧
    count_callbacks .ERROR (task_measure_passes failing_bus (3 * 5)
      { self := example_handle .INITIALIZE, txn := 0, trace := [] }).trace
      = count_callbacks .ERROR [] + 5 ∧
    (task_measure_iter (constant_bus [])
      { self := example_handle .GET_SERIAL_NUMBER, txn := 0, trace := [] }).1 = .returned ∧
    (task_measure_iter failing_bus
      { self := example_handle .READY, txn := 0, trace := [] }).1 = .returned :=
  ⟨fun _ => rfl,
   (C18_failing_bus_never_returns.1 failing_bus
      { self := example_handle .INITIALIZE, txn := 0, trace := [] } (fun _ => rfl)
      (Or.inl rfl)).1 1000,
   (C18_failing_bus_never_returns.1 failing_bus
      { self := example_handle .INITIALIZE, txn := 0, trace := [] } (fun _ => rfl)
      (Or.inl rfl)).2.1 10,
   (C18_failing_bus_never_returns.1 failing_bus
      { self := example_handle .INITIALIZE, txn := 0, trace := [] } (fun _ => rfl)
      (Or.inl rfl)).2.2.2.1 5 7 rfl,
   (C18_failing_bus_never_returns.2.1 (constant_bus [])
      { self := example_handle .GET_SERIAL_NUMBER, txn := 0, trace := [] } 0 rfl rfl).1,
   (C18_failing_bus_never_returns.2.2 failing_bus
      { self := example_handle .READY, txn := 0, trace := [] } 0 rfl).1⟩

/-! ## Observable states -/

theorem iter_returned_state (bus : bc_i2c_bus) (c c1 : task_ctx)
    (h : task_measure_iter bus c = (.returned, c1)) :
    c1.self._state = .READY ∨ c1.self._state = .READ_SERIAL_NUMBER ∨
      c1.self._state = .READ_DATAREADY_FLAG ∨ c1.self._state = .READ_MEASUREMENT_DATA := by
  cases hst : c.self._state <;>
    simp only [task_measure_iter, hst, bc_i2c_read, bc_i2c_write, set_state, emit, raise_event]
      at h <;>
    (try split at h) <;> (try split at h) <;> (try split at h) <;>
    simp only [Prod.mk.injEq, reduceCtorEq, false_and, true_and] at h <;>
    subst h <;> simp [hst]

theorem task_measure_returned_state (bus : bc_i2c_bus) (fuel : Nat) (c c1 : task_ctx)
    (h : _bc_sps30_task_measure bus fuel c = some c1) :
    c1.self._state = .READY ∨ c1.self._state = .READ_SERIAL_NUMBER ∨
      c1.self._state = .READ_DATAREADY_FLAG ∨ c1.self._state = .READ_MEASUREMENT_DATA := by
  induction fuel generalizing c with
  | zero => simp [_bc_sps30_task_measure] at h
  | succ fuel ih =>
    cases hi : task_measure_iter bus c with
    | mk flow c2 =>
      cases flow with
      | returned =>
        simp only [_bc_sps30_task_measure, hi, Option.some.injEq] at h
        subst h
        exact iter_returned_state bus c c2 hi
      | next_iteration =>
        simp only [_bc_sps30_task_measure, hi] at h
        exact ih c2 h

theorem apply_op_observable (op : driver_op) (self self1 : bc_sps30_t)
    (hinv : self._state = .INITIALIZE ∨ self._state = .START_MEASUREMENT ∨
      self._state = .READY ∨ self._state = .READ_SERIAL_NUMBER ∨
      self._state = .READ_DATAREADY_FLAG ∨ self._state = .READ_MEASUREMENT_DATA)
    (h : apply_op op self = some self1) :
    self1._state = .INITIALIZE ∨ self1._state = .START_MEASUREMENT ∨
      self1._state = .READY ∨ self1._state = .READ_SERIAL_NUMBER ∨
      self1._state = .READ_DATAREADY_FLAG ∨ self1._state = .READ_MEASUREMENT_DATA := by
  have hmeasure : (bc_sps30_measure self).2.1._state = .INITIALIZE ∨
      (bc_sps30_measure self).2.1._state = .START_MEASUREMENT ∨
      (bc_sps30_measure self).2.1._state = .READY ∨
      (bc_sps30_measure self).2.1._state = .READ_SERIAL_NUMBER ∨
      (bc_sps30_measure self).2.1._state = .READ_DATAREADY_FLAG ∨
      (bc_sps30_measure self).2.1._state = .READ_MEASUREMENT_DATA := by
    unfold bc_sps30_measure
    split
    · exact Or.inr (Or.inl rfl)
    · exact hinv
  cases op with
  | measure =>
    simp only [apply_op, Option.some.injEq] at h
    subst h
    exact hmeasure
  | set_event_handler event_handler event_param =>
    simp only [apply_op, Option.some.injEq] at h
    subst h
    exact hinv
  | set_update_interval tick_infinity interval =>
    simp only [apply_op, Option.some.injEq] at h
    subst h
    unfold bc_sps30_set_update_interval
    simp only
    split <;> exact hinv
  | task_interval =>
    simp only [apply_op, Option.some.injEq] at h
    subst h
    exact hmeasure
  | task_measure bus txn fuel =>
    cases hr : _bc_sps30_task_measure bus fuel { self := self, txn := txn, trace := [] } with
    | none => simp [apply_op, hr] at h
    | some c =>
      simp only [apply_op, hr, Option.some.injEq] at h
      subst h
      rcases task_measure_returned_state bus fuel _ c hr with s | s | s | s
      · exact Or.inr (Or.inr (Or.inl s))
      · exact Or.inr (Or.inr (Or.inr (Or.inl s)))
      · exact Or.inr (Or.inr (Or.inr (Or.inr (Or.inl s))))
      · exact Or.inr (Or.inr (Or.inr (Or.inr (Or.inr s))))

theorem apply_ops_observable (ops : List driver_op) (self self1 : bc_sps30_t)
    (hinv : self._state = .INITIALIZE ∨ self._state = .START_MEASUREMENT ∨
      self._state = .READY ∨ self._state = .READ_SERIAL_NUMBER ∨
      self._state = .READ_DATAREADY_FLAG ∨ self._state = .READ_MEASUREMENT_DATA)
    (h : apply_ops ops self = some self1) :
    self1._state = .INITIALIZE ∨ self1._state = .START_MEASUREMENT ∨
      self1._state = .READY ∨ self1._state = .READ_SERIAL_NUMBER ∨
      self1._state = .READ_DATAREADY_FLAG ∨ self1._state = .READ_MEASUREMENT_DATA := by
  induction ops generalizing self with
  | nil =>
    simp only [apply_ops, Option.some.injEq] at h
    subst h
    exact hinv
  | cons op ops ih =>
    cases ho : apply_op op self with
    | none => simp [apply_ops, ho] at h
    | some self2 =>
      simp only [apply_ops, ho] at h
      exact ih self2 (apply_op_observable op self self2 hinv ho) h

/-- C19: whenever an invocation of `_bc_sps30_task_measure` returns, for every
starting state and every bus behaviour, the state is READY,
READ_SERIAL_NUMBER, READ_DATAREADY_FLAG or READ_MEASUREMENT_DATA.  Hence after
`bc_sps30_init` and any sequence of facade calls, interval-task runs and
step-task invocations that have returned, the state is INITIALIZE,
START_MEASUREMENT or one of these four, and never ERROR, GET_SERIAL_NUMBER,
SET_DATAREADY_FLAG, GET_MEASUREMENT_DATA or STOP_MEASUREMENT. -/
theorem C19_observable_states :
    (∀ (bus : bc_i2c_bus) (fuel : Nat) (c c1 : task_ctx),
      _bc_sps30_task_measure bus fuel c = some c1 →
      c1.self._state = .READY ∨ c1.self._state = .READ_SERIAL_NUMBER ∨
        c1.self._state = .READ_DATAREADY_FLAG ∨ c1.self._state = .READ_MEASUREMENT_DATA) ∧
    (∀ (tick_infinity id_interval id_measure i2c_channel i2c_address : Nat)
        (ops : List driver_op) (self1 : bc_sps30_t),
      apply_ops ops
          (bc_sps30_init tick_infinity id_interval id_measure i2c_channel i2c_address).1
        = some self1 →
      (self1._state = .INITIALIZE ∨ self1._state = .START_MEASUREMENT ∨
        self1._state = .READY ∨ self1._state = .READ_SERIAL_NUMBER ∨
        self1._state = .READ_DATAREADY_FLAG ∨ self1._state = .READ_MEASUREMENT_DATA) ∧
      self1._state ≠ .ERROR ∧ self1._state ≠ .GET_SERIAL_NUMBER ∧
      self1._state ≠ .SET_DATAREADY_FLAG ∧ self1._state ≠ .GET_MEASUREMENT_DATA ∧
      self1._state ≠ .STOP_MEASUREMENT) := by
  refine ⟨task_measure_returned_state, ?_⟩
  intro tick_infinity id_interval id_measure i2c_channel i2c_address ops self1 h
  have hobs := apply_ops_observable ops _ self1 (Or.inl rfl) h
  refine ⟨hobs, ?_, ?_, ?_, ?_, ?_⟩ <;>
    · intro hbad
      rw [hbad] at hobs
      simp at hobs

set_option maxRecDepth 100000 in
/-- Witness for C19: initialization, two step-task invocations that read the
serial number, a measurement request, and the first step-task invocation of
the cycle; the invocation from a failed STOP_MEASUREMENT write returns in
READ_SERIAL_NUMBER. -/
theorem C19_observable_states_witness :
    apply_ops
        [driver_op.task_measure (constant_bus serial_payload) 0 2,
         driver_op.task_measure (constant_bus serial_payload) 1 2,
         driver_op.measure,
         driver_op.task_measure (constant_bus serial_payload) 2 2]
        (bc_sps30_init (2 ^ 64 - 1) 1 2 0 0x69).1
      = some { (bc_sps30_init (2 ^ 64 - 1) 1 2 0 0x69).1 with _state := .READ_DATAREADY_FLAG } ∧
    ({ (bc_sps30_init (2 ^ 64 - 1) 1 2 0 0x69).1 with
        _state := .READ_DATAREADY_FLAG } : bc_sps30_t)._state ≠ .ERROR ∧
    (∃ c1, _bc_sps30_task_measure
        { write_ok := fun n => decide (n ≠ 0), read_reply := fun _ => none } 4
        { self := example_handle .STOP_MEASUREMENT, txn := 0, trace := [] } = some c1 ∧
      (c1.self._state = .READY ∨ c1.self._state = .READ_SERIAL_NUMBER ∨
        c1.self._state = .READ_DATAREADY_FLAG ∨ c1.self._state = .READ_MEASUREMENT_DATA)) := by
  have h1 : apply_ops
        [driver_op.task_measure (constant_bus serial_payload) 0 2,
         driver_op.task_measure (constant_bus serial_payload) 1 2,
         driver_op.measure,
         driver_op.task_measure (constant_bus serial_payload) 2 2]
        (bc_sps30_init (2 ^ 64 - 1) 1 2 0 0x69).1
      = some { (bc_sps30_init (2 ^ 64 - 1) 1 2 0 0x69).1 with
          _state := .READ_DATAREADY_FLAG } := by
    decide
  have h2 : _bc_sps30_task_measure
        { write_ok := fun n => decide (n ≠ 0), read_reply := fun _ => none } 4
        { self := example_handle .STOP_MEASUREMENT, txn := 0, trace := [] }
      = some (task_measure_passes
          { write_ok := fun n => decide (n ≠ 0), read_reply := fun _ => none } 4
          { self := example_handle .STOP_MEASUREMENT, txn := 0, trace := [] }) := by
    decide
  exact ⟨h1, (C19_observable_states.2 (2 ^ 64 - 1) 1 2 0 0x69 _ _ h1).2.1,
    _, h2, C19_observable_states.1 _ 4 _ _ h2⟩

/-! ## UPDATE followed by ERROR -/

/-- The GET_SERIAL_NUMBER step whose write succeeds: the task returns in
READ_SERIAL_NUMBER. -/
theorem iter_get_serial_number_ok (bus : bc_i2c_bus) (c : task_ctx)
    (hst : c.self._state = .GET_SERIAL_NUMBER) (w0 : bus.write_ok c.txn = true) :
    task_measure_iter bus c
      = (.returned,
          { self := { c.self with _state := .READ_SERIAL_NUMBER }
            txn := c.txn + 1
            trace := c.trace ++
              [effect.dispatch .GET_SERIAL_NUMBER,
               effect.i2c_write c.self._i2c_channel c.self._i2c_address [0xd0, 0x33] true,
               effect.plan_current_from_now _BC_SPS30_DELAY_READ] }) := by
  simp [task_measure_iter, hst, bc_i2c_write, set_state, emit, w0]

/-- One pass in INITIALIZE, ERROR or GET_SERIAL_NUMBER on any bus: the stored
measurement is unchanged, a cleared valid flag stays cleared, events are only
added, and the loop either continues in one of the three states or
returns. -/
theorem restart_pass (bus : bc_i2c_bus) (c : task_ctx)
    (hst : c.self._state = .INITIALIZE ∨ c.self._state = .ERROR ∨
      c.self._state = .GET_SERIAL_NUMBER) :
    ∃ flow c1, task_measure_iter bus c = (flow, c1) ∧
      c1.self._mass_concentration = c.self._mass_concentration ∧
      c1.self._number_concentration = c.self._number_concentration ∧
      c1.self._typical_particle_size = c.self._typical_particle_size ∧
      (c.self._measurement_valid = false → c1.self._measurement_valid = false) ∧
      (∃ rest, events c1.trace = events c.trace ++ rest) ∧
      (flow = .next_iteration →
        c1.self._state = .INITIALIZE ∨ c1.self._state = .ERROR ∨
          c1.self._state = .GET_SERIAL_NUMBER) := by
  rcases hst with h | h | h
  · obtain ⟨c1, e1, s1, _, ev1, _, _, _⟩ := iter_initialize bus c h
    exact ⟨_, c1, e1, by rw [s1], by rw [s1], by rw [s1], fun hv => by rw [s1]; exact hv,
      ⟨[], by rw [ev1]; simp⟩, fun _ => Or.inr (Or.inr (by rw [s1]))⟩
  · obtain ⟨c1, e1, s1, _, ev1, _, _, _⟩ := iter_error bus c h
    exact ⟨_, c1, e1, by rw [s1], by rw [s1], by rw [s1], fun _ => by rw [s1],
      ⟨_, ev1⟩, fun _ => Or.inl (by rw [s1])⟩
  · cases hw : bus.write_ok c.txn with
    | false =>
      have hf : transaction_fails bus c := by
        simp [transaction_fails, h, hw]
      obtain ⟨c1, e1, s1, _, ev1, _, _, _⟩ := iter_transaction_fails bus c hf
      exact ⟨_, c1, e1, by rw [s1], by rw [s1], by rw [s1], fun hv => by rw [s1]; exact hv,
        ⟨[], by rw [ev1]; simp⟩, fun _ => Or.inr (Or.inl (by rw [s1]))⟩
    | true =>
      refine ⟨.returned, _, iter_get_serial_number_ok bus c h hw, rfl, rfl, rfl, fun hv => hv,
        ⟨[], ?_⟩, fun hf => by cases hf⟩
      simp [events_append, events]

/-- An invocation continuing from INITIALIZE, ERROR or GET_SERIAL_NUMBER with
the valid flag cleared: whenever it returns, the flag is still cleared, the
stored measurement is unchanged and events have only been added. -/
theorem restart_returns (bus : bc_i2c_bus) (fuel : Nat) (c c1 : task_ctx)
    (hst : c.self._state = .INITIALIZE ∨ c.self._state = .ERROR ∨
      c.self._state = .GET_SERIAL_NUMBER)
    (hv : c.self._measurement_valid = false)
    (h : _bc_sps30_task_measure bus fuel c = some c1) :
    c1.self._measurement_valid = false ∧
    c1.self._mass_concentration = c.self._mass_concentration ∧
    c1.self._number_concentration = c.self._number_concentration ∧
    c1.self._typical_particle_size = c.self._typical_particle_size ∧
    ∃ rest, events c1.trace = events c.trace ++ rest := by
  induction fuel generalizing c with
  | zero => simp [_bc_sps30_task_measure] at h
  | succ fuel ih =>
    obtain ⟨flow, c2, e2, m2, n2, p2, v2, ⟨rest2, ev2⟩, t2⟩ := restart_pass bus c hst
    cases flow with
    | returned =>
      simp only [_bc_sps30_task_measure, e2, Option.some.injEq] at h
      subst h
      exact ⟨v2 hv, m2, n2, p2, rest2, ev2⟩
    | next_iteration =>
      simp only [_bc_sps30_task_measure, e2] at h
      obtain ⟨a, b, d, e, rest, f⟩ := ih c2 (t2 rfl) (v2 hv) h
      exact ⟨a, by rw [b, m2], by rw [d, n2], by rw [e, p2], rest2 ++ rest,
        by rw [f, ev2, List.append_assoc]⟩

/-- The READ_MEASUREMENT_DATA step whose read and decode succeed: the fields
are stored, the flag is set, one UPDATE event is raised with the handle in
that condition, and the state becomes STOP_MEASUREMENT. -/
theorem iter_read_measurement_data_ex (bus : bc_i2c_bus) (c : task_ctx) (buffer : List Nat)
    (hst : c.self._state = .READ_MEASUREMENT_DATA)
    (hread : bus.read_reply c.txn = some buffer)
    (hconv : (_bc_sps30_convert_to_words buffer 20).1 = true) :
    ∃ c1, task_measure_iter bus c = (.next_iteration, c1) ∧
      c1.self = { store_measurement c.self (_bc_sps30_convert_to_words buffer 20).2 with
                  _state := .STOP_MEASUREMENT, _measurement_valid := true } ∧
      c1.txn = c.txn + 1 ∧
      events c1.trace
        = events c.trace ++
          [(.UPDATE, { store_measurement c.self (_bc_sps30_convert_to_words buffer 20).2 with
                       _state := .ERROR, _measurement_valid := true })] ∧
      callbacks c1.trace
        = callbacks c.trace ++
          callback_calls c.self .UPDATE
            { store_measurement c.self (_bc_sps30_convert_to_words buffer 20).2 with
              _state := .ERROR, _measurement_valid := true } ∧
      dispatched c1.trace = dispatched c.trace ++ [.READ_MEASUREMENT_DATA] := by
  have hconv' : _bc_sps30_convert_to_words buffer (BC_SPS30_NUM_WORDS 40)
      = (true, (_bc_sps30_convert_to_words buffer 20).2) := by
    show _bc_sps30_convert_to_words buffer 20 = _
    rw [← hconv]
  refine ⟨_, iter_read_measurement_data_ok bus c buffer _ hst hread hconv', ?_, rfl, ?_, ?_, ?_⟩
  · simp [set_state, raise_event, emit, store_measurement]
  · simp [set_state, raise_event, emit, store_measurement, events_append, events]
  · cases hh : c.self._event_handler <;>
      simp [set_state, raise_event, emit, store_measurement, callbacks_append, callbacks,
        callback_calls, hh]
  · simp [set_state, raise_event, emit, dispatched_append, dispatched]

/-- C20: if the READ_MEASUREMENT_DATA read and decode succeed but the
STOP_MEASUREMENT write that follows fails, the same invocation raises the
UPDATE event (the handle has the valid flag true and the new fields stored at
that time) and then an ERROR event, and continues from INITIALIZE with the
valid flag false.  Whenever the invocation returns, the valid flag is false,
the stored fields are the freshly decoded values and all three getters return
`false`; it returns (in READ_SERIAL_NUMBER, with exactly these two events) when
the GET_SERIAL_NUMBER write that follows succeeds. -/
theorem C20_update_then_error (bus : bc_i2c_bus) (c : task_ctx) (reply : List Nat)
    (mc_out : bc_sps30_mass_concentration_t) (nc_out : bc_sps30_number_concentration_t)
    (tps_out : Nat)
    (hst : c.self._state = .READ_MEASUREMENT_DATA)
    (r0 : bus.read_reply c.txn = some reply)
    (hconv : (_bc_sps30_convert_to_words reply 20).1 = true)
    (w1 : bus.write_ok (c.txn + 1) = false) :
    (∃ c1 c2 c3,
      task_measure_iter bus c = (.next_iteration, c1) ∧
      task_measure_iter bus c1 = (.next_iteration, c2) ∧
      task_measure_iter bus c2 = (.next_iteration, c3) ∧
      c1.self._state = .STOP_MEASUREMENT ∧
      c2.self._state = .ERROR ∧
      c3.self = { store_measurement c.self (_bc_sps30_convert_to_words reply 20).2 with
                  _state := .INITIALIZE, _measurement_valid := false } ∧
      events c3.trace
        = events c.trace ++
          [(.UPDATE, { store_measurement c.self (_bc_sps30_convert_to_words reply 20).2 with
                       _state := .ERROR, _measurement_valid := true }),
           (.ERROR, { store_measurement c.self (_bc_sps30_convert_to_words reply 20).2 with
                      _state := .ERROR, _measurement_valid := false })] ∧
      callbacks c3.trace
        = callbacks c.trace ++
          (callback_calls c.self .UPDATE
            { store_measurement c.self (_bc_sps30_convert_to_words reply 20).2 with
              _state := .ERROR, _measurement_valid := true } ++
           callback_calls c.self .ERROR
            { store_measurement c.self (_bc_sps30_convert_to_words reply 20).2 with
              _state := .ERROR, _measurement_valid := false })) ∧
    (∀ (fuel : Nat) (c4 : task_ctx), _bc_sps30_task_measure bus fuel c = some c4 →
      c4.self._measurement_valid = false ∧
      c4.self._mass_concentration
        = (store_measurement c.self (_bc_sps30_convert_to_words reply 20).2)._mass_concentration ∧
      c4.self._number_concentration
        = (store_measurement c.self
            (_bc_sps30_convert_to_words reply 20).2)._number_concentration ∧
      c4.self._typical_particle_size
        = (store_measurement c.self
            (_bc_sps30_convert_to_words reply 20).2)._typical_particle_size ∧
      bc_sps30_get_mass_concentration c4.self mc_out = (false, c4.self, mc_out) ∧
      bc_sps30_get_number_concentration c4.self nc_out = (false, c4.self, nc_out) ∧
      bc_sps30_get_typical_particle_size c4.self tps_out = (false, c4.self, tps_out) ∧
      ∃ rest, events c4.trace
        = events c.trace ++
          [(.UPDATE, { store_measurement c.self (_bc_sps30_convert_to_words reply 20).2 with
                       _state := .ERROR, _measurement_valid := true }),
           (.ERROR, { store_measurement c.self (_bc_sps30_convert_to_words reply 20).2 with
                      _state := .ERROR, _measurement_valid := false })] ++ rest) ∧
    (bus.write_ok (c.txn + 2) = true →
      ∀ fuel, ∃ c5, _bc_sps30_task_measure bus (fuel + 5) c = some c5 ∧
        c5.self = { store_measurement c.self (_bc_sps30_convert_to_words reply 20).2 with
                    _state := .READ_SERIAL_NUMBER, _measurement_valid := false } ∧
        events c5.trace
          = events c.trace ++
            [(.UPDATE, { store_measurement c.self (_bc_sps30_convert_to_words reply 20).2 with
                         _state := .ERROR, _measurement_valid := true }),
             (.ERROR, { store_measurement c.self (_bc_sps30_convert_to_words reply 20).2 with
                        _state := .ERROR, _measurement_valid := false })] ∧
        dispatched c5.trace
          = dispatched c.trace ++
            [.READ_MEASUREMENT_DATA, .STOP_MEASUREMENT, .ERROR, .INITIALIZE,
             .GET_SERIAL_NUMBER]) := by
  obtain ⟨c1, e1, s1, t1, ev1, cb1, d1⟩ := iter_read_measurement_data_ex bus c reply hst r0 hconv
  have q1 : c1.self._state = .STOP_MEASUREMENT := by rw [s1]
  have hf : transaction_fails bus c1 := by
    simp [transaction_fails, q1, t1, w1]
  obtain ⟨c2, e2, s2, t2, ev2, cb2, d2, _⟩ := iter_transaction_fails bus c1 hf
  have q2 : c2.self._state = .ERROR := by rw [s2]
  obtain ⟨c3, e3, s3, t3, ev3, cb3, d3, _⟩ := iter_error bus c2 q2
  have hs3 : c3.self = { store_measurement c.self (_bc_sps30_convert_to_words reply 20).2 with
      _state := .INITIALIZE, _measurement_valid := false } := by
    rw [s3, s2, s1]
  have hev3 : events c3.trace
      = events c.trace ++
        [(.UPDATE, { store_measurement c.self (_bc_sps30_convert_to_words reply 20).2 with
                     _state := .ERROR, _measurement_valid := true }),
         (.ERROR, { store_measurement c.self (_bc_sps30_convert_to_words reply 20).2 with
                    _state := .ERROR, _measurement_valid := false })] := by
    rw [ev3, ev2, ev1, s2, s1]
    simp
  refine ⟨⟨c1, c2, c3, e1, e2, e3, q1, q2, hs3, hev3, ?_⟩, ?_, ?_⟩
  · rw [cb3, cb2, cb1, s2, s1]
    simp only [List.append_assoc]
    rfl
  · intro fuel c4 h
    rcases fuel with _ | _ | _ | fuel
    · simp [_bc_sps30_task_measure] at h
    · simp [_bc_sps30_task_measure, e1] at h
    · simp [_bc_sps30_task_measure, e1, e2] at h
    · simp only [_bc_sps30_task_measure, e1, e2, e3] at h
      obtain ⟨v, m, n, p, rest, hev⟩ := restart_returns bus fuel c3 c4
        (Or.inl (by rw [hs3])) (by rw [hs3]) h
      refine ⟨v, by rw [m, hs3], by rw [n, hs3], by rw [p, hs3], ?_, ?_, ?_,
        rest, by rw [hev, hev3]⟩
      · simp [bc_sps30_get_mass_concentration, v]
      · simp [bc_sps30_get_number_concentration, v]
      · simp [bc_sps30_get_typical_particle_size, v]
  · intro w2 fuel
    obtain ⟨c4, e4, s4, t4, ev4, _, d4, _⟩ := iter_initialize bus c3 (by rw [hs3])
    have q4 : c4.self._state = .GET_SERIAL_NUMBER := by rw [s4]
    have e5 := iter_get_serial_number_ok bus c4 q4 (by rw [t4, t3, t2, t1]; exact w2)
    refine ⟨(task_measure_iter bus c4).2,
      by simp only [_bc_sps30_task_measure, e1, e2, e3, e4, e5], ?_, ?_, ?_⟩
    · rw [e5]
      simp only [s4, hs3]
    · rw [e5]
      simp [events_append, ev4, hev3, events]
    · rw [e5]
      simp [dispatched_append, d4, d3, d2, d1, q1, dispatched]

set_option maxRecDepth 100000 in
/-- Witness for C20: on `stop_failing_bus` the invocation started in
READ_MEASUREMENT_DATA (transaction `4`) calls callback `7` with UPDATE, the
valid flag being true at that time, and then with ERROR; it returns with the
valid flag false, the patterns of `1.0 .. 4.0` stored, and
`bc_sps30_get_mass_concentration` returning `false`. -/
theorem C20_update_then_error_witness :
    ∃ c5,
      _bc_sps30_task_measure stop_failing_bus 5
        { self := example_handle .READ_MEASUREMENT_DATA, txn := 4, trace := [] } = some c5 ∧
      (events c5.trace).map (fun x => (x.1, x.2._measurement_valid))
        = [(.UPDATE, true), (.ERROR, false)] ∧
      c5.self._state = .READ_SERIAL_NUMBER ∧
      c5.self._measurement_valid = false ∧
      c5.self._mass_concentration
        = { mc_1p0 := 0x3F800000, mc_2p5 := 0x40000000, mc_4p0 := 0x40400000,
            mc_10p0 := 0x40800000 } ∧
      bc_sps30_get_mass_concentration c5.self
          { mc_1p0 := 0, mc_2p5 := 0, mc_4p0 := 0, mc_10p0 := 0 }
        = (false, c5.self, { mc_1p0 := 0, mc_2p5 := 0, mc_4p0 := 0, mc_10p0 := 0 }) := by
  have hc := C20_update_then_error stop_failing_bus
    { self := example_handle .READ_MEASUREMENT_DATA, txn := 4, trace := [] }
    (measurement_payload float_patterns_1_to_10)
    { mc_1p0 := 0, mc_2p5 := 0, mc_4p0 := 0, mc_10p0 := 0 }
    { nc_0p5 := 0, nc_1p0 := 0, nc_2p5 := 0, nc_4p0 := 0, nc_10p0 := 0 } 0
    rfl rfl (by decide) rfl
  obtain ⟨c5, e5, s5, ev5, _⟩ := hc.2.2 rfl 0
  obtain ⟨v, m, _, _, g, _, _, _⟩ := hc.2.1 5 c5 e5
  refine ⟨c5, e5, ?_, by rw [s5], v, ?_, g⟩
  · rw [ev5]
    rfl
  · rw [m]
    decide

end bc_sps30
